import Mathlib

/-!
DEX offer relay and consistency digest.

A shallow embedding of `src/dex/dexcrc.h` (the digest `CDexCrc`), of
`src/dex/dexmanager.cpp` (`CDexManager::ProcessMessage`) and of `src/dex/rpc.cpp`
(the thirteen RPC commands of the category dex), followed by the properties
established about them.

Machine integers are natural numbers; `uint256` arithmetic is reduced modulo
`2^256` and `uint32_t` arithmetic modulo `2^32` wherever the code can overflow.
-/

namespace dex

/-! ## Data model -/

/-- Status of an offer (`dex::Indefined`, `dex::Active`, `dex::Draft`, ... in `rpc.cpp`). -/
inductive StatusOffer where
  | Indefined
  | Active
  | Draft
  | Expired
  | Cancelled
  | Suspended
  | Unconfirmed
deriving DecidableEq, Repr

/-- Modelled from the spec: the offer entity `CDexOffer` (`dexoffer.h` is not among the
sources).  The fields are the ones the spec lists and `rpc.cpp` reads and writes; `hash`
and `idTransaction` are `uint256` values, `editingVersion` is a `uint32_t`. -/
structure CDexOffer where
  idTransaction : Nat
  hash : Nat
  pubKey : String
  type : String
  countryIso : String
  currencyIso : String
  paymentMethod : Nat
  price : Nat
  minAmount : Nat
  timeCreate : Nat
  timeToExpiration : Nat
  shortInfo : String
  details : String
  status : StatusOffer
  editingVersion : Nat
  /-- The flag behind `CDexOffer::isMyOffer()`; it is not part of the wire format. -/
  myoffer_ : Bool := false
deriving DecidableEq, Repr

/-- Modelled from the spec: `CDexOffer::isBuy()`, true for the offer type Buy.  The type is
kept as the string the offer carries, so that an offer of neither type can be written down. -/
def CDexOffer.isBuy (o : CDexOffer) : Bool := o.type == "buy"

/-- Modelled from the spec: `CDexOffer::isSell()`, true for the offer type Sell. -/
def CDexOffer.isSell (o : CDexOffer) : Bool := o.type == "sell"

/-! ## The digest `CDexCrc` (dexcrc.h) -/

/-- The three public fields of `class CDexCrc`: `uint256 hashsum`, `uint256 hashxor`,
`uint32_t editingVersionSum`. -/
structure CDexCrc where
  hashsum : Nat
  hashxor : Nat
  editingVersionSum : Nat
deriving DecidableEq, Repr

/-- The fields of a digest fit their machine types. -/
def CDexCrc.InRange (d : CDexCrc) : Prop :=
  d.hashsum < 2 ^ 256 ∧ d.hashxor < 2 ^ 256 ∧ d.editingVersionSum < 2 ^ 32

instance (d : CDexCrc) : Decidable d.InRange := by
  unfold CDexCrc.InRange; infer_instance

/-- Modelled from the spec: `CDexCrc::add256` (declared in dexcrc.h, body not among the
sources): 256-bit addition modulo 2^256, the carry out of the top limb being dropped. -/
def add256 (a b : Nat) : Nat := (a + b) % 2 ^ 256

/-- Modelled from the spec: `CDexCrc::xor256` (declared in dexcrc.h, body not among the
sources): bitwise XOR of two 256-bit values. -/
def xor256 (a b : Nat) : Nat := a ^^^ b

/-- Modelled from the spec: the default constructor `CDexCrc()`, the zero digest
(`sum=0, xor=0, versionSum=0`). -/
def CDexCrc.zero : CDexCrc := { hashsum := 0, hashxor := 0, editingVersionSum := 0 }

/-- Modelled from the spec: `CDexCrc::operator+(const CDexCrc&)` (declared in dexcrc.h, body
not among the sources): `sum = a.sum + b.sum (mod 2^256)`, `xor = a.xor ^ b.xor`,
`versionSum = a.versionSum + b.versionSum (mod 2^32)`. -/
def CDexCrc.add (a b : CDexCrc) : CDexCrc :=
  { hashsum := add256 a.hashsum b.hashsum
    hashxor := xor256 a.hashxor b.hashxor
    editingVersionSum := (a.editingVersionSum + b.editingVersionSum) % 2 ^ 32 }

/-- Modelled from the spec: the constructor `CDexCrc(const CDexOffer &off)`, the digest of the
singleton set holding `off` (`fromOffer`). -/
def CDexCrc.ofOffer (off : CDexOffer) : CDexCrc :=
  { hashsum := off.hash, hashxor := off.hash, editingVersionSum := off.editingVersion }

/-- Modelled from the spec: `CDexCrc::operator+(const CDexOffer &off)`, combination with the
digest of one offer. -/
def CDexCrc.addOffer (d : CDexCrc) (off : CDexOffer) : CDexCrc :=
  d.add (CDexCrc.ofOffer off)

/-- Modelled from the spec: `CDexCrc::operator+(const std::list<CDexOffer> &offlist)`, the
left fold of the combination over a list of offers (`combineMany` when started from the zero
digest). -/
def CDexCrc.addOfferList (d : CDexCrc) (offlist : List CDexOffer) : CDexCrc :=
  offlist.foldl CDexCrc.addOffer d

/-- Additive inverse of a 256-bit value modulo 2^256. -/
def neg256 (a : Nat) : Nat := (2 ^ 256 - a % 2 ^ 256) % 2 ^ 256

/-- Subtraction of 32-bit values modulo 2^32. -/
def sub32 (a b : Nat) : Nat := (a + (2 ^ 32 - b % 2 ^ 32)) % 2 ^ 32

/-- Modelled from the spec: `remove(digest, offer)`; dexcrc.h declares no such operation.
The additive inverse of the offer hash is added to `hashsum` modulo 2^256, the hash is XORed
into `hashxor` a second time, and the offer's `editingVersion` is subtracted modulo 2^32. -/
def CDexCrc.remove (d : CDexCrc) (off : CDexOffer) : CDexCrc :=
  { hashsum := add256 d.hashsum (neg256 off.hash)
    hashxor := xor256 d.hashxor off.hash
    editingVersionSum := sub32 d.editingVersionSum off.editingVersion }

/-! ### Serialisation of the digest -/

/-- A byte stream (`CDataStream` restricted to raw bytes); each element is one byte. -/
abbrev ByteStream := List Nat

/-- The two instantiations of `ser_action` in `SerializationOp`. -/
inductive SerAction where
  | CSerActionSerialize
  | CSerActionUnserialize
deriving DecidableEq, Repr

/-- The `width` bytes of `v`, least significant first, as the stream writes a fixed-width
integer. -/
def toBytesLE : Nat → Nat → List Nat
  | 0, _ => []
  | width + 1, v => v % 256 :: toBytesLE width (v / 256)

/-- The integer held by a little-endian byte sequence. -/
def ofBytesLE : List Nat → Nat
  | [] => 0
  | b :: bs => b + 256 * ofBytesLE bs

/-- Modelled from the spec: the macro `READWRITE` (serialize.h, not among the sources) applied
to a fixed-width unsigned field of `width` bytes.  Serialising appends exactly `width` bytes
and no length prefix; unserialising consumes `width` bytes from the front of the stream and
fails when the stream is shorter (the stream throws on end of data). -/
def READWRITE (width : Nat) (ser_action : SerAction) (s : ByteStream) (field : Nat) :
    Option (Nat × ByteStream) :=
  match ser_action with
  | .CSerActionSerialize => some (field, s ++ toBytesLE width field)
  | .CSerActionUnserialize =>
    if s.length < width then none else some (ofBytesLE (s.take width), s.drop width)

/-- The method `CDexCrc::SerializationOp` (dexcrc.h lines 58-63): `READWRITE(hashsum)`,
`READWRITE(hashxor)`, `READWRITE(editingVersionSum)` in this order.  The result is the object
after the operation and the stream after it. -/
def CDexCrc.SerializationOp (s : ByteStream) (ser_action : SerAction) (d : CDexCrc) :
    Option (CDexCrc × ByteStream) :=
  match READWRITE 32 ser_action s d.hashsum with
  | none => none
  | some (hsum, s1) =>
    match READWRITE 32 ser_action s1 d.hashxor with
    | none => none
    | some (hxor, s2) =>
      match READWRITE 4 ser_action s2 d.editingVersionSum with
      | none => none
      | some (evsum, s3) =>
        some ({ hashsum := hsum, hashxor := hxor, editingVersionSum := evsum }, s3)

/-! ## The relay manager (dexmanager.cpp) -/

/-- Wire command of an offer broadcast, `NetMsgType::DEXOFFBCST` (protocol.cpp is not among
the sources; only its being different from the other commands matters). -/
def NetMsgType.DEXOFFBCST : String := "dexoffbcst"

/-- Wire command of an offer deletion, `NetMsgType::DEXDELOFFER`, as used by `deldexoffer`
in rpc.cpp. -/
def NetMsgType.DEXDELOFFER : String := "dexdeloffer"

/-- A peer handle (`CNode`): an identity, whether the connection manager counts the peer as
fully connected, and the protocol version used for sending (`GetSendVersion()`). -/
structure CNode where
  id : Nat
  fFullyConnected : Bool
  nSendVersion : Nat
deriving DecidableEq, Repr

/-- The payload of a DEX message, as a stream holding a serialised offer followed by the
bytes after it (a signature in a deletion message).  `vRecv >> offer` reads `offer`. -/
structure CDataStream where
  offer : CDexOffer
  vchSign : List Nat
deriving DecidableEq, Repr

/-- An outbound message, as built by `CNetMsgMaker`. -/
structure CSerializedNetMsg where
  command : String
  nVersion : Nat
  data : CDataStream
deriving DecidableEq, Repr

/-- The call `CNetMsgMaker(nVersion).Make(command, offer)`. -/
def CNetMsgMaker.Make (nVersion : Nat) (command : String) (offer : CDexOffer) :
    CSerializedNetMsg :=
  { command := command, nVersion := nVersion, data := { offer := offer, vchSign := [] } }

/-- Modelled from the spec: the persistent offer store `dex::DexDB` (dexdb.h is not among
the sources), with its buy partition, its sell partition and the table of own offers. -/
structure DexDB where
  offersBuy : List CDexOffer
  offersSell : List CDexOffer
  myOffers : List CDexOffer
deriving DecidableEq, Repr

/-- Modelled from the spec: `DexDB::isExistOfferBuy(idTransaction)`, the store's
`exists(type, id)` on the buy partition. -/
def DexDB.isExistOfferBuy (db : DexDB) (idTransaction : Nat) : Bool :=
  db.offersBuy.any (fun o => o.idTransaction == idTransaction)

/-- Modelled from the spec: `DexDB::isExistOfferSell(idTransaction)`, the store's
`exists(type, id)` on the sell partition. -/
def DexDB.isExistOfferSell (db : DexDB) (idTransaction : Nat) : Bool :=
  db.offersSell.any (fun o => o.idTransaction == idTransaction)

/-- Modelled from the spec: `DexDB::addOfferBuy(offer)`, the store's `insert(offer)` on the
buy partition. -/
def DexDB.addOfferBuy (db : DexDB) (offer : CDexOffer) : DexDB :=
  { db with offersBuy := db.offersBuy ++ [offer] }

/-- Modelled from the spec: `DexDB::addOfferSell(offer)`, the store's `insert(offer)` on the
sell partition. -/
def DexDB.addOfferSell (db : DexDB) (offer : CDexOffer) : DexDB :=
  { db with offersSell := db.offersSell ++ [offer] }

/-- The partition of the store that holds the offers of the given type. -/
def DexDB.partition (db : DexDB) (type : String) : List CDexOffer :=
  if type == "buy" then db.offersBuy
  else if type == "sell" then db.offersSell
  else []

/-- The records the store holds under the key `(type, idTransaction)`. -/
def DexDB.records (db : DexDB) (type : String) (idTransaction : Nat) : List CDexOffer :=
  (db.partition type).filter (fun o => o.idTransaction == idTransaction)

/-- Whether the key `(type, idTransaction)` of an offer is present in the partition of the
offer's own type. -/
def DexDB.isExistOffer (db : DexDB) (offer : CDexOffer) : Bool :=
  (offer.isBuy && db.isExistOfferBuy offer.idTransaction)
    || (offer.isSell && db.isExistOfferSell offer.idTransaction)

/-- The calls `ProcessMessage` makes on its collaborators, in program order. -/
inductive Effect where
  /-- The construction `dex::DexDB db(strDexDbFile)`, which opens the store. -/
  | DexDB
  | isExistOfferBuy (idTransaction : Nat)
  | addOfferBuy (offer : CDexOffer)
  | isExistOfferSell (idTransaction : Nat)
  | addOfferSell (offer : CDexOffer)
  /-- The call `g_connman->CopyNodeVector(CConnman::FullyConnectedOnly)`. -/
  | CopyNodeVector
  | PushMessage (pNode : CNode) (msg : CSerializedNetMsg)
  | ReleaseNodeVector
  | LogPrintf (fmt : String)
deriving DecidableEq, Repr

/-- The effect is a call on the store (opening it, reading it or writing it). -/
def Effect.isStore : Effect → Bool
  | .DexDB => true
  | .isExistOfferBuy _ => true
  | .addOfferBuy _ => true
  | .isExistOfferSell _ => true
  | .addOfferSell _ => true
  | _ => false

/-- The effect is an insertion into the store. -/
def Effect.isInsert : Effect → Bool
  | .addOfferBuy _ => true
  | .addOfferSell _ => true
  | _ => false

/-- The effect belongs to the relay block (lines 58-63 of dexmanager.cpp). -/
def Effect.isRelay : Effect → Bool
  | .CopyNodeVector => true
  | .PushMessage _ _ => true
  | .ReleaseNodeVector => true
  | _ => false

/-- The messages pushed to peers, in order, with the peer each one went to. -/
def pushes : List Effect → List (CNode × CSerializedNetMsg)
  | [] => []
  | .PushMessage pNode msg :: es => (pNode, msg) :: pushes es
  | _ :: es => pushes es

/-- The relay block was entered. -/
def relayFired (es : List Effect) : Bool := es.any Effect.isRelay

/-- What `ProcessMessage` reads from outside the store: the external validator
`offer.Check(true)`, the ledger check `CDex(offer).CheckOfferTx(error)`, and the node vector of
the connection manager `g_connman`. -/
structure Env where
  Check : CDexOffer → Bool
  CheckOfferTx : CDexOffer → Bool
  vNodes : List CNode

/-- The call `g_connman->CopyNodeVector(CConnman::FullyConnectedOnly)`: the fully connected
peers, in the order of the node vector. -/
def Env.CopyNodeVector (env : Env) : List CNode :=
  env.vNodes.filter (fun pNode => pNode.fFullyConnected)

/-- The calls of the relay block (dexmanager.cpp lines 58-63) for one offer: the snapshot of
the fully connected peers, one `PushMessage` per peer of the snapshot, and the release of the
snapshot. -/
def relayEffects (env : Env) (offer : CDexOffer) : List Effect :=
  [Effect.CopyNodeVector]
    ++ env.CopyNodeVector.map (fun pNode =>
        Effect.PushMessage pNode
          (CNetMsgMaker.Make pNode.nSendVersion NetMsgType.DEXOFFBCST offer))
    ++ [Effect.ReleaseNodeVector]

/-- The state `ProcessMessage` runs against: the contents of the store file `strDexDbFile`,
which is all the method reads and writes besides the node vector. -/
structure DexState where
  db : DexDB
deriving DecidableEq, Repr

/-- The method `CDexManager::ProcessMessage` (dexmanager.cpp lines 30-73).  The result is
the state after the call and the calls made on the collaborators.  The stream is taken to
hold a decodable offer, which `vRecv >> offer` reads; `bFound0`, `bFound1`, `bFound2` are the
values of the local `bFound` after its declaration, the buy block and the sell block. -/
def ProcessMessage (env : Env) (_pfrom : CNode) (strCommand : String) (vRecv : CDataStream)
    (st : DexState) : DexState × List Effect :=
  if strCommand = NetMsgType.DEXOFFBCST then
    let offer := vRecv.offer
    if env.Check offer then
      if env.CheckOfferTx offer then
        let db0 := st.db
        let t0 := [Effect.DexDB]
        let bFound0 := false
        let (db1, bFound1, t1) :=
          if offer.isBuy then
            if db0.isExistOfferBuy offer.idTransaction then
              (db0, true, t0 ++ [Effect.isExistOfferBuy offer.idTransaction])
            else
              (db0.addOfferBuy offer, bFound0,
                t0 ++ [Effect.isExistOfferBuy offer.idTransaction, Effect.addOfferBuy offer])
          else (db0, bFound0, t0)
        let (db2, bFound2, t2) :=
          if offer.isSell then
            if db1.isExistOfferSell offer.idTransaction then
              (db1, true, t1 ++ [Effect.isExistOfferSell offer.idTransaction])
            else
              (db1.addOfferSell offer, bFound1,
                t1 ++ [Effect.isExistOfferSell offer.idTransaction, Effect.addOfferSell offer])
          else (db1, bFound1, t1)
        let t3 :=
          if !bFound2 then
            t2 ++ [Effect.CopyNodeVector]
              ++ env.CopyNodeVector.map (fun pNode =>
                  Effect.PushMessage pNode
                    (CNetMsgMaker.Make pNode.nSendVersion NetMsgType.DEXOFFBCST offer))
              ++ [Effect.ReleaseNodeVector]
          else t2
        ({ st with db := db2 }, t3 ++ [Effect.LogPrintf "DEXOFFBCST --\n%s\nfound %d\n"])
      else
        (st, [Effect.LogPrintf "DEXOFFBCST --check offer tx fail(%s)\n"])
    else
      (st, [Effect.LogPrintf "DEXOFFBCST -- offer check fail\n"])
  else
    (st, [])

/-- One inbound delivery: what the process sees at that moment and the sending peer. -/
structure Delivery where
  env : Env
  pfrom : CNode

/-- The same message delivered once per element of `ds`, in sequence.  The result is the
final state and, for each delivery, the calls it made. -/
def deliverAll (strCommand : String) (vRecv : CDataStream) :
    List Delivery → DexState → DexState × List (List Effect)
  | [], st => (st, [])
  | d :: ds, st =>
    let r := ProcessMessage d.env d.pfrom strCommand vRecv st
    let rs := deliverAll strCommand vRecv ds r.1
    (rs.1, r.2 :: rs.2)

/-! ## The RPC commands (rpc.cpp) -/

/-- The two offer types `dex::Buy` and `dex::Sell` (`dex::TypeOffer`). -/
inductive TypeOffer where
  | Buy
  | Sell
deriving DecidableEq, Repr

/-- A row of the buy or the sell table (`dex::OfferInfo`); the rows are kept as offers. -/
abbrev OfferInfo := CDexOffer

/-- A row of the table of own offers (`dex::MyOfferInfo`); the rows are kept as offers. -/
abbrev MyOfferInfo := CDexOffer

/-- The default-constructed offer `CDexOffer()`, the null offer. -/
def CDexOffer.null : CDexOffer :=
  { idTransaction := 0, hash := 0, pubKey := "", type := "", countryIso := "",
    currencyIso := "", paymentMethod := 0, price := 0, minAmount := 0, timeCreate := 0,
    timeToExpiration := 0, shortInfo := "", details := "", status := StatusOffer.Indefined,
    editingVersion := 0 }

/-- Modelled from the spec: `CDexOffer::IsNull()` (dexoffer.h is not among the sources): the
offer carries no hash. -/
def CDexOffer.IsNull (o : CDexOffer) : Bool := o.hash == 0

/-- Modelled from the spec: `CDexOffer::isMyOffer()`, whether the offer was built from a row
of the table of own offers. -/
def CDexOffer.isMyOffer (o : CDexOffer) : Bool := o.myoffer_

/-- Modelled from the spec: the constructor `CDexOffer(const MyOfferInfo&)` (dexoffer.h is not
among the sources): the fields of the row, its status included, marked as an own offer. -/
def CDexOffer.ofMyOfferInfo (info : MyOfferInfo) : CDexOffer :=
  { info with myoffer_ := true }

/-- Modelled from the spec: the constructor `CDexOffer(const OfferInfo&, TypeOffer)`
(dexoffer.h is not among the sources): the fields of the row with the type of the table it
came from; such an offer has no status of its own (`dex::Indefined`) and is not an own
offer. -/
def CDexOffer.ofOfferInfo (info : OfferInfo) (offertype : TypeOffer) : CDexOffer :=
  { info with
    type := (match offertype with
      | TypeOffer.Buy => "buy"
      | TypeOffer.Sell => "sell")
    status := StatusOffer.Indefined
    myoffer_ := false }

/-- Modelled from the spec: `DexDB::isExistMyOfferByHash(hash)`. -/
def DexDB.isExistMyOfferByHash (db : DexDB) (hash : Nat) : Bool :=
  db.myOffers.any (fun o => o.hash == hash)

/-- Modelled from the spec: `DexDB::getMyOfferByHash(hash)`, the first row with the hash. -/
def DexDB.getMyOfferByHash (db : DexDB) (hash : Nat) : MyOfferInfo :=
  (db.myOffers.find? (fun o => o.hash == hash)).getD CDexOffer.null

/-- Modelled from the spec: `DexDB::isExistOfferBuyByHash(hash)`. -/
def DexDB.isExistOfferBuyByHash (db : DexDB) (hash : Nat) : Bool :=
  db.offersBuy.any (fun o => o.hash == hash)

/-- Modelled from the spec: `DexDB::getOfferBuyByHash(hash)`, the first row with the hash. -/
def DexDB.getOfferBuyByHash (db : DexDB) (hash : Nat) : OfferInfo :=
  (db.offersBuy.find? (fun o => o.hash == hash)).getD CDexOffer.null

/-- Modelled from the spec: `DexDB::isExistOfferSellByHash(hash)`. -/
def DexDB.isExistOfferSellByHash (db : DexDB) (hash : Nat) : Bool :=
  db.offersSell.any (fun o => o.hash == hash)

/-- Modelled from the spec: `DexDB::getOfferSellByHash(hash)`, the first row with the hash. -/
def DexDB.getOfferSellByHash (db : DexDB) (hash : Nat) : OfferInfo :=
  (db.offersSell.find? (fun o => o.hash == hash)).getD CDexOffer.null

/-- Modelled from the spec: `DexDB::deleteOfferBuyByHash(hash)`, the store's `delete(hash)`
on the buy partition. -/
def DexDB.deleteOfferBuyByHash (db : DexDB) (hash : Nat) : DexDB :=
  { db with offersBuy := db.offersBuy.filter (fun o => o.hash != hash) }

/-- Modelled from the spec: `DexDB::deleteOfferSellByHash(hash)`, the store's `delete(hash)`
on the sell partition. -/
def DexDB.deleteOfferSellByHash (db : DexDB) (hash : Nat) : DexDB :=
  { db with offersSell := db.offersSell.filter (fun o => o.hash != hash) }

/-- Modelled from the spec: `DexDB::deleteMyOfferByHash(hash)`, the store's `delete(hash)`
on the table of own offers. -/
def DexDB.deleteMyOfferByHash (db : DexDB) (hash : Nat) : DexDB :=
  { db with myOffers := db.myOffers.filter (fun o => o.hash != hash) }

/-- Modelled from the spec: `DexDB::addMyOffer(info)`, the store's `insert(offer)` on the
table of own offers. -/
def DexDB.addMyOffer (db : DexDB) (info : MyOfferInfo) : DexDB :=
  { db with myOffers := db.myOffers ++ [info] }

/-- A request as the RPC server hands it to a command: the help flag and the positional
parameters, which are the strings given on the command line. -/
structure JSONRPCRequest where
  fHelp : Bool
  params : List String
deriving DecidableEq, Repr

/-- A scalar inside a result object. -/
inductive JsonVal where
  | str (s : String)
  | num (n : Int)
  /-- The hexadecimal rendering `GetHex()` of a 256-bit value. -/
  | hex (h : Nat)
  /-- The integer code of an offer status. -/
  | status (s : StatusOffer)
deriving DecidableEq, Repr

/-- An object inside a result: either a list of named scalars, or the object
`offer.getUniValue()` of an offer followed by the pairs pushed onto it. -/
inductive JsonObj where
  | fields (fs : List (String × JsonVal))
  | offer (o : CDexOffer) (extra : List (String × JsonVal))
deriving DecidableEq, Repr

/-- The value a command returns (`UniValue`). -/
inductive UniValue where
  | NullUniValue
  | VOBJ (o : JsonObj)
  | VARR (items : List JsonObj)
deriving DecidableEq, Repr

/-- A private key of the wallet (`CKey`). -/
abbrev CKey := Nat

/-- The process-wide state the commands read and write: the store behind `DexDB::self()`
(absent while the store is not initialised), the two trackers of unconfirmed offers held by
`dex::dexman`, the setting behind `dex::maxOutput()`, and the status kept by `dex::dexsync`. -/
structure RpcState where
  self : Option DexDB
  uncOffers : List CDexOffer
  bcstUncOffers : List CDexOffer
  maxOutput : Int
  syncStatus : String
deriving DecidableEq, Repr

/-- The calls by which a command acts on the wallet, the network, `dex::dexman`,
`dex::dexsync` and the settings, and its writes to the store, in program order.  Reads of the
store, of the trackers and of the sync status are not recorded: they are the uses of `db` and
of the fields of the state in the definitions. -/
inductive RpcEffect where
  /-- A writing call `dex::DexDB::self()->method(...)`. -/
  | DexDB (method : String) (hash : Nat)
  /-- The call `dex.FindKey(key, error)`. -/
  | FindKey (offer : CDexOffer)
  /-- The call `dex.SignOffer(key, vchSign, error)`. -/
  | SignOffer (offer : CDexOffer)
  /-- A call on the wallet `pwalletMain`. -/
  | wallet (method : String)
  | CopyNodeVector
  | PushMessage (pNode : CNode) (msg : CSerializedNetMsg)
  | ReleaseNodeVector
  /-- The call `dex::dexman.prepareAndSendMyOffer(offer, error)` with the offer handed over. -/
  | prepareAndSendMyOffer (offer : MyOfferInfo)
  /-- The call `dex::dexman.addOrEditDraftMyOffer(offer)` with the offer handed over. -/
  | addOrEditDraftMyOffer (offer : MyOfferInfo)
  /-- A state-changing call on `dex::dexsync`. -/
  | dexsync (method : String)
  /-- The call `dex::changedMaxOutput(num)`. -/
  | changedMaxOutput (num : Int)
deriving DecidableEq, Repr

/-- The messages a command pushed to peers, in order, with the peer each one went to. -/
def rpcPushes : List RpcEffect → List (CNode × CSerializedNetMsg)
  | [] => []
  | .PushMessage pNode msg :: es => (pNode, msg) :: rpcPushes es
  | _ :: es => rpcPushes es

/-- The offers handed to `prepareAndSendMyOffer`, in order. -/
def rpcPrepared : List RpcEffect → List MyOfferInfo
  | [] => []
  | .prepareAndSendMyOffer offer :: es => offer :: rpcPrepared es
  | _ :: es => rpcPrepared es

/-- The outcome of a command: the value returned or the message of the `runtime_error`
thrown, the state it leaves, and the calls it made. -/
structure RpcResult where
  ret : Except String UniValue
  st : RpcState
  effects : List RpcEffect

/-- What the commands read from outside their own code: the flag `fTxIndex`, the parsers and
validators of other modules, the wallet, the connection manager, and the operations of
`dex::dexman` and `dex::dexsync`, none of which is among the sources. -/
structure RpcCtx where
  fTxIndex : Bool
  /-- The function `uint256S`, from a hexadecimal string to a 256-bit value. -/
  uint256S : String → Nat
  /-- The function `std::stoi`; `none` when it throws. -/
  stoi : String → Option Int
  /-- The method `UniValue::get_int`; `none` when it throws. -/
  get_int : String → Option Int
  /-- The method `CountryIso::isValid`. -/
  countryIsValid : String → Bool
  /-- The method `CurrencyIso::isValid`. -/
  currencyIsValid : String → Bool
  /-- The field `enabled` of `DexDB::getCountryInfo(country)`. -/
  countryEnabled : DexDB → String → Bool
  /-- The field `enabled` of `DexDB::getCurrencyInfo(currency)`. -/
  currencyEnabled : DexDB → String → Bool
  /-- The rows `(name, type)` of `DexDB::getPaymentMethodsInfo()`. -/
  getPaymentMethodsInfo : DexDB → List (String × Nat)
  /-- The listing `DexDB::getOffersBuy(country, currency, method, limit, offset)`. -/
  getOffersBuy : DexDB → String → String → Nat → Int → Int → List OfferInfo
  /-- The listing `DexDB::getOffersSell(country, currency, method, limit, offset)`. -/
  getOffersSell : DexDB → String → String → Nat → Int → Int → List OfferInfo
  /-- The method `CDex::FindKey`: the owner key of the offer, or the error text. -/
  FindKey : CDexOffer → Except String CKey
  /-- The method `CDex::SignOffer`: the signature of the offer, or the error text. -/
  SignOffer : CKey → CDexOffer → Except String (List Nat)
  /-- The node vector of `g_connman`. -/
  vNodes : List CNode
  /-- By how much `PushMessage` raises the counter `nSendBytes` of the node. -/
  nSendBytesAdded : CNode → CSerializedNetMsg → Nat
  /-- The function `dex::jsonToMyOfferInfo`: the offer read and the error text. -/
  jsonToMyOfferInfo : String → MyOfferInfo × String
  /-- The method `CDexManager::prepareAndSendMyOffer`: the store it leaves, the offer as it
  leaves it, and the error text. -/
  prepareAndSendMyOffer : DexDB → MyOfferInfo → DexDB × MyOfferInfo × String
  /-- The method `CDexManager::addOrEditDraftMyOffer`: the store and the offer it leaves. -/
  addOrEditDraftMyOffer : DexDB → MyOfferInfo → DexDB × MyOfferInfo
  /-- The method `CDexSync::reset`: the state it leaves and its result. -/
  reset : RpcState → RpcState × Bool
  /-- The method `CDexSync::forceSynced`: the state it leaves. -/
  forceSynced : RpcState → RpcState
  /-- The listing `DexDB::getMyOffers(country, currency, method, type, status, limit, offset)`. -/
  getMyOffers : DexDB → String → String → Nat → Int → StatusOffer → Int → Int → List MyOfferInfo
  /-- The count `DexDB::countOffersBuy(country, currency, method)`. -/
  countOffersBuy : DexDB → String → String → Nat → Nat
  /-- The count `DexDB::countOffersSell(country, currency, method)`. -/
  countOffersSell : DexDB → String → String → Nat → Nat
  /-- The count `DexDB::countMyOffers(country, currency, method, type, status)`. -/
  countMyOffers : DexDB → String → String → Nat → Int → StatusOffer → Nat
  /-- The method `CStatusOffer::set`: the status a string names, `Indefined` for no status. -/
  statusSet : String → StatusOffer
  /-- The method `CStatusOffer::status2str`. -/
  status2str : StatusOffer → String
  /-- The method `CWallet::GeneratePrivKey`. -/
  GeneratePrivKey : CKey
  /-- The public key of a private key, as the hexadecimal string `HexStr` gives. -/
  GetPubKey : CKey → String
  /-- The method `CWallet::AddKeyPubKey`. -/
  AddKeyPubKey : CKey → Bool
  /-- The method `CDexOffer::Create(MyOfferInfo)`: the offer created, `none` for `false`. -/
  Create : MyOfferInfo → Option CDexOffer

/-- The call `CNetMsgMaker(nVersion).Make(command, offer, vchSign)`. -/
def CNetMsgMaker.MakeSigned (nVersion : Nat) (command : String) (offer : CDexOffer)
    (vchSign : List Nat) : CSerializedNetMsg :=
  { command := command, nVersion := nVersion, data := { offer := offer, vchSign := vchSign } }

/-- The message thrown by every command when `fTxIndex` is off. -/
def errTxIndex : String := "To use this feature please enable -txindex and make -reindex.\n"

/-- The message thrown by every command when `DexDB::self()` is null. -/
def errNotInitialized : String := "DexDB is not initialized.\n"

/-- The `throw runtime_error(what)` of a command that has made the calls `effects`. -/
def RpcResult.throw (st : RpcState) (effects : List RpcEffect) (what : String) : RpcResult :=
  { ret := Except.error what, st := st, effects := effects }

/-- The `return value` of a command that has made the calls `effects`. -/
def RpcResult.returns (st : RpcState) (effects : List RpcEffect) (value : UniValue) :
    RpcResult :=
  { ret := Except.ok value, st := st, effects := effects }

/-- The help text of `deldexoffer`, of which the first line is kept. -/
def help_deldexoffer : String := "deldexoffer <hash>\n\n"

/-- The lookup of `deldexoffer` (rpc.cpp lines 656-665): the offer is taken from the table of
own offers, else from the buy table, else from the sell table; `none` stands for the branch
that throws. -/
def deldexofferLookup (db : DexDB) (hash : Nat) : Option CDexOffer :=
  if db.isExistMyOfferByHash hash then
    some (CDexOffer.ofMyOfferInfo (db.getMyOfferByHash hash))
  else if db.isExistOfferBuyByHash hash then
    some (CDexOffer.ofOfferInfo (db.getOfferBuyByHash hash) TypeOffer.Buy)
  else if db.isExistOfferSellByHash hash then
    some (CDexOffer.ofOfferInfo (db.getOfferSellByHash hash) TypeOffer.Sell)
  else none

/-- The loop of `deldexoffer` over the copied node vector (rpc.cpp lines 682-686): every node
is pushed the signed deletion, and `sended` counts the nodes whose `nSendBytes` went up.  The
result is the value of `sended` and the pushes made. -/
def deldexofferSend (ctx : RpcCtx) (offer : CDexOffer) (vchSign : List Nat) :
    List CNode → Nat × List RpcEffect
  | [] => (0, [])
  | pNode :: vNodesCopy =>
    let msg := CNetMsgMaker.MakeSigned pNode.nSendVersion NetMsgType.DEXDELOFFER offer vchSign
    let r := deldexofferSend ctx offer vchSign vNodesCopy
    ((if ctx.nSendBytesAdded pNode msg > 0 then 1 else 0) + r.1,
      RpcEffect.PushMessage pNode msg :: r.2)

/-- The broadcast of `deldexoffer` (rpc.cpp lines 679-689): `sended` starts at 0, and unless
the offer is a draft the whole node vector is copied, looped over and released.  The result
is the value of `sended` and the calls made. -/
def deldexofferBroadcast (ctx : RpcCtx) (offer : CDexOffer) (vchSign : List Nat) :
    Nat × List RpcEffect :=
  if offer.status != StatusOffer.Draft then
    let r := deldexofferSend ctx offer vchSign ctx.vNodes
    (r.1, [RpcEffect.CopyNodeVector] ++ r.2 ++ [RpcEffect.ReleaseNodeVector])
  else (0, [])

/-- The deletions of `deldexoffer` (rpc.cpp lines 691-695) on the store. -/
def deldexofferDelete (db : DexDB) (offer : CDexOffer) (sended : Nat) : DexDB × List RpcEffect :=
  if sended > 1 || offer.status == StatusOffer.Draft || offer.status == StatusOffer.Indefined
  then
    let r1 : DexDB × List RpcEffect :=
      if offer.isBuy && offer.status != StatusOffer.Draft then
        (db.deleteOfferBuyByHash offer.hash, [RpcEffect.DexDB "deleteOfferBuyByHash" offer.hash])
      else (db, [])
    let r2 : DexDB × List RpcEffect :=
      if offer.isSell && offer.status != StatusOffer.Draft then
        (r1.1.deleteOfferSellByHash offer.hash,
          r1.2 ++ [RpcEffect.DexDB "deleteOfferSellByHash" offer.hash])
      else r1
    if offer.isMyOffer then
      (r2.1.deleteMyOfferByHash offer.hash,
        r2.2 ++ [RpcEffect.DexDB "deleteMyOfferByHash" offer.hash])
    else r2
  else (db, [])

/-- The command `deldexoffer` (rpc.cpp lines 618-700). -/
def deldexoffer (ctx : RpcCtx) (st : RpcState) (request : JSONRPCRequest) : RpcResult :=
  if !ctx.fTxIndex then RpcResult.throw st [] errTxIndex
  else
    match st.self with
    | none => RpcResult.throw st [] errNotInitialized
    | some db =>
      if request.fHelp || request.params.length != 1 then
        RpcResult.throw st [] help_deldexoffer
      else
        let strOfferHash := request.params.headD ""
        if strOfferHash.isEmpty then RpcResult.throw st [] "\nERROR: offer hash is empty"
        else
          let hash := ctx.uint256S strOfferHash
          if hash == 0 then RpcResult.throw st [] "\nERROR: offer hash error\n"
          else
            match deldexofferLookup db hash with
            | none => RpcResult.throw st [] "\nERROR: offer not found in DB\n"
            | some offer =>
              match ctx.FindKey offer with
              | Except.error error => RpcResult.throw st [RpcEffect.FindKey offer] error
              | Except.ok key =>
                match ctx.SignOffer key offer with
                | Except.error error =>
                  RpcResult.throw st [RpcEffect.FindKey offer, RpcEffect.SignOffer offer] error
                | Except.ok vchSign =>
                  let t0 := [RpcEffect.FindKey offer, RpcEffect.SignOffer offer]
                  let sent := deldexofferBroadcast ctx offer vchSign
                  let del := deldexofferDelete db offer sent.1
                  RpcResult.throw { st with self := some del.1 } (t0 ++ sent.2 ++ del.2)
                    "\nsuccess\n"

/-- The request passes the guards of `deldexoffer` and its hash resolves to `offer`. -/
def deldexofferFinds (ctx : RpcCtx) (st : RpcState) (request : JSONRPCRequest)
    (db : DexDB) (offer : CDexOffer) : Prop :=
  ctx.fTxIndex = true ∧ st.self = some db ∧ request.fHelp = false ∧
    ∃ strOfferHash, request.params = [strOfferHash] ∧ strOfferHash.isEmpty = false ∧
      (ctx.uint256S strOfferHash == 0) = false ∧
      deldexofferLookup db (ctx.uint256S strOfferHash) = some offer

/-- The request passes the guards of `deldexoffer`, its hash resolves to `offer`, the owner
key is found and signing gives `vchSign`. -/
def deldexofferResolves (ctx : RpcCtx) (st : RpcState) (request : JSONRPCRequest)
    (db : DexDB) (offer : CDexOffer) (vchSign : List Nat) : Prop :=
  ctx.fTxIndex = true ∧ st.self = some db ∧ request.fHelp = false ∧
    ∃ strOfferHash, request.params = [strOfferHash] ∧ strOfferHash.isEmpty = false ∧
      (ctx.uint256S strOfferHash == 0) = false ∧
      deldexofferLookup db (ctx.uint256S strOfferHash) = some offer ∧
      ∃ key, ctx.FindKey offer = Except.ok key ∧ ctx.SignOffer key offer = Except.ok vchSign

/-- The help text of `editdexoffer`, of which the first line is kept. -/
def help_editdexoffer : String := "editdexoffer <hash> <json-data>\n\n"

/-- The shelf life in days computed by `editdexoffer` (rpc.cpp lines 888-889):
`((timeToExpiration - timeCreate - 1) / 86400) + 1`, the division truncating as in C++.  The
operands are read as signed integers that do not overflow (their declarations are in
dexdto.h, which is not among the sources). -/
def shelfLifeDays (timeToExpiration timeCreate : Nat) : Int :=
  Int.tdiv ((timeToExpiration : Int) - (timeCreate : Int) - 1) 86400 + 1

/-- The branch of `editdexoffer` for a stored offer in the state Active (rpc.cpp lines
867-909). -/
def editdexofferActive (ctx : RpcCtx) (st : RpcState) (db : DexDB)
    (currentMyOffer offer : MyOfferInfo) : RpcResult :=
  if currentMyOffer.type != offer.type then
    RpcResult.throw st [] "\nERROR: unchanged data doesn't match"
  else if currentMyOffer.countryIso != offer.countryIso then
    RpcResult.throw st [] "\nERROR: unchanged data doesn't match"
  else if currentMyOffer.currencyIso != offer.currencyIso then
    RpcResult.throw st [] "\nERROR: unchanged data doesn't match"
  else if currentMyOffer.paymentMethod != offer.paymentMethod then
    RpcResult.throw st [] "\nERROR: unchanged data doesn't match"
  else if currentMyOffer.minAmount != offer.minAmount then
    RpcResult.throw st [] "\nERROR: unchanged data doesn't match"
  else
    let shelfLife := shelfLifeDays offer.timeToExpiration offer.timeCreate
    let currentShelfLife :=
      shelfLifeDays currentMyOffer.timeToExpiration currentMyOffer.timeCreate
    if shelfLife != currentShelfLife then
      RpcResult.throw st [] "\nERROR: unchanged data doesn't match"
    else
      let currentMyOffer1 : MyOfferInfo :=
        { currentMyOffer with
          price := offer.price, shortInfo := offer.shortInfo, details := offer.details }
      let r := ctx.prepareAndSendMyOffer db currentMyOffer1
      let st1 : RpcState := { st with self := some r.1 }
      let t := [RpcEffect.prepareAndSendMyOffer currentMyOffer1]
      if !r.1.isExistMyOfferByHash r.2.1.hash then
        RpcResult.throw st1 t "\nERROR: the operation failed"
      else if !r.2.2.isEmpty then
        RpcResult.throw st1 t ("\nERROR: " ++ r.2.2 ++ "\n")
      else RpcResult.returns st1 t UniValue.NullUniValue

/-- The command `editdexoffer` (rpc.cpp lines 784-912). -/
def editdexoffer (ctx : RpcCtx) (st : RpcState) (request : JSONRPCRequest) : RpcResult :=
  if !ctx.fTxIndex then RpcResult.throw st [] errTxIndex
  else
    match st.self with
    | none => RpcResult.throw st [] errNotInitialized
    | some db =>
      if request.fHelp || request.params.length != 2 then
        RpcResult.throw st [] help_editdexoffer
      else
        let strOfferHash := request.params.getD 0 ""
        if strOfferHash.isEmpty then RpcResult.throw st [] "\nERROR: offer hash is empty"
        else
          let hash := ctx.uint256S strOfferHash
          if hash == 0 then RpcResult.throw st [] "\nERROR: offer hash error\n"
          else if !db.isExistMyOfferByHash hash then
            RpcResult.throw st [] "\nERROR: offer not found in DB\n"
          else
            let jsonData := request.params.getD 1 ""
            let parsed := ctx.jsonToMyOfferInfo jsonData
            let offer := parsed.1
            let error := parsed.2
            if error.length > 0 then RpcResult.throw st [] ("\nERROR: " ++ error)
            else
              let currentMyOffer := db.getMyOfferByHash hash
              if currentMyOffer.status == StatusOffer.Draft then
                let offer1 : MyOfferInfo :=
                  { offer with status := StatusOffer.Draft, editingVersion := 0 }
                let r := ctx.addOrEditDraftMyOffer db offer1
                let st1 : RpcState := { st with self := some r.1 }
                let t := [RpcEffect.addOrEditDraftMyOffer offer1]
                if !r.1.isExistMyOfferByHash r.2.hash then
                  RpcResult.throw st1 t "\nERROR: the operation failed"
                else
                  RpcResult.returns st1 t
                    (UniValue.VOBJ (JsonObj.fields [("new hash", JsonVal.hex r.2.hash)]))
              else if currentMyOffer.status == StatusOffer.Active then
                editdexofferActive ctx st db currentMyOffer offer
              else RpcResult.returns st [] UniValue.NullUniValue

/-- The request passes the guards of `editdexoffer`: its hash names the stored own offer
`currentMyOffer`, and its JSON text reads without error as `offer`. -/
def editdexofferReads (ctx : RpcCtx) (st : RpcState) (request : JSONRPCRequest)
    (db : DexDB) (currentMyOffer offer : MyOfferInfo) : Prop :=
  ctx.fTxIndex = true ∧ st.self = some db ∧ request.fHelp = false ∧
    ∃ strOfferHash jsonData, request.params = [strOfferHash, jsonData] ∧
      strOfferHash.isEmpty = false ∧ (ctx.uint256S strOfferHash == 0) = false ∧
      db.isExistMyOfferByHash (ctx.uint256S strOfferHash) = true ∧
      db.getMyOfferByHash (ctx.uint256S strOfferHash) = currentMyOffer ∧
      ctx.jsonToMyOfferInfo jsonData = (offer, "")

/-- The help text of `dexoffers`, of which the first line is kept. -/
def help_dexoffers : String :=
  "dexoffers [buy|sell|all] [country] [currency] [payment_method] [limit N] [offset N]\n"

/-- The message of the exception `std::stoi` throws on a string that holds no number. -/
def errStoi : String := "stoi"

/-- The local variables the parameter loop of `dexoffers` writes (rpc.cpp lines 100-107). -/
structure DexoffersVars where
  typefilter : String := ""
  countryfilter : String := ""
  currencyfilter : String := ""
  methodfilter : String := ""
  methodfiltertype : Nat := 0
  limit : Int := 0
  offset : Int := 0
deriving DecidableEq, Repr

/-- The inner loop over the payment methods (rpc.cpp lines 160-165): the last method whose
lower-cased name equals `methodname` sets `methodfilter` and `methodfiltertype`; `acc` holds
the two variables before the loop. -/
def findPaymentMethod (pms : List (String × Nat)) (methodname : String)
    (acc : String × Nat) : String × Nat :=
  pms.foldl (fun acc j => if j.1.toLower == methodname then (j.1, j.2) else acc) acc

/-- The parameter loop of `dexoffers` (rpc.cpp lines 109-170), started at index `i` on the
parameters from index `i` on.  A `continue` and the end of the body go on with the next
parameter, a `break` and the end of the list return the variables, a `throw` returns the
message. -/
def dexoffersLoop (ctx : RpcCtx) (db : DexDB) :
    Nat → List String → DexoffersVars → Except String DexoffersVars
  | _, [], v => Except.ok v
  | i, p :: rest, v =>
    if p == "limit" then
      match rest with
      | [] => Except.error "\nnot enough parameters\n"
      | maxStr :: rest2 =>
        if i == 0 then Except.error "\nnot enough parameters\n"
        else
          match ctx.stoi maxStr with
          | none => Except.error errStoi
          | some n =>
            if rest2.isEmpty then Except.ok { v with limit := n }
            else dexoffersLoop ctx db (i + 2) rest2 { v with limit := n }
    else if p == "offset" && decide (v.limit > 0) then
      match rest with
      | [] => Except.error "\nnot enough parameters\n"
      | maxStr :: _ =>
        if i == 0 then Except.error "\nnot enough parameters\n"
        else
          match ctx.stoi maxStr with
          | none => Except.error errStoi
          | some n => Except.ok { v with offset := n }
    else if i == 0 && v.typefilter.isEmpty && ["buy", "sell", "all"].contains p then
      dexoffersLoop ctx db (i + 1) rest { v with typefilter := p }
    else
      let v1 : DexoffersVars :=
        if i == 0 && v.typefilter.isEmpty then { v with typefilter := "all" } else v
      if decide (i < 2) && v1.countryfilter.isEmpty && ctx.countryIsValid p then
        dexoffersLoop ctx db (i + 1) rest { v1 with countryfilter := p }
      else if decide (i < 3) && v1.currencyfilter.isEmpty && ctx.currencyIsValid p then
        dexoffersLoop ctx db (i + 1) rest { v1 with currencyfilter := p }
      else
        let m := findPaymentMethod (ctx.getPaymentMethodsInfo db) p.toLower
          ("", v1.methodfiltertype)
        if m.1.isEmpty then Except.error ("\nwrong parameter: " ++ p ++ "\n")
        else
          dexoffersLoop ctx db (i + 1) rest
            { v1 with methodfilter := m.1, methodfiltertype := m.2 }

/-- The loop of `dexoffers` over the buy listing (rpc.cpp lines 196-207): every offer is
pushed, and with a positive limit `step` counts the offers pushed and the loop breaks when
`step` reaches the limit.  The result is the objects pushed and the value of `step`. -/
def dexoffersBuyLoop (limit : Int) : List OfferInfo → Int → List JsonObj × Int
  | [], step => ([], step)
  | i :: offers, step =>
    let o := JsonObj.offer (CDexOffer.ofOfferInfo i TypeOffer.Buy) []
    if limit > 0 then
      if step + 1 == limit then ([o], step + 1)
      else
        let r := dexoffersBuyLoop limit offers (step + 1)
        (o :: r.1, r.2)
    else
      let r := dexoffersBuyLoop limit offers step
      (o :: r.1, r.2)

/-- The output part of `dexoffers` (rpc.cpp lines 187-219) for the variables the parameter
loop left: the default limit, the buy listing and its loop, and the sell listing. -/
def dexoffersOutput (ctx : RpcCtx) (st : RpcState) (db : DexDB) (v : DexoffersVars) :
    List JsonObj :=
  let limit : Int := if v.limit == 0 then st.maxOutput else v.limit
  let buy : List JsonObj × Int :=
    if v.typefilter == "buy" || v.typefilter == "all" then
      dexoffersBuyLoop limit
        (ctx.getOffersBuy db v.countryfilter v.currencyfilter v.methodfiltertype limit
          v.offset) 0
    else ([], 0)
  let step := buy.2
  if (v.typefilter == "sell" || v.typefilter == "all")
      && !(decide (limit > 0) && step == limit) then
    buy.1 ++ (ctx.getOffersSell db v.countryfilter v.currencyfilter v.methodfiltertype
      (limit - step) v.offset).map
        (fun i => JsonObj.offer (CDexOffer.ofOfferInfo i TypeOffer.Sell) [])
  else buy.1

/-- The command `dexoffers` (rpc.cpp lines 43-220). -/
def dexoffers (ctx : RpcCtx) (st : RpcState) (request : JSONRPCRequest) : RpcResult :=
  if !ctx.fTxIndex then RpcResult.throw st [] errTxIndex
  else
    match st.self with
    | none => RpcResult.throw st [] errNotInitialized
    | some db =>
      if request.fHelp || request.params.length < 1 || request.params.length > 8 then
        RpcResult.throw st [] help_dexoffers
      else
        match dexoffersLoop ctx db 0 request.params {} with
        | Except.error what => RpcResult.throw st [] what
        | Except.ok v =>
          if v.typefilter.isEmpty then RpcResult.throw st [] "\nwrong parameters\n"
          else if v.countryfilter != "" && !ctx.countryEnabled db v.countryfilter then
            RpcResult.throw st [] "\nERROR: this country is disabled in DB\n"
          else if v.currencyfilter != "" && !ctx.currencyEnabled db v.currencyfilter then
            RpcResult.throw st [] "\nERROR: this currency is disabled in DB\n"
          else RpcResult.returns st [] (UniValue.VARR (dexoffersOutput ctx st db v))

/-- The listing the help text of `dexoffers` promises for a positive limit (`limit N`, N max
output offers): the buy listing asked with the limit and cut at it comes first; the sell
listing is left out when the buy part already holds the limit, and is otherwise asked with
the limit minus the number of buy offers. -/
def dexoffersLimited (ctx : RpcCtx) (db : DexDB) (v : DexoffersVars) : List JsonObj :=
  let buy : List JsonObj :=
    if v.typefilter == "buy" || v.typefilter == "all" then
      ((ctx.getOffersBuy db v.countryfilter v.currencyfilter v.methodfiltertype v.limit
        v.offset).take v.limit.toNat).map
          (fun i => JsonObj.offer (CDexOffer.ofOfferInfo i TypeOffer.Buy) [])
    else []
  if (v.typefilter == "sell" || v.typefilter == "all") && decide (buy.length < v.limit.toNat)
  then
    buy ++ (ctx.getOffersSell db v.countryfilter v.currencyfilter v.methodfiltertype
      (v.limit - (buy.length : Int)) v.offset).map
        (fun i => JsonObj.offer (CDexOffer.ofOfferInfo i TypeOffer.Sell) [])
  else buy

/-- Modelled from the spec: `CUnconfirmedOffers::getOfferByHash(hash)` on a tracker
(`getByHash`): the offer if present, else the null offer. -/
def getOfferByHash (tracker : List CDexOffer) (hash : Nat) : CDexOffer :=
  (tracker.find? (fun o => o.hash == hash)).getD CDexOffer.null

/-- The help text of `getdexoffer`, of which the first line is kept. -/
def help_getdexoffer : String := "getdexoffer <hash>\n"

/-- The message `UniValue::get_str` throws on a value that is not a string, as
`request.params[0]` is when there is no parameter. -/
def errNotString : String := "JSON value is not a string as expected"

/-- The command `getdexoffer` (rpc.cpp lines 1137-1210). -/
def getdexoffer (ctx : RpcCtx) (st : RpcState) (request : JSONRPCRequest) : RpcResult :=
  if !ctx.fTxIndex then RpcResult.throw st [] errTxIndex
  else
    match st.self with
    | none => RpcResult.throw st [] errNotInitialized
    | some db =>
      if request.fHelp then RpcResult.throw st [] help_getdexoffer
      else
        match request.params with
        | [] => RpcResult.throw st [] errNotString
        | strOfferHash :: _ =>
          if strOfferHash.isEmpty then RpcResult.throw st [] "\nERROR: offer hash is empty"
          else
            let hash := ctx.uint256S strOfferHash
            if hash == 0 then RpcResult.throw st [] "\nERROR: offer hash error\n"
            else
              let offer : CDexOffer :=
                if db.isExistOfferSellByHash hash then
                  CDexOffer.ofOfferInfo (db.getOfferSellByHash hash) TypeOffer.Sell
                else if db.isExistOfferBuyByHash hash then
                  CDexOffer.ofOfferInfo (db.getOfferBuyByHash hash) TypeOffer.Buy
                else
                  let offer1 := getOfferByHash st.bcstUncOffers hash
                  if offer1.IsNull then getOfferByHash st.uncOffers hash else offer1
              if offer.IsNull then
                RpcResult.returns st [] (UniValue.VOBJ (JsonObj.fields []))
              else RpcResult.returns st [] (UniValue.VOBJ (JsonObj.offer offer []))

/-- The offer a lookup by hash is to give: the one found first in the order sell partition,
buy partition, tracker of broadcast unconfirmed offers, tracker of own unconfirmed offers. -/
def firstByHash (db : DexDB) (st : RpcState) (hash : Nat) : Option CDexOffer :=
  match db.offersSell.find? (fun o => o.hash == hash) with
  | some info => some (CDexOffer.ofOfferInfo info TypeOffer.Sell)
  | none =>
    match db.offersBuy.find? (fun o => o.hash == hash) with
    | some info => some (CDexOffer.ofOfferInfo info TypeOffer.Buy)
    | none =>
      match st.bcstUncOffers.find? (fun o => o.hash == hash) with
      | some offer => some offer
      | none => st.uncOffers.find? (fun o => o.hash == hash)

/-- The help text of `dexsync`, of which the first line is kept. -/
def help_dexsync : String := "dexsync [status|reset]\n"

/-- The command `dexsync` (rpc.cpp lines 969-1012). -/
def dexsync (ctx : RpcCtx) (st : RpcState) (request : JSONRPCRequest) : RpcResult :=
  if !ctx.fTxIndex then RpcResult.throw st [] errTxIndex
  else
    match st.self with
    | none => RpcResult.throw st [] errNotInitialized
    | some _ =>
      if request.fHelp || request.params.length != 1 then RpcResult.throw st [] help_dexsync
      else
        let key := request.params.headD ""
        if key == "status" then
          let status := st.syncStatus
          RpcResult.returns st []
            (UniValue.VOBJ (JsonObj.fields [("status", JsonVal.str status)]))
        else if key == "reset" then
          let r := ctx.reset st
          if r.2 then
            RpcResult.returns r.1 [RpcEffect.dexsync "reset"]
              (UniValue.VOBJ (JsonObj.fields [("status", JsonVal.str "reset sunc")]))
          else
            RpcResult.returns r.1 [RpcEffect.dexsync "reset"]
              (UniValue.VOBJ
                (JsonObj.fields [("status", JsonVal.str "reset is not available now")]))
        else if key == "force-synced" then
          RpcResult.returns (ctx.forceSynced st) [RpcEffect.dexsync "forceSynced"]
            (UniValue.VOBJ (JsonObj.fields [("status", JsonVal.str "force synced")]))
        else RpcResult.throw st [] ("\nwrong parameter " ++ key ++ "\n")

/-- The help text of `dexsettings`, of which the first line is kept. -/
def help_dexsettings : String := "dexsettings [maxoutput num]\n"

/-- The command `dexsettings` (rpc.cpp lines 1014-1062). -/
def dexsettings (ctx : RpcCtx) (st : RpcState) (request : JSONRPCRequest) : RpcResult :=
  if !ctx.fTxIndex then RpcResult.throw st [] errTxIndex
  else
    match st.self with
    | none => RpcResult.throw st [] errNotInitialized
    | some _ =>
      if request.fHelp || request.params.length < 1 || request.params.length > 2 then
        RpcResult.throw st [] help_dexsettings
      else
        let key := request.params.headD ""
        if key == "maxoutput" then
          if request.params.length == 2 then
            match ctx.get_int (request.params.getD 1 "") with
            | none => RpcResult.throw st [] "JSON value is not an integer as expected"
            | some num =>
              RpcResult.returns { st with maxOutput := num } [RpcEffect.changedMaxOutput num]
                (UniValue.VOBJ (JsonObj.fields
                  [("maxoutput", if num == 0 then JsonVal.str "all" else JsonVal.num num)]))
          else
            let num := st.maxOutput
            RpcResult.returns st []
              (UniValue.VOBJ (JsonObj.fields
                [("maxoutput", if num == 0 then JsonVal.str "all" else JsonVal.num num)]))
        else RpcResult.throw st [] ("\nwrong parameter " ++ key ++ "\n")

/-- The help text of `getdexinfo`, of which the first line is kept. -/
def help_getdexinfo : String := "getdexinfo\n"

/-- The command `getdexinfo` (rpc.cpp lines 1064-1092). -/
def getdexinfo (ctx : RpcCtx) (st : RpcState) (request : JSONRPCRequest) : RpcResult :=
  if !ctx.fTxIndex then RpcResult.throw st [] errTxIndex
  else
    match st.self with
    | none => RpcResult.throw st [] errNotInitialized
    | some db =>
      if request.fHelp then RpcResult.throw st [] help_getdexinfo
      else
        RpcResult.returns st []
          (UniValue.VOBJ (JsonObj.fields
            [("offersSell", JsonVal.num db.offersSell.length),
             ("offersBuy", JsonVal.num db.offersBuy.length),
             ("myOffers", JsonVal.num db.myOffers.length),
             ("uncOffers", JsonVal.num st.uncOffers.length),
             ("uncBcstOffers", JsonVal.num st.bcstUncOffers.length)]))

/-- The help text of `dexunconfirmed`, of which the first line is kept. -/
def help_dexunconfirmed : String := "dexunconfirmed\n"

/-- The command `dexunconfirmed` (rpc.cpp lines 1094-1135). -/
def dexunconfirmed (ctx : RpcCtx) (st : RpcState) (request : JSONRPCRequest) : RpcResult :=
  if !ctx.fTxIndex then RpcResult.throw st [] errTxIndex
  else
    match st.self with
    | none => RpcResult.throw st [] errNotInitialized
    | some _ =>
      if request.fHelp then RpcResult.throw st [] help_dexunconfirmed
      else
        let bunc := st.bcstUncOffers
        let unc := st.uncOffers
        let pair := fun (i : CDexOffer) =>
          JsonObj.fields [("hash", JsonVal.hex i.hash), ("txid", JsonVal.hex i.idTransaction)]
        RpcResult.returns st [] (UniValue.VARR (bunc.map pair ++ unc.map pair))

/-- The help text of `senddexoffer`, of which the first line is kept. -/
def help_senddexoffer : String := "senddexoffer <hash>\n\n"

/-- The command `senddexoffer` (rpc.cpp lines 914-967). -/
def senddexoffer (ctx : RpcCtx) (st : RpcState) (request : JSONRPCRequest) : RpcResult :=
  if !ctx.fTxIndex then RpcResult.throw st [] errTxIndex
  else
    match st.self with
    | none => RpcResult.throw st [] errNotInitialized
    | some db =>
      if request.fHelp || request.params.length != 1 then
        RpcResult.throw st [] help_senddexoffer
      else
        let strOfferHash := request.params.headD ""
        if strOfferHash.isEmpty then RpcResult.throw st [] "\nERROR: offer hash is empty"
        else
          let hash := ctx.uint256S strOfferHash
          if hash == 0 then RpcResult.throw st [] "\nERROR: offer hash error\n"
          else if !db.isExistMyOfferByHash hash then
            RpcResult.throw st [] "\nERROR: offer not found in DB\n"
          else
            let myOffer := db.getMyOfferByHash hash
            let r := ctx.prepareAndSendMyOffer db myOffer
            let st1 : RpcState := { st with self := some r.1 }
            let t := [RpcEffect.prepareAndSendMyOffer myOffer]
            if !r.2.2.isEmpty then RpcResult.throw st1 t ("\nERROR: " ++ r.2.2 ++ "\n")
            else
              RpcResult.returns st1 t
                (UniValue.VOBJ (JsonObj.fields [("new hash", JsonVal.hex r.2.1.hash)]))

/-- The help text of `adddexoffer`, of which the first line is kept. -/
def help_adddexoffer : String := "adddexoffer <json-data>\n\n"

/-- The command `adddexoffer` (rpc.cpp lines 704-782). -/
def adddexoffer (ctx : RpcCtx) (st : RpcState) (request : JSONRPCRequest) : RpcResult :=
  if !ctx.fTxIndex then RpcResult.throw st [] errTxIndex
  else
    match st.self with
    | none => RpcResult.throw st [] errNotInitialized
    | some db =>
      if request.fHelp || request.params.length != 1 then
        RpcResult.throw st [] help_adddexoffer
      else
        let jsonData := request.params.headD ""
        let parsed := ctx.jsonToMyOfferInfo jsonData
        let error := parsed.2
        let offer : MyOfferInfo :=
          { parsed.1 with status := StatusOffer.Draft, editingVersion := 0 }
        if error.length > 0 then RpcResult.throw st [] ("\nERROR: " ++ error)
        else
          let key := ctx.GeneratePrivKey
          let t := [RpcEffect.wallet "GeneratePrivKey", RpcEffect.wallet "AddKeyPubKey"]
          if !ctx.AddKeyPubKey key then
            RpcResult.throw st t "\nERROR: add key to wallet error"
          else
            let offer1 : MyOfferInfo := { offer with pubKey := ctx.GetPubKey key }
            match ctx.Create offer1 with
            | none => RpcResult.throw st t "\nERROR: error create offer"
            | some cOffer =>
              let db1 := db.addMyOffer cOffer
              let st1 : RpcState := { st with self := some db1 }
              let t1 := t ++ [RpcEffect.DexDB "addMyOffer" cOffer.hash]
              if !db1.isExistMyOfferByHash cOffer.hash then
                RpcResult.throw st1 t1 "\nERROR: the operation failed"
              else
                RpcResult.returns st1 t1
                  (UniValue.VOBJ (JsonObj.fields [("hash", JsonVal.hex cOffer.hash)]))

/-- The help text of `dexofferscount`, of which the first line is kept. -/
def help_dexofferscount : String :=
  "dexofferscount [buy|sell|all] [country] [currency] [payment_method]\n"

/-- The parameter loop of `dexofferscount` (rpc.cpp lines 436-473), started at index `i` on
the parameters from index `i` on. -/
def dexofferscountLoop (ctx : RpcCtx) (db : DexDB) :
    Nat → List String → DexoffersVars → Except String DexoffersVars
  | _, [], v => Except.ok v
  | i, p :: rest, v =>
    if i == 0 && v.typefilter.isEmpty && ["buy", "sell", "all"].contains p then
      dexofferscountLoop ctx db (i + 1) rest { v with typefilter := p }
    else
      let v1 : DexoffersVars :=
        if i == 0 && v.typefilter.isEmpty then { v with typefilter := "all" } else v
      if decide (i < 2) && v1.countryfilter.isEmpty && ctx.countryIsValid p then
        dexofferscountLoop ctx db (i + 1) rest { v1 with countryfilter := p }
      else if decide (i < 3) && v1.currencyfilter.isEmpty && ctx.currencyIsValid p then
        dexofferscountLoop ctx db (i + 1) rest { v1 with currencyfilter := p }
      else
        let m := findPaymentMethod (ctx.getPaymentMethodsInfo db) p.toLower
          ("", v1.methodfiltertype)
        if m.1.isEmpty then Except.error ("\nwrong parameter: " ++ p ++ "\n")
        else
          dexofferscountLoop ctx db (i + 1) rest
            { v1 with methodfilter := m.1, methodfiltertype := m.2 }

/-- The command `dexofferscount` (rpc.cpp lines 396-506). -/
def dexofferscount (ctx : RpcCtx) (st : RpcState) (request : JSONRPCRequest) : RpcResult :=
  if !ctx.fTxIndex then RpcResult.throw st [] errTxIndex
  else
    match st.self with
    | none => RpcResult.throw st [] errNotInitialized
    | some db =>
      if request.fHelp || request.params.length < 1 || request.params.length > 8 then
        RpcResult.throw st [] help_dexofferscount
      else
        match dexofferscountLoop ctx db 0 request.params {} with
        | Except.error what => RpcResult.throw st [] what
        | Except.ok v =>
          if v.typefilter.isEmpty then RpcResult.throw st [] "\nwrong parameters\n"
          else if v.countryfilter != "" && !ctx.countryEnabled db v.countryfilter then
            RpcResult.throw st [] "\nERROR: this country is disabled in DB\n"
          else if v.currencyfilter != "" && !ctx.currencyEnabled db v.currencyfilter then
            RpcResult.throw st [] "\nERROR: this currency is disabled in DB\n"
          else
            let count : Nat :=
              if v.typefilter == "buy" then
                ctx.countOffersBuy db v.countryfilter v.currencyfilter v.methodfiltertype
              else if v.typefilter == "sell" then
                ctx.countOffersSell db v.countryfilter v.currencyfilter v.methodfiltertype
              else
                ctx.countOffersBuy db v.countryfilter v.currencyfilter v.methodfiltertype
                  + ctx.countOffersSell db v.countryfilter v.currencyfilter v.methodfiltertype
            RpcResult.returns st []
              (UniValue.VOBJ (JsonObj.fields [("count", JsonVal.num count)]))

/-- The local variables the parameter loops of `dexmyoffers` and `dexmyofferscount` write
(rpc.cpp lines 282-294 and 541-551). -/
structure DexmyoffersVars where
  typefilter : String := ""
  countryfilter : String := ""
  currencyfilter : String := ""
  methodfilter : String := ""
  statusfilter : StatusOffer := StatusOffer.Indefined
  status : StatusOffer := StatusOffer.Indefined
  methodfiltertype : Nat := 0
  limit : Int := 0
  offset : Int := 0
deriving DecidableEq, Repr

/-- The map `words` of `dexmyoffers`: 0 for buy, 1 for sell, -1 for all; a key that is not in
the map reads as 0, as `operator[]` gives. -/
def myWords (typefilter : String) : Int :=
  if typefilter == "buy" then 0
  else if typefilter == "sell" then 1
  else if typefilter == "all" then -1
  else 0

/-- The filter part of the body of the parameter loops of `dexmyoffers` and
`dexmyofferscount` (rpc.cpp lines 319-350 and 554-587) for the parameter `p`: the variables
after it, whether it ended in `continue` or ran to its end. -/
def dexmyoffersFilter (ctx : RpcCtx) (db : DexDB) (p : String) (v : DexmyoffersVars) :
    DexmyoffersVars :=
  if v.typefilter.isEmpty && ["buy", "sell", "all"].contains p.toLower then
    { v with typefilter := p.toLower }
  else if v.countryfilter.isEmpty && ctx.countryIsValid p then { v with countryfilter := p }
  else if v.currencyfilter.isEmpty && ctx.currencyIsValid p then { v with currencyfilter := p }
  else
    let v1 : DexmyoffersVars :=
      if v.methodfilter.isEmpty then
        let m := findPaymentMethod (ctx.getPaymentMethodsInfo db) p.toLower
          (v.methodfilter, v.methodfiltertype)
        { v with methodfilter := m.1, methodfiltertype := m.2 }
      else v
    if v1.statusfilter == StatusOffer.Indefined then
      let status := ctx.statusSet p
      if status != StatusOffer.Indefined then { v1 with status := status, statusfilter := status }
      else { v1 with status := status }
    else v1

/-- The parameter loop of `dexmyoffers` (rpc.cpp lines 296-352), started at index `i` on the
parameters from index `i` on. -/
def dexmyoffersLoop (ctx : RpcCtx) (db : DexDB) :
    Nat → List String → DexmyoffersVars → Except String DexmyoffersVars
  | _, [], v => Except.ok v
  | i, p :: rest, v =>
    if p == "limit" then
      match rest with
      | [] => Except.error "\nnot enough parameters\n"
      | maxStr :: rest2 =>
        if i == 0 then Except.error "\nnot enough parameters\n"
        else
          match ctx.stoi maxStr with
          | none => Except.error errStoi
          | some n =>
            if rest2.isEmpty then Except.ok { v with limit := n }
            else dexmyoffersLoop ctx db (i + 2) rest2 { v with limit := n }
    else if p == "offset" && decide (v.limit > 0) then
      match rest with
      | [] => Except.error "\nnot enough parameters\n"
      | maxStr :: _ =>
        if i == 0 then Except.error "\nnot enough parameters\n"
        else
          match ctx.stoi maxStr with
          | none => Except.error errStoi
          | some n => Except.ok { v with offset := n }
    else dexmyoffersLoop ctx db (i + 1) rest (dexmyoffersFilter ctx db p v)

/-- The help text of `dexmyoffers`, of which the first line is kept. -/
def help_dexmyoffers : String :=
  "dexmyoffers [buy|sell|all] [country] [currency] [payment_method] [status] [limit N] [offset N]\n"

/-- The type of a row of own offers as a `TypeOffer`. -/
def typeOfferOf (info : MyOfferInfo) : TypeOffer :=
  if info.type == "buy" then TypeOffer.Buy else TypeOffer.Sell

/-- The command `dexmyoffers` (rpc.cpp lines 225-393). -/
def dexmyoffers (ctx : RpcCtx) (st : RpcState) (request : JSONRPCRequest) : RpcResult :=
  if !ctx.fTxIndex then RpcResult.throw st [] errTxIndex
  else
    match st.self with
    | none => RpcResult.throw st [] errNotInitialized
    | some db =>
      if request.fHelp || request.params.length < 1 || request.params.length > 9 then
        RpcResult.throw st [] help_dexmyoffers
      else
        match dexmyoffersLoop ctx db 0 request.params {} with
        | Except.error what => RpcResult.throw st [] what
        | Except.ok v0 =>
          let v : DexmyoffersVars :=
            if v0.typefilter.isEmpty then { v0 with typefilter := "all" } else v0
          if v.countryfilter != "" && !ctx.countryEnabled db v.countryfilter then
            RpcResult.throw st [] "\nERROR: this country is disabled in DB\n"
          else if v.currencyfilter != "" && !ctx.currencyEnabled db v.currencyfilter then
            RpcResult.throw st [] "\nERROR: this currency is disabled in DB\n"
          else
            let limit : Int := if v.limit == 0 then st.maxOutput else v.limit
            let myoffers := ctx.getMyOffers db v.countryfilter v.currencyfilter
              v.methodfiltertype (myWords v.typefilter) v.status limit v.offset
            RpcResult.returns st []
              (UniValue.VARR (myoffers.map (fun i =>
                JsonObj.offer (CDexOffer.ofOfferInfo i (typeOfferOf i))
                  [("status", JsonVal.status i.status),
                   ("statusStr", JsonVal.str (ctx.status2str i.status))])))

/-- The parameter loop of `dexmyofferscount` (rpc.cpp lines 553-588). -/
def dexmyofferscountLoop (ctx : RpcCtx) (db : DexDB) :
    List String → DexmyoffersVars → DexmyoffersVars
  | [], v => v
  | p :: rest, v => dexmyofferscountLoop ctx db rest (dexmyoffersFilter ctx db p v)

/-- The help text of `dexmyofferscount`, of which the first line is kept. -/
def help_dexmyofferscount : String :=
  "dexmyoffers [buy|sell|all] [country] [currency] [payment_method] [status] [limit N] [offset N]\n"

/-- The command `dexmyofferscount` (rpc.cpp lines 508-615). -/
def dexmyofferscount (ctx : RpcCtx) (st : RpcState) (request : JSONRPCRequest) : RpcResult :=
  if !ctx.fTxIndex then RpcResult.throw st [] errTxIndex
  else
    match st.self with
    | none => RpcResult.throw st [] errNotInitialized
    | some db =>
      if request.fHelp || request.params.length < 1 || request.params.length > 9 then
        RpcResult.throw st [] help_dexmyofferscount
      else
        let v0 := dexmyofferscountLoop ctx db request.params {}
        let v : DexmyoffersVars :=
          if v0.typefilter.isEmpty then { v0 with typefilter := "all" } else v0
        if v.countryfilter != "" && !ctx.countryEnabled db v.countryfilter then
          RpcResult.throw st [] "\nERROR: this country is disabled in DB\n"
        else if v.currencyfilter != "" && !ctx.currencyEnabled db v.currencyfilter then
          RpcResult.throw st [] "\nERROR: this currency is disabled in DB\n"
        else
          let count := ctx.countMyOffers db v.countryfilter v.currencyfilter
            v.methodfiltertype (myWords v.typefilter) v.status
          RpcResult.returns st []
            (UniValue.VOBJ (JsonObj.fields [("count", JsonVal.num count)]))

/-- The table `commands` (rpc.cpp lines 1213-1229): the name and the actor of each of the
registered commands of the category dex. -/
def commands : List (String × (RpcCtx → RpcState → JSONRPCRequest → RpcResult)) :=
  [ ("dexoffers", dexoffers),
    ("dexmyoffers", dexmyoffers),
    ("dexofferscount", dexofferscount),
    ("dexmyofferscount", dexmyofferscount),
    ("deldexoffer", deldexoffer),
    ("adddexoffer", adddexoffer),
    ("editdexoffer", editdexoffer),
    ("senddexoffer", senddexoffer),
    ("dexsync", dexsync),
    ("dexsettings", dexsettings),
    ("getdexinfo", getdexinfo),
    ("dexunconfirmed", dexunconfirmed),
    ("getdexoffer", getdexoffer) ]

/-! ## The trackers of unconfirmed offers -/

/-- Modelled from the spec: the bounded tracker of unconfirmed offers, the class behind
`dex::dexman.getUncOffers()` and `getBcstUncOffers()` (its code is not among the sources;
rpc.cpp only reads its size and its offers).  It has a fixed maximum capacity and holds its
entries in the order they were added, the least recently added first. -/
structure Tracker where
  capacity : Nat
  entries : List CDexOffer
deriving DecidableEq, Repr

/-- The failure of an insertion into a full tracker. -/
inductive TrackerError where
  | CapacityExceeded
deriving DecidableEq, Repr

/-- Modelled from the spec: the empty tracker of the given capacity. -/
def Tracker.empty (capacity : Nat) : Tracker := { capacity := capacity, entries := [] }

/-- Modelled from the spec: `size()`, the current count. -/
def Tracker.size (t : Tracker) : Nat := t.entries.length

/-- Modelled from the spec: `getByHash(hash)`, the offer if present. -/
def Tracker.getByHash (t : Tracker) (hash : Nat) : Option CDexOffer :=
  t.entries.find? (fun o => o.hash == hash)

/-- Modelled from the spec: `add(offer)`, which inserts or replaces by hash and fails with
`CapacityExceeded` if the tracker is at capacity.  The result is the tracker after the call
and the failure, if any. -/
def Tracker.add (t : Tracker) (offer : CDexOffer) : Tracker × Option TrackerError :=
  if t.entries.any (fun o => o.hash == offer.hash) then
    ({ t with entries := t.entries.map (fun o => if o.hash == offer.hash then offer else o) },
      none)
  else if t.capacity ≤ t.entries.length then (t, some TrackerError.CapacityExceeded)
  else ({ t with entries := t.entries ++ [offer] }, none)

/-- Modelled from the spec: `remove(hash)`, the explicit removal of an entry. -/
def Tracker.remove (t : Tracker) (hash : Nat) : Tracker :=
  { t with entries := t.entries.filter (fun o => o.hash != hash) }

/-- Modelled from the spec: `evictOldest()`, which removes the least recently added entry.
The result is the tracker after the call and the entry removed, if there was one. -/
def Tracker.evictOldest (t : Tracker) : Tracker × Option CDexOffer :=
  match t.entries with
  | [] => (t, none)
  | oldest :: rest => ({ t with entries := rest }, some oldest)

/-- The tracker after adding the offers of a list one after the other. -/
def Tracker.addAll (t : Tracker) : List CDexOffer → Tracker
  | [] => t
  | offer :: offers => Tracker.addAll (t.add offer).1 offers

/-! ## Sample data -/

/-- A buy offer with hash 1 and editing version 1. -/
def sampleBuy : CDexOffer :=
  { idTransaction := 7, hash := 1, pubKey := "02ab", type := "buy", countryIso := "RU",
    currencyIso := "RUB", paymentMethod := 1, price := 100, minAmount := 10,
    timeCreate := 1000, timeToExpiration := 87400, shortInfo := "s", details := "d",
    status := StatusOffer.Active, editingVersion := 1 }

/-- A sell offer with the same fee transaction as `sampleBuy`. -/
def sampleSell : CDexOffer := { sampleBuy with type := "sell", hash := 2 }

/-- Three peers, the second of which is not fully connected. -/
def samplePeers : List CNode :=
  [ { id := 1, fFullyConnected := true, nSendVersion := 70208 },
    { id := 2, fFullyConnected := false, nSendVersion := 70208 },
    { id := 3, fFullyConnected := true, nSendVersion := 70206 } ]

/-- An environment in which every offer passes both checks. -/
def sampleEnv : Env :=
  { Check := fun _ => true, CheckOfferTx := fun _ => true, vNodes := samplePeers }

/-- An environment in which every offer fails `Check`. -/
def sampleEnvBad : Env :=
  { Check := fun _ => false, CheckOfferTx := fun _ => true, vNodes := samplePeers }

/-- The digest whose three fields hold their maximal values. -/
def sampleCrcMax : CDexCrc :=
  { hashsum := 2 ^ 256 - 1, hashxor := 2 ^ 256 - 1, editingVersionSum := 2 ^ 32 - 1 }

/-- A peer that sends messages. -/
def samplePfrom : CNode := { id := 9, fFullyConnected := true, nSendVersion := 70208 }

/-- Three deliveries of one message, over three gossip paths. -/
def sampleDeliveries : List Delivery :=
  [ { env := sampleEnv, pfrom := samplePfrom },
    { env := sampleEnv, pfrom := { id := 1, fFullyConnected := true, nSendVersion := 70208 } },
    { env := { sampleEnv with vNodes := [] }, pfrom := samplePfrom } ]

/-- An empty store. -/
def sampleState : DexState :=
  { db := { offersBuy := [], offersSell := [], myOffers := [] } }

/-- A store that already holds `sampleSell` in its sell partition. -/
def sampleStateSell : DexState :=
  { db := { offersBuy := [], offersSell := [sampleSell], myOffers := [] } }

/-- The value of one hexadecimal digit. -/
def hexDigit (c : Char) : Option Nat :=
  if c.isDigit then some (c.toNat - 48)
  else if 97 ≤ c.toNat ∧ c.toNat ≤ 102 then some (c.toNat - 87)
  else if 65 ≤ c.toNat ∧ c.toNat ≤ 70 then some (c.toNat - 55)
  else none

/-- The value of the leading hexadecimal digits of a list of characters. -/
def hexValue : List Char → Nat → Nat
  | [], acc => acc
  | c :: cs, acc =>
    match hexDigit c with
    | some d => hexValue cs (16 * acc + d)
    | none => acc

/-- The value of a nonempty list of decimal digits. -/
def decValue : List Char → Nat → Option Nat
  | [], _ => none
  | [c], acc => if c.isDigit then some (10 * acc + (c.toNat - 48)) else none
  | c :: cs, acc => if c.isDigit then decValue cs (10 * acc + (c.toNat - 48)) else none

/-- A reading of decimal integers with an optional minus sign, standing for `std::stoi`. -/
def sampleStoi (s : String) : Option Int :=
  match s.toList with
  | [] => none
  | c :: cs =>
    if c.toNat == 45 then (decValue cs 0).map (fun n => - (n : Int))
    else (decValue (c :: cs) 0).map (fun n => (n : Int))

/-- An own offer in the state Draft, with hash 0xa1. -/
def sampleDraft : CDexOffer :=
  { sampleBuy with hash := 161, idTransaction := 0, status := StatusOffer.Draft }

/-- An own offer in the state Active, with hash 0xa2. -/
def sampleActive : CDexOffer :=
  { sampleSell with hash := 162, status := StatusOffer.Active }

/-- A store with two own offers, one foreign buy offer (hash 1) and one foreign sell offer
(hash 2). -/
def sampleDb : DexDB :=
  { offersBuy := [sampleBuy], offersSell := [sampleSell], myOffers := [sampleDraft, sampleActive] }

/-- An initialised process with empty trackers. -/
def sampleRpcState : RpcState :=
  { self := some sampleDb, uncOffers := [], bcstUncOffers := [], maxOutput := 100,
    syncStatus := "NotSynced" }

/-- A process whose store is not initialised. -/
def sampleRpcStateNull : RpcState := { sampleRpcState with self := none }

/-- A context with transaction indexing on, three connected peers of which only the first
takes bytes at once, a wallet that holds every key, and listings that honour their limit. -/
def sampleCtx : RpcCtx :=
  { fTxIndex := true
    uint256S := fun s => hexValue s.toList 0
    stoi := sampleStoi
    get_int := sampleStoi
    countryIsValid := fun s => s == "RU"
    currencyIsValid := fun s => s == "RUB"
    countryEnabled := fun _ _ => true
    currencyEnabled := fun _ _ => true
    getPaymentMethodsInfo := fun _ => [("Cash", 1), ("Online", 128)]
    getOffersBuy := fun db _ _ _ limit offset =>
      if limit > 0 then (db.offersBuy.drop offset.toNat).take limit.toNat
      else db.offersBuy.drop offset.toNat
    getOffersSell := fun db _ _ _ limit offset =>
      if limit > 0 then (db.offersSell.drop offset.toNat).take limit.toNat
      else db.offersSell.drop offset.toNat
    FindKey := fun _ => Except.ok 5
    SignOffer := fun _ _ => Except.ok [1, 2, 3]
    vNodes := samplePeers
    nSendBytesAdded := fun pNode _ => if pNode.id == 1 then 80 else 0
    jsonToMyOfferInfo := fun _ => (CDexOffer.null, "")
    prepareAndSendMyOffer := fun db offer => (db, offer, "")
    addOrEditDraftMyOffer := fun db offer => (db, offer)
    reset := fun st => (st, true)
    forceSynced := fun st => st
    getMyOffers := fun db _ _ _ _ _ _ _ => db.myOffers
    countOffersBuy := fun db _ _ _ => db.offersBuy.length
    countOffersSell := fun db _ _ _ => db.offersSell.length
    countMyOffers := fun db _ _ _ _ _ => db.myOffers.length
    statusSet := fun s => if s == "Active" then StatusOffer.Active
      else if s == "Draft" then StatusOffer.Draft else StatusOffer.Indefined
    status2str := fun s => if s == StatusOffer.Active then "Active" else "Other"
    GeneratePrivKey := 5
    GetPubKey := fun _ => "02ab"
    AddKeyPubKey := fun _ => true
    Create := fun info => some { info with hash := 163 } }

/-- The context `sampleCtx` without any peer. -/
def sampleCtxAlone : RpcCtx := { sampleCtx with vNodes := [] }

/-- The context `sampleCtx` in which every JSON text reads as the given offer. -/
def sampleCtxJson (offer : MyOfferInfo) : RpcCtx :=
  { sampleCtx with jsonToMyOfferInfo := fun _ => (offer, "") }

/-- New data for `sampleActive`: another price and texts, and a creation time one second
later, which leaves the shelf life at one day. -/
def sampleEdit : MyOfferInfo :=
  { sampleActive with price := 250, shortInfo := "new", details := "text", timeCreate := 1001 }

/-- New data for `sampleActive` that changes the minimal amount. -/
def sampleEditBad : MyOfferInfo := { sampleActive with price := 250, minAmount := 11 }

/-- A process that tracks one own unconfirmed offer (hash 0xb1) and one broadcast
unconfirmed offer (hash 0xb2). -/
def sampleRpcStateUnc : RpcState :=
  { sampleRpcState with
    uncOffers := [{ sampleBuy with hash := 177 }]
    bcstUncOffers := [{ sampleSell with hash := 178 }] }

/-- The context `sampleCtx` with a sync controller that refuses to reset. -/
def sampleCtxBusy : RpcCtx := { sampleCtx with reset := fun st => (st, false) }

/-- A process whose table of own offers holds one offer with the stored status `Indefined`
(hash 0xa3). -/
def sampleRpcStateIndef : RpcState :=
  { sampleRpcState with
    self := some { offersBuy := [], offersSell := [],
                   myOffers := [{ sampleActive with hash := 163, status := StatusOffer.Indefined }] } }

/-- An offer whose type is neither buy nor sell. -/
def sampleUntyped : CDexOffer := { sampleBuy with type := "swap", hash := 3 }

/-- A draft as `adddexoffer` leaves it, with editing version 0 (hash 0xa4). -/
def sampleDraft0 : MyOfferInfo :=
  { sampleBuy with
    hash := 164
    idTransaction := 0
    status := StatusOffer.Draft
    editingVersion := 0 }

/-- New data for `sampleDraft0`, as read from the JSON text. -/
def sampleDraftEdit : MyOfferInfo :=
  { sampleDraft0 with hash := 0, price := 300, status := StatusOffer.Indefined }

/-- A process whose table of own offers holds the draft `sampleDraft0`. -/
def sampleRpcStateDraft0 : RpcState :=
  { sampleRpcState with
    self := some { offersBuy := [], offersSell := [], myOffers := [sampleDraft0] } }

/-- A context in which every JSON text reads as `sampleDraftEdit` and
`addOrEditDraftMyOffer` gives the offer the hash 0xa5 and stores it in place of the rows of
the table of own offers. -/
def sampleCtxDraft : RpcCtx :=
  { sampleCtxJson sampleDraftEdit with
    addOrEditDraftMyOffer := fun db offer =>
      ({ db with myOffers := [{ offer with hash := 165 }] }, { offer with hash := 165 }) }

/-- An own offer whose stored status is Expired (hash 0xa6). -/
def sampleExpired : MyOfferInfo :=
  { sampleSell with hash := 166, status := StatusOffer.Expired }

/-- A process whose table of own offers holds `sampleExpired`. -/
def sampleRpcStateExpired : RpcState :=
  { sampleRpcState with
    self := some { offersBuy := [], offersSell := [], myOffers := [sampleExpired] } }

/-- The context `sampleCtx` in which `FindKey` finds no key for any offer. -/
def sampleCtxNoKey : RpcCtx :=
  { sampleCtx with FindKey := fun _ => Except.error "key not found" }

/-! ## Properties of the digest -/

theorem add256_comm (a b : Nat) : add256 a b = add256 b a := by
  simp only [add256, Nat.add_comm]

theorem add256_assoc (a b c : Nat) : add256 (add256 a b) c = add256 a (add256 b c) := by
  simp only [add256, Nat.add_mod_mod, Nat.mod_add_mod, Nat.add_assoc]

theorem xor256_comm (a b : Nat) : xor256 a b = xor256 b a := by
  simp only [xor256, Nat.xor_comm]

theorem xor256_assoc (a b c : Nat) : xor256 (xor256 a b) c = xor256 a (xor256 b c) := by
  simp only [xor256, Nat.xor_assoc]

theorem xor256_cancel (a h : Nat) : xor256 (xor256 a h) h = a := by
  simp only [xor256, Nat.xor_assoc, Nat.xor_self, Nat.xor_zero]

theorem add256_neg256 (a h : Nat) (ha : a < 2 ^ 256) :
    add256 (add256 a h) (neg256 h) = a := by
  simp only [add256, neg256]
  omega

theorem sub32_add (a v : Nat) (ha : a < 2 ^ 32) : sub32 ((a + v) % 2 ^ 32) v = a := by
  simp only [sub32]
  omega

theorem CDexCrc.add_comm (a b : CDexCrc) : a.add b = b.add a := by
  simp only [CDexCrc.add, add256_comm a.hashsum, xor256_comm a.hashxor,
    Nat.add_comm a.editingVersionSum]

theorem CDexCrc.add_assoc (a b c : CDexCrc) : (a.add b).add c = a.add (b.add c) := by
  simp only [CDexCrc.add, add256_assoc, xor256_assoc, Nat.add_mod_mod, Nat.mod_add_mod,
    Nat.add_assoc]

theorem CDexCrc.addOffer_right_comm (d : CDexCrc) (x y : CDexOffer) :
    (d.addOffer x).addOffer y = (d.addOffer y).addOffer x := by
  simp only [CDexCrc.addOffer, CDexCrc.add_assoc]
  rw [CDexCrc.add_comm (CDexCrc.ofOffer x)]

theorem length_toBytesLE (width v : Nat) : (toBytesLE width v).length = width := by
  induction width generalizing v with
  | zero => rfl
  | succ w ih => simp [toBytesLE, ih]

theorem ofBytesLE_toBytesLE (width v : Nat) :
    ofBytesLE (toBytesLE width v) = v % 256 ^ width := by
  induction width generalizing v with
  | zero => simp [toBytesLE, ofBytesLE, Nat.mod_one]
  | succ w ih =>
    simp only [toBytesLE, ofBytesLE, ih]
    rw [Nat.pow_succ, Nat.mul_comm (256 ^ w) 256, Nat.mod_mul, Nat.add_comm]

theorem toBytesLE_lt (width v : Nat) : ∀ b ∈ toBytesLE width v, b < 256 := by
  induction width generalizing v with
  | zero => simp [toBytesLE]
  | succ w ih =>
    intro b hb
    simp only [toBytesLE, List.mem_cons] at hb
    rcases hb with rfl | hb
    · exact Nat.mod_lt _ (by decide)
    · exact ih _ b hb

theorem READWRITE_read (width v : Nat) (rest : ByteStream) (old : Nat) :
    READWRITE width .CSerActionUnserialize (toBytesLE width v ++ rest) old
      = some (v % 256 ^ width, rest) := by
  have hl := length_toBytesLE width v
  simp only [READWRITE, List.length_append, hl, Nat.not_lt.mpr (Nat.le_add_right width _),
    if_false]
  rw [List.take_left' hl, List.drop_left' hl, ofBytesLE_toBytesLE]

/-- C6. Digest combination (`CDexCrc::operator+`) is commutative and associative, and folding a
list of offers into the zero digest gives the same digest for every permutation of the list. -/
theorem CDexCrc_add_comm_assoc_fold_perm :
    (∀ a b : CDexCrc, a.add b = b.add a) ∧
    (∀ a b c : CDexCrc, (a.add b).add c = a.add (b.add c)) ∧
    (∀ l₁ l₂ : List CDexOffer, l₁.Perm l₂ →
      CDexCrc.zero.addOfferList l₁ = CDexCrc.zero.addOfferList l₂) := by
  refine ⟨CDexCrc.add_comm, CDexCrc.add_assoc, ?_⟩
  intro l₁ l₂ hp
  exact List.Perm.foldl_eq' hp (fun x _ y _ z => CDexCrc.addOffer_right_comm z x y) _

/-- Witness of C6 on the two orders of a pair of offers. -/
theorem CDexCrc_add_comm_assoc_fold_perm_witness :
    CDexCrc.zero.addOfferList [sampleBuy, sampleSell]
      = CDexCrc.zero.addOfferList [sampleSell, sampleBuy] :=
  CDexCrc_add_comm_assoc_fold_perm.2.2 _ _ (List.Perm.swap _ _ _)

/-- C7. Removing an offer from a digest it was just combined into gives the digest back, for
every digest whose fields fit their machine types and every offer, wrap-around included. -/
theorem CDexCrc_remove_add_ofOffer (d : CDexCrc) (o : CDexOffer) (hd : d.InRange) :
    (d.add (CDexCrc.ofOffer o)).remove o = d := by
  obtain ⟨h1, _, h3⟩ := hd
  cases d with
  | mk s x v =>
    simp only [CDexCrc.add, CDexCrc.remove, CDexCrc.ofOffer, CDexCrc.mk.injEq]
    exact ⟨add256_neg256 s o.hash h1, xor256_cancel x o.hash, sub32_add v o.editingVersion h3⟩

/-- Witness of C7 on the maximal digest and an offer that makes both sums wrap around. -/
theorem CDexCrc_remove_add_ofOffer_witness :
    sampleCrcMax.InRange ∧
      (sampleCrcMax.add (CDexCrc.ofOffer sampleBuy)).hashsum = 0 ∧
      (sampleCrcMax.add (CDexCrc.ofOffer sampleBuy)).remove sampleBuy = sampleCrcMax :=
  ⟨by decide, by decide, CDexCrc_remove_add_ofOffer sampleCrcMax sampleBuy (by decide)⟩

/-- C8. Serialising a digest appends `hashsum`, `hashxor` and `editingVersionSum` in this order
as 32 + 32 + 4 = 68 bytes without length prefixes, and unserialising these bytes gives the
same triple back and consumes exactly them. -/
theorem CDexCrc_SerializationOp_roundtrip (d : CDexCrc) (hd : d.InRange)
    (s rest : ByteStream) (d0 : CDexCrc) :
    CDexCrc.SerializationOp s .CSerActionSerialize d
        = some (d, s ++ (toBytesLE 32 d.hashsum ++ toBytesLE 32 d.hashxor
            ++ toBytesLE 4 d.editingVersionSum)) ∧
      (toBytesLE 32 d.hashsum ++ toBytesLE 32 d.hashxor
          ++ toBytesLE 4 d.editingVersionSum).length = 68 ∧
      CDexCrc.SerializationOp
          (toBytesLE 32 d.hashsum ++ toBytesLE 32 d.hashxor
            ++ toBytesLE 4 d.editingVersionSum ++ rest) .CSerActionUnserialize d0
        = some (d, rest) := by
  obtain ⟨h1, h2, h3⟩ := hd
  refine ⟨?_, ?_, ?_⟩
  · simp [CDexCrc.SerializationOp, READWRITE, List.append_assoc]
  · simp [length_toBytesLE]
  · have e1 : d.hashsum % 256 ^ 32 = d.hashsum := Nat.mod_eq_of_lt (by omega)
    have e2 : d.hashxor % 256 ^ 32 = d.hashxor := Nat.mod_eq_of_lt (by omega)
    have e3 : d.editingVersionSum % 256 ^ 4 = d.editingVersionSum :=
      Nat.mod_eq_of_lt (by omega)
    simp only [CDexCrc.SerializationOp, List.append_assoc, READWRITE_read, e1, e2, e3]

/-- Witness of C8 on the digest with maximal fields. -/
theorem CDexCrc_SerializationOp_roundtrip_witness :
    sampleCrcMax.InRange ∧
      CDexCrc.SerializationOp
          (toBytesLE 32 sampleCrcMax.hashsum ++ toBytesLE 32 sampleCrcMax.hashxor
            ++ toBytesLE 4 sampleCrcMax.editingVersionSum ++ []) .CSerActionUnserialize
          CDexCrc.zero
        = some (sampleCrcMax, []) :=
  ⟨by decide, (CDexCrc_SerializationOp_roundtrip sampleCrcMax (by decide) [] []
    CDexCrc.zero).2.2⟩

/-! ## Properties of `ProcessMessage` -/

theorem CDexOffer.isSell_eq_false_of_isBuy (o : CDexOffer) (h : o.isBuy = true) :
    o.isSell = false := by
  simp only [CDexOffer.isBuy, beq_iff_eq] at h
  simp [CDexOffer.isSell, h]

theorem CDexOffer.isBuy_eq_false_of_isSell (o : CDexOffer) (h : o.isSell = true) :
    o.isBuy = false := by
  simp only [CDexOffer.isSell, beq_iff_eq] at h
  simp [CDexOffer.isBuy, h]

theorem ProcessMessage_buy_new (env : Env) (pfrom : CNode) (vRecv : CDataStream)
    (st : DexState) (hc : env.Check vRecv.offer = true)
    (ht : env.CheckOfferTx vRecv.offer = true) (hb : vRecv.offer.isBuy = true)
    (hn : st.db.isExistOfferBuy vRecv.offer.idTransaction = false) :
    ProcessMessage env pfrom NetMsgType.DEXOFFBCST vRecv st
      = ({ st with db := st.db.addOfferBuy vRecv.offer },
          [Effect.DexDB, Effect.isExistOfferBuy vRecv.offer.idTransaction,
            Effect.addOfferBuy vRecv.offer] ++ relayEffects env vRecv.offer
            ++ [Effect.LogPrintf "DEXOFFBCST --\n%s\nfound %d\n"]) := by
  have hs := vRecv.offer.isSell_eq_false_of_isBuy hb
  simp [ProcessMessage, relayEffects, hc, ht, hb, hn, hs]

theorem ProcessMessage_buy_dup (env : Env) (pfrom : CNode) (vRecv : CDataStream)
    (st : DexState) (hc : env.Check vRecv.offer = true)
    (ht : env.CheckOfferTx vRecv.offer = true) (hb : vRecv.offer.isBuy = true)
    (hn : st.db.isExistOfferBuy vRecv.offer.idTransaction = true) :
    ProcessMessage env pfrom NetMsgType.DEXOFFBCST vRecv st
      = (st, [Effect.DexDB, Effect.isExistOfferBuy vRecv.offer.idTransaction,
          Effect.LogPrintf "DEXOFFBCST --\n%s\nfound %d\n"]) := by
  have hs := vRecv.offer.isSell_eq_false_of_isBuy hb
  simp [ProcessMessage, hc, ht, hb, hn, hs]

theorem ProcessMessage_sell_new (env : Env) (pfrom : CNode) (vRecv : CDataStream)
    (st : DexState) (hc : env.Check vRecv.offer = true)
    (ht : env.CheckOfferTx vRecv.offer = true) (hs : vRecv.offer.isSell = true)
    (hn : st.db.isExistOfferSell vRecv.offer.idTransaction = false) :
    ProcessMessage env pfrom NetMsgType.DEXOFFBCST vRecv st
      = ({ st with db := st.db.addOfferSell vRecv.offer },
          [Effect.DexDB, Effect.isExistOfferSell vRecv.offer.idTransaction,
            Effect.addOfferSell vRecv.offer] ++ relayEffects env vRecv.offer
            ++ [Effect.LogPrintf "DEXOFFBCST --\n%s\nfound %d\n"]) := by
  have hb := vRecv.offer.isBuy_eq_false_of_isSell hs
  simp [ProcessMessage, relayEffects, hc, ht, hb, hn, hs]

theorem ProcessMessage_sell_dup (env : Env) (pfrom : CNode) (vRecv : CDataStream)
    (st : DexState) (hc : env.Check vRecv.offer = true)
    (ht : env.CheckOfferTx vRecv.offer = true) (hs : vRecv.offer.isSell = true)
    (hn : st.db.isExistOfferSell vRecv.offer.idTransaction = true) :
    ProcessMessage env pfrom NetMsgType.DEXOFFBCST vRecv st
      = (st, [Effect.DexDB, Effect.isExistOfferSell vRecv.offer.idTransaction,
          Effect.LogPrintf "DEXOFFBCST --\n%s\nfound %d\n"]) := by
  have hb := vRecv.offer.isBuy_eq_false_of_isSell hs
  simp [ProcessMessage, hc, ht, hb, hn, hs]

theorem ProcessMessage_other (env : Env) (pfrom : CNode) (vRecv : CDataStream)
    (st : DexState) (hc : env.Check vRecv.offer = true)
    (ht : env.CheckOfferTx vRecv.offer = true) (hb : vRecv.offer.isBuy = false)
    (hs : vRecv.offer.isSell = false) :
    ProcessMessage env pfrom NetMsgType.DEXOFFBCST vRecv st
      = (st, [Effect.DexDB] ++ relayEffects env vRecv.offer
          ++ [Effect.LogPrintf "DEXOFFBCST --\n%s\nfound %d\n"]) := by
  simp [ProcessMessage, relayEffects, hc, ht, hb, hs]

theorem pushes_append (xs ys : List Effect) : pushes (xs ++ ys) = pushes xs ++ pushes ys := by
  induction xs with
  | nil => rfl
  | cons e es ih => cases e <;> simp [pushes, ih]

theorem pushes_map_PushMessage (ns : List CNode) (f : CNode → CSerializedNetMsg) :
    pushes (ns.map (fun pNode => Effect.PushMessage pNode (f pNode)))
      = ns.map (fun pNode => (pNode, f pNode)) := by
  induction ns with
  | nil => rfl
  | cons n ns ih => simp [pushes, ih]

theorem pushes_relayEffects (env : Env) (offer : CDexOffer) :
    pushes (relayEffects env offer)
      = env.CopyNodeVector.map (fun pNode =>
          (pNode, CNetMsgMaker.Make pNode.nSendVersion NetMsgType.DEXOFFBCST offer)) := by
  simp [relayEffects, pushes_append, pushes_map_PushMessage, pushes]

theorem relayFired_relayEffects (env : Env) (offer : CDexOffer) (pre post : List Effect) :
    relayFired (pre ++ relayEffects env offer ++ post) = true := by
  simp [relayFired, relayEffects, Effect.isRelay]

theorem filter_isStore_relayEffects (env : Env) (offer : CDexOffer) :
    (relayEffects env offer).filter Effect.isStore = [] := by
  simp [relayEffects, List.filter_eq_nil_iff, Effect.isStore]

theorem filter_isInsert_relayEffects (env : Env) (offer : CDexOffer) :
    (relayEffects env offer).filter Effect.isInsert = [] := by
  simp [relayEffects, List.filter_eq_nil_iff, Effect.isInsert]

theorem DexDB.isExistOffer_eq_true_iff (db : DexDB) (o : CDexOffer) :
    db.isExistOffer o = true
      ↔ ∃ stored ∈ db.partition o.type, stored.idTransaction = o.idTransaction := by
  by_cases hb : o.type = "buy"
  · simp [DexDB.isExistOffer, DexDB.partition, CDexOffer.isBuy, CDexOffer.isSell, hb,
      DexDB.isExistOfferBuy]
  · by_cases hs : o.type = "sell"
    · simp [DexDB.isExistOffer, DexDB.partition, CDexOffer.isBuy, CDexOffer.isSell, hs,
        DexDB.isExistOfferSell]
    · simp [DexDB.isExistOffer, DexDB.partition, CDexOffer.isBuy, CDexOffer.isSell, hb, hs]

theorem ProcessMessage_dup (env : Env) (pfrom : CNode) (vRecv : CDataStream)
    (st : DexState) (hc : env.Check vRecv.offer = true)
    (ht : env.CheckOfferTx vRecv.offer = true)
    (hdup : st.db.isExistOffer vRecv.offer = true) :
    (ProcessMessage env pfrom NetMsgType.DEXOFFBCST vRecv st).1 = st ∧
      (ProcessMessage env pfrom NetMsgType.DEXOFFBCST vRecv st).2.filter Effect.isInsert = [] ∧
      pushes (ProcessMessage env pfrom NetMsgType.DEXOFFBCST vRecv st).2 = [] ∧
      relayFired (ProcessMessage env pfrom NetMsgType.DEXOFFBCST vRecv st).2 = false := by
  simp only [DexDB.isExistOffer, Bool.or_eq_true, Bool.and_eq_true] at hdup
  rcases hdup with ⟨hb, he⟩ | ⟨hs, he⟩
  · rw [ProcessMessage_buy_dup env pfrom vRecv st hc ht hb he]
    simp [pushes, relayFired, Effect.isRelay, Effect.isInsert]
  · rw [ProcessMessage_sell_dup env pfrom vRecv st hc ht hs he]
    simp [pushes, relayFired, Effect.isRelay, Effect.isInsert]

theorem ProcessMessage_new (env : Env) (pfrom : CNode) (vRecv : CDataStream)
    (st : DexState) (hc : env.Check vRecv.offer = true)
    (ht : env.CheckOfferTx vRecv.offer = true)
    (htype : vRecv.offer.isBuy = true ∨ vRecv.offer.isSell = true)
    (hnew : st.db.isExistOffer vRecv.offer = false) :
    (ProcessMessage env pfrom NetMsgType.DEXOFFBCST vRecv st).1.db.isExistOffer vRecv.offer
        = true ∧
      (ProcessMessage env pfrom NetMsgType.DEXOFFBCST vRecv st).1.db.records
        vRecv.offer.type vRecv.offer.idTransaction = [vRecv.offer] ∧
      relayFired (ProcessMessage env pfrom NetMsgType.DEXOFFBCST vRecv st).2 = true := by
  rcases htype with hb | hs
  · have hn : st.db.isExistOfferBuy vRecv.offer.idTransaction = false := by
      simpa [DexDB.isExistOffer, hb, vRecv.offer.isSell_eq_false_of_isBuy hb] using hnew
    rw [ProcessMessage_buy_new env pfrom vRecv st hc ht hb hn]
    have hty : vRecv.offer.type = "buy" := by simpa [CDexOffer.isBuy] using hb
    have hf : st.db.offersBuy.filter
        (fun o => o.idTransaction == vRecv.offer.idTransaction) = [] := by
      simpa [DexDB.isExistOfferBuy, List.filter_eq_nil_iff] using hn
    refine ⟨?_, ?_, ?_⟩
    · simp [DexDB.isExistOffer, hb, DexDB.isExistOfferBuy, DexDB.addOfferBuy]
    · simp [DexDB.records, DexDB.partition, hty, DexDB.addOfferBuy, hf]
    · exact relayFired_relayEffects env vRecv.offer _ _
  · have hn : st.db.isExistOfferSell vRecv.offer.idTransaction = false := by
      simpa [DexDB.isExistOffer, hs, vRecv.offer.isBuy_eq_false_of_isSell hs] using hnew
    rw [ProcessMessage_sell_new env pfrom vRecv st hc ht hs hn]
    have hty : vRecv.offer.type = "sell" := by simpa [CDexOffer.isSell] using hs
    have hf : st.db.offersSell.filter
        (fun o => o.idTransaction == vRecv.offer.idTransaction) = [] := by
      simpa [DexDB.isExistOfferSell, List.filter_eq_nil_iff] using hn
    refine ⟨?_, ?_, ?_⟩
    · simp [DexDB.isExistOffer, hs, DexDB.isExistOfferSell, DexDB.addOfferSell]
    · simp [DexDB.records, DexDB.partition, hty, DexDB.addOfferSell, hf]
    · exact relayFired_relayEffects env vRecv.offer _ _

theorem deliverAll_dup (vRecv : CDataStream) (ds : List Delivery) (st : DexState)
    (hvalid : ∀ d ∈ ds, d.env.Check vRecv.offer = true ∧ d.env.CheckOfferTx vRecv.offer = true)
    (hdup : st.db.isExistOffer vRecv.offer = true) :
    (deliverAll NetMsgType.DEXOFFBCST vRecv ds st).1 = st ∧
      (deliverAll NetMsgType.DEXOFFBCST vRecv ds st).2.map relayFired
        = List.replicate ds.length false := by
  induction ds with
  | nil => simp [deliverAll]
  | cons d ds ih =>
    have hd := hvalid d (List.mem_cons_self _ _)
    have h1 := ProcessMessage_dup d.env d.pfrom vRecv st hd.1 hd.2 hdup
    have ih1 := ih (fun x hx => hvalid x (List.mem_cons_of_mem _ hx))
    simp only [deliverAll, h1.1, ih1.1, List.map_cons, h1.2.2.2, ih1.2, List.length_cons,
      List.replicate_succ, and_self]

/-! ## The claims about `ProcessMessage` -/

/-- C1. For an offer that passes both checks at every delivery, is a buy or a sell offer, and
whose key `(type, idTransaction)` is not yet in the store: after N >= 1 deliveries of the same
DEXOFFBCST message the store holds exactly one record under that key, the offer itself, and
the relay block is entered in the first delivery and in no later one. -/
theorem deliverAll_stores_once_relays_once (vRecv : CDataStream) (ds : List Delivery)
    (st : DexState) (hN : 1 ≤ ds.length)
    (hvalid : ∀ d ∈ ds, d.env.Check vRecv.offer = true ∧ d.env.CheckOfferTx vRecv.offer = true)
    (htype : vRecv.offer.isBuy = true ∨ vRecv.offer.isSell = true)
    (hnew : st.db.isExistOffer vRecv.offer = false) :
    (deliverAll NetMsgType.DEXOFFBCST vRecv ds st).1.db.records
        vRecv.offer.type vRecv.offer.idTransaction = [vRecv.offer] ∧
      (deliverAll NetMsgType.DEXOFFBCST vRecv ds st).2.map relayFired
        = true :: List.replicate (ds.length - 1) false := by
  cases ds with
  | nil => simp at hN
  | cons d ds =>
    have hd := hvalid d (List.mem_cons_self _ _)
    have h1 := ProcessMessage_new d.env d.pfrom vRecv st hd.1 hd.2 htype hnew
    have h2 := deliverAll_dup vRecv ds
      (ProcessMessage d.env d.pfrom NetMsgType.DEXOFFBCST vRecv st).1
      (fun x hx => hvalid x (List.mem_cons_of_mem _ hx)) h1.1
    simp only [deliverAll, h2.1, h1.2.1, List.map_cons, h1.2.2, h2.2, List.length_cons,
      Nat.add_sub_cancel, and_self]

/-- Witness of C1: three deliveries of a buy offer into an empty store. -/
theorem deliverAll_stores_once_relays_once_witness :
    (deliverAll NetMsgType.DEXOFFBCST { offer := sampleBuy, vchSign := [] } sampleDeliveries
        sampleState).1.db.records sampleBuy.type sampleBuy.idTransaction = [sampleBuy] ∧
      (deliverAll NetMsgType.DEXOFFBCST { offer := sampleBuy, vchSign := [] } sampleDeliveries
        sampleState).2.map relayFired
        = true :: List.replicate (sampleDeliveries.length - 1) false :=
  deliverAll_stores_once_relays_once { offer := sampleBuy, vchSign := [] } sampleDeliveries
    sampleState (by decide)
    (by
      intro d hd
      simp only [sampleDeliveries, List.mem_cons, List.mem_singleton, List.not_mem_nil,
        or_false] at hd
      rcases hd with rfl | rfl | rfl <;> exact ⟨rfl, rfl⟩)
    (Or.inl (by decide)) (by decide)

/-- C2. A valid inbound offer whose `idTransaction` is already carried by some record of the
partition of its type, whatever the other fields of the two, causes no store insertion and no
push to any peer: the state is unchanged and the relay block is not entered. -/
theorem ProcessMessage_duplicate_no_insert_no_push (env : Env) (pfrom : CNode)
    (vRecv : CDataStream) (st : DexState) (stored : CDexOffer)
    (hc : env.Check vRecv.offer = true) (ht : env.CheckOfferTx vRecv.offer = true)
    (hmem : stored ∈ st.db.partition vRecv.offer.type)
    (hid : stored.idTransaction = vRecv.offer.idTransaction) :
    (ProcessMessage env pfrom NetMsgType.DEXOFFBCST vRecv st).1 = st ∧
      (ProcessMessage env pfrom NetMsgType.DEXOFFBCST vRecv st).2.filter Effect.isInsert = [] ∧
      pushes (ProcessMessage env pfrom NetMsgType.DEXOFFBCST vRecv st).2 = [] ∧
      relayFired (ProcessMessage env pfrom NetMsgType.DEXOFFBCST vRecv st).2 = false :=
  ProcessMessage_dup env pfrom vRecv st hc ht
    ((DexDB.isExistOffer_eq_true_iff st.db vRecv.offer).mpr ⟨stored, hmem, hid⟩)

/-- Witness of C2: a sell offer with another hash and editing version than the stored one. -/
theorem ProcessMessage_duplicate_no_insert_no_push_witness :
    (ProcessMessage sampleEnv samplePfrom NetMsgType.DEXOFFBCST
        { offer := { sampleSell with hash := 99, editingVersion := 5 }, vchSign := [] }
        sampleStateSell).1 = sampleStateSell ∧
      pushes (ProcessMessage sampleEnv samplePfrom NetMsgType.DEXOFFBCST
        { offer := { sampleSell with hash := 99, editingVersion := 5 }, vchSign := [] }
        sampleStateSell).2 = [] :=
  have h := ProcessMessage_duplicate_no_insert_no_push sampleEnv samplePfrom
    { offer := { sampleSell with hash := 99, editingVersion := 5 }, vchSign := [] }
    sampleStateSell sampleSell rfl rfl (by decide) rfl
  ⟨h.1, h.2.2.1⟩

/-- C3. A DEXOFFBCST message whose offer fails `Check(true)` or whose fee transaction fails
`CheckOfferTx` is dropped: the state is unchanged, no call is made on the store, no message is
pushed, and the only call made is one `LogPrintf`, after which the function returns. -/
theorem ProcessMessage_invalid_dropped (env : Env) (pfrom : CNode) (vRecv : CDataStream)
    (st : DexState)
    (h : env.Check vRecv.offer = false ∨ env.CheckOfferTx vRecv.offer = false) :
    (ProcessMessage env pfrom NetMsgType.DEXOFFBCST vRecv st).1 = st ∧
      (ProcessMessage env pfrom NetMsgType.DEXOFFBCST vRecv st).2.filter Effect.isStore = [] ∧
      pushes (ProcessMessage env pfrom NetMsgType.DEXOFFBCST vRecv st).2 = [] ∧
      ∃ fmt, (ProcessMessage env pfrom NetMsgType.DEXOFFBCST vRecv st).2
        = [Effect.LogPrintf fmt] := by
  by_cases hc : env.Check vRecv.offer = true
  · have ht : env.CheckOfferTx vRecv.offer = false := by
      rcases h with h | h
      · rw [hc] at h; cases h
      · exact h
    simp [ProcessMessage, hc, ht, pushes, Effect.isStore]
  · have hc2 : env.Check vRecv.offer = false := by simpa using hc
    simp [ProcessMessage, hc2, pushes, Effect.isStore]

/-- Witness of C3: an offer that fails `Check`. -/
theorem ProcessMessage_invalid_dropped_witness :
    (ProcessMessage sampleEnvBad samplePfrom NetMsgType.DEXOFFBCST
        { offer := sampleBuy, vchSign := [] } sampleState).1 = sampleState ∧
      pushes (ProcessMessage sampleEnvBad samplePfrom NetMsgType.DEXOFFBCST
        { offer := sampleBuy, vchSign := [] } sampleState).2 = [] :=
  have h := ProcessMessage_invalid_dropped sampleEnvBad samplePfrom
    { offer := sampleBuy, vchSign := [] } sampleState (Or.inl rfl)
  ⟨h.1, h.2.2.1⟩

/-- C4. For a valid offer whose key is absent from the partition of its type, the messages
pushed are exactly one per node of the `FullyConnectedOnly` snapshot, in the order of the
snapshot, each with the command DEXOFFBCST, the send version of its node and the received
offer unchanged. -/
theorem ProcessMessage_novel_pushes (env : Env) (pfrom : CNode) (vRecv : CDataStream)
    (st : DexState) (hc : env.Check vRecv.offer = true)
    (ht : env.CheckOfferTx vRecv.offer = true)
    (hnew : st.db.isExistOffer vRecv.offer = false) :
    pushes (ProcessMessage env pfrom NetMsgType.DEXOFFBCST vRecv st).2
      = (env.vNodes.filter (fun pNode => pNode.fFullyConnected)).map (fun pNode =>
          (pNode, { command := NetMsgType.DEXOFFBCST, nVersion := pNode.nSendVersion,
                    data := { offer := vRecv.offer, vchSign := [] } })) := by
  by_cases hb : vRecv.offer.isBuy = true
  · have hn : st.db.isExistOfferBuy vRecv.offer.idTransaction = false := by
      simpa [DexDB.isExistOffer, hb, vRecv.offer.isSell_eq_false_of_isBuy hb] using hnew
    rw [ProcessMessage_buy_new env pfrom vRecv st hc ht hb hn]
    simp [pushes_append, pushes, relayEffects, pushes_map_PushMessage, Env.CopyNodeVector,
      CNetMsgMaker.Make]
  · have hb2 : vRecv.offer.isBuy = false := by simpa using hb
    by_cases hs : vRecv.offer.isSell = true
    · have hn : st.db.isExistOfferSell vRecv.offer.idTransaction = false := by
        simpa [DexDB.isExistOffer, hs, hb2] using hnew
      rw [ProcessMessage_sell_new env pfrom vRecv st hc ht hs hn]
      simp [pushes_append, pushes, relayEffects, pushes_map_PushMessage, Env.CopyNodeVector,
      CNetMsgMaker.Make]
    · have hs2 : vRecv.offer.isSell = false := by simpa using hs
      rw [ProcessMessage_other env pfrom vRecv st hc ht hb2 hs2]
      simp [pushes_append, pushes, relayEffects, pushes_map_PushMessage, Env.CopyNodeVector,
      CNetMsgMaker.Make]

/-- Witness of C4: with three peers of which two are fully connected, two messages go out. -/
theorem ProcessMessage_novel_pushes_witness :
    pushes (ProcessMessage sampleEnv samplePfrom NetMsgType.DEXOFFBCST
        { offer := sampleBuy, vchSign := [] } sampleState).2
      = (sampleEnv.vNodes.filter (fun pNode => pNode.fFullyConnected)).map (fun pNode =>
          (pNode, { command := NetMsgType.DEXOFFBCST, nVersion := pNode.nSendVersion,
                    data := { offer := sampleBuy, vchSign := [] } })) :=
  ProcessMessage_novel_pushes sampleEnv samplePfrom { offer := sampleBuy, vchSign := [] }
    sampleState rfl rfl (by decide)

/-- C5. A valid buy offer whose `idTransaction` is absent from the buy partition is inserted
with `addOfferBuy`, the sell partition is unchanged and only the buy partition is consulted; a
valid sell offer whose `idTransaction` is absent from the sell partition is inserted with
`addOfferSell`, the buy partition is unchanged and only the sell partition is consulted.
Nothing is assumed about the other partition, which may hold the same `idTransaction`. -/
theorem ProcessMessage_novel_partition (env : Env) (pfrom : CNode) (vRecv : CDataStream)
    (st : DexState) (hc : env.Check vRecv.offer = true)
    (ht : env.CheckOfferTx vRecv.offer = true) :
    (vRecv.offer.isBuy = true → st.db.isExistOfferBuy vRecv.offer.idTransaction = false →
      (ProcessMessage env pfrom NetMsgType.DEXOFFBCST vRecv st).1.db
          = st.db.addOfferBuy vRecv.offer ∧
        (ProcessMessage env pfrom NetMsgType.DEXOFFBCST vRecv st).1.db.offersSell
          = st.db.offersSell ∧
        (ProcessMessage env pfrom NetMsgType.DEXOFFBCST vRecv st).2.filter Effect.isStore
          = [Effect.DexDB, Effect.isExistOfferBuy vRecv.offer.idTransaction,
              Effect.addOfferBuy vRecv.offer] ∧
        relayFired (ProcessMessage env pfrom NetMsgType.DEXOFFBCST vRecv st).2 = true) ∧
    (vRecv.offer.isSell = true → st.db.isExistOfferSell vRecv.offer.idTransaction = false →
      (ProcessMessage env pfrom NetMsgType.DEXOFFBCST vRecv st).1.db
          = st.db.addOfferSell vRecv.offer ∧
        (ProcessMessage env pfrom NetMsgType.DEXOFFBCST vRecv st).1.db.offersBuy
          = st.db.offersBuy ∧
        (ProcessMessage env pfrom NetMsgType.DEXOFFBCST vRecv st).2.filter Effect.isStore
          = [Effect.DexDB, Effect.isExistOfferSell vRecv.offer.idTransaction,
              Effect.addOfferSell vRecv.offer] ∧
        relayFired (ProcessMessage env pfrom NetMsgType.DEXOFFBCST vRecv st).2 = true) := by
  constructor
  · intro hb hn
    rw [ProcessMessage_buy_new env pfrom vRecv st hc ht hb hn]
    refine ⟨rfl, rfl, ?_, relayFired_relayEffects env vRecv.offer _ _⟩
    simp [List.filter_append, filter_isStore_relayEffects, Effect.isStore]
  · intro hs hn
    rw [ProcessMessage_sell_new env pfrom vRecv st hc ht hs hn]
    refine ⟨rfl, rfl, ?_, relayFired_relayEffects env vRecv.offer _ _⟩
    simp [List.filter_append, filter_isStore_relayEffects, Effect.isStore]

/-- Witness of C5: a buy offer whose fee transaction is present in the sell partition only is
not a duplicate and goes into the buy partition. -/
theorem ProcessMessage_novel_partition_witness :
    sampleStateSell.db.isExistOfferSell sampleBuy.idTransaction = true ∧
      (ProcessMessage sampleEnv samplePfrom NetMsgType.DEXOFFBCST
          { offer := sampleBuy, vchSign := [] } sampleStateSell).1.db
        = sampleStateSell.db.addOfferBuy sampleBuy :=
  ⟨by decide, ((ProcessMessage_novel_partition sampleEnv samplePfrom
    { offer := sampleBuy, vchSign := [] } sampleStateSell rfl rfl).1 (by decide)
    (by decide)).1⟩

/-- C10. A deletion message whose signature does not match the public key of the offer leaves
the state as it was and makes no call at all, so nothing is forwarded to peers. -/
theorem ProcessMessage_deletion_bad_signature (verify : String → Nat → List Nat → Bool)
    (env : Env) (pfrom : CNode) (vRecv : CDataStream) (st : DexState)
    (_hsig : verify vRecv.offer.pubKey vRecv.offer.hash vRecv.vchSign = false) :
    (ProcessMessage env pfrom NetMsgType.DEXDELOFFER vRecv st).1 = st ∧
      (ProcessMessage env pfrom NetMsgType.DEXDELOFFER vRecv st).2 = [] := by
  have hne : ¬ (NetMsgType.DEXDELOFFER = NetMsgType.DEXOFFBCST) := by decide
  simp [ProcessMessage, hne]

/-- Witness of C10: a deletion of a stored offer under a signature that no key accepts. -/
theorem ProcessMessage_deletion_bad_signature_witness :
    (ProcessMessage sampleEnv samplePfrom NetMsgType.DEXDELOFFER
        { offer := sampleSell, vchSign := [1, 2, 3] } sampleStateSell).1 = sampleStateSell ∧
      (ProcessMessage sampleEnv samplePfrom NetMsgType.DEXDELOFFER
        { offer := sampleSell, vchSign := [1, 2, 3] } sampleStateSell).2 = [] :=
  ProcessMessage_deletion_bad_signature (fun _ _ _ => false) sampleEnv samplePfrom
    { offer := sampleSell, vchSign := [1, 2, 3] } sampleStateSell rfl

/-! ## Properties of `deldexoffer` -/

theorem deldexoffer_of_resolves (ctx : RpcCtx) (st : RpcState) (request : JSONRPCRequest)
    (db : DexDB) (offer : CDexOffer) (vchSign : List Nat)
    (h : deldexofferResolves ctx st request db offer vchSign) :
    deldexoffer ctx st request
      = RpcResult.throw
          { st with
            self := some (deldexofferDelete db offer (deldexofferBroadcast ctx offer vchSign).1).1 }
          ([RpcEffect.FindKey offer, RpcEffect.SignOffer offer]
            ++ (deldexofferBroadcast ctx offer vchSign).2
            ++ (deldexofferDelete db offer (deldexofferBroadcast ctx offer vchSign).1).2)
          "\nsuccess\n" := by
  obtain ⟨hfx, hself, hhelp, s, hp, hs, hz, hl, key, hk, hsig⟩ := h
  simp [deldexoffer, hfx, hself, hhelp, hp, hs, hz, hl, hk, hsig]

theorem deldexofferLookup_hash (db : DexDB) (hash : Nat) (offer : CDexOffer)
    (h : deldexofferLookup db hash = some offer) : offer.hash = hash := by
  have key : ∀ (l : List CDexOffer), l.any (fun o => o.hash == hash) = true →
      ((l.find? (fun o => o.hash == hash)).getD CDexOffer.null).hash = hash := by
    intro l hl
    induction l with
    | nil => simp at hl
    | cons a l ih =>
      by_cases ha : a.hash = hash
      · simp [List.find?_cons, ha]
      · have hl2 : l.any (fun o => o.hash == hash) = true := by
          simpa [List.any_cons, ha] using hl
        have hb : (a.hash == hash) = false := by simpa using ha
        rw [List.find?_cons, hb]
        exact ih hl2
  unfold deldexofferLookup at h
  split_ifs at h with h1 h2 h3
  · cases h
    simpa [CDexOffer.ofMyOfferInfo, DexDB.getMyOfferByHash] using key _ h1
  · cases h
    simpa [CDexOffer.ofOfferInfo, DexDB.getOfferBuyByHash] using key _ h2
  · cases h
    simpa [CDexOffer.ofOfferInfo, DexDB.getOfferSellByHash] using key _ h3

theorem deldexofferLookup_isMyOffer (db : DexDB) (hash : Nat) (offer : CDexOffer)
    (h : deldexofferLookup db hash = some offer) (hs : offer.status ≠ StatusOffer.Indefined) :
    offer.isMyOffer = true := by
  unfold deldexofferLookup at h
  split_ifs at h with h1 h2 h3
  · cases h; rfl
  · cases h; simp [CDexOffer.ofOfferInfo] at hs
  · cases h; simp [CDexOffer.ofOfferInfo] at hs

theorem rpcPushes_append (xs ys : List RpcEffect) :
    rpcPushes (xs ++ ys) = rpcPushes xs ++ rpcPushes ys := by
  induction xs with
  | nil => rfl
  | cons e es ih => cases e <;> simp [rpcPushes, ih]

theorem deldexofferDelete_no_push (db : DexDB) (offer : CDexOffer) (sended : Nat) :
    rpcPushes (deldexofferDelete db offer sended).2 = [] := by
  unfold deldexofferDelete
  split_ifs <;> simp [rpcPushes, rpcPushes_append]

theorem deldexofferDelete_keep (db : DexDB) (offer : CDexOffer) (sended : Nat)
    (h1 : sended ≤ 1) (h2 : offer.status ≠ StatusOffer.Draft)
    (h3 : offer.status ≠ StatusOffer.Indefined) :
    deldexofferDelete db offer sended = (db, []) := by
  have : ¬ (sended > 1) := by omega
  simp [deldexofferDelete, this, h2, h3]

theorem deldexofferDelete_draft (db : DexDB) (offer : CDexOffer) (sended : Nat)
    (hd : offer.status = StatusOffer.Draft) (hm : offer.isMyOffer = true) :
    deldexofferDelete db offer sended
      = (db.deleteMyOfferByHash offer.hash,
          [RpcEffect.DexDB "deleteMyOfferByHash" offer.hash]) := by
  simp [deldexofferDelete, hd, hm]

/-! ## The claims about `deldexoffer` -/

/-- C11, the code at the failing input: `deldexoffer` pushes a signed DEXDELOFFER message for
a stored sell offer to its peers, and `ProcessMessage`, handed that very message on a node
that stores the offer, keeps the offer in the store and pushes nothing. -/
theorem ProcessMessage_deletion_ignored :
    (rpcPushes (deldexoffer sampleCtx sampleRpcState
        { fHelp := false, params := ["02"] }).effects).map (fun p => p.2.command)
        = [NetMsgType.DEXDELOFFER, NetMsgType.DEXDELOFFER, NetMsgType.DEXDELOFFER] ∧
      (ProcessMessage sampleEnv samplePfrom NetMsgType.DEXDELOFFER
          { offer := CDexOffer.ofOfferInfo sampleSell TypeOffer.Sell, vchSign := [1, 2, 3] }
          sampleStateSell).1.db.offersSell = [sampleSell] ∧
      pushes (ProcessMessage sampleEnv samplePfrom NetMsgType.DEXDELOFFER
          { offer := CDexOffer.ofOfferInfo sampleSell TypeOffer.Sell, vchSign := [1, 2, 3] }
          sampleStateSell).2 = [] := by
  refine ⟨by decide, by decide, by decide⟩

theorem deldexofferResolves_of_finds (ctx : RpcCtx) (st : RpcState)
    (request : JSONRPCRequest) (db : DexDB) (offer : CDexOffer) (vchSign : List Nat)
    (key : CKey) (h : deldexofferFinds ctx st request db offer)
    (hk : ctx.FindKey offer = Except.ok key)
    (hsig : ctx.SignOffer key offer = Except.ok vchSign) :
    deldexofferResolves ctx st request db offer vchSign := by
  obtain ⟨hfx, hself, hhelp, s, hp, hs, hz, hl⟩ := h
  exact ⟨hfx, hself, hhelp, s, hp, hs, hz, hl, key, hk, hsig⟩

theorem deldexoffer_of_finds_no_key (ctx : RpcCtx) (st : RpcState)
    (request : JSONRPCRequest) (db : DexDB) (offer : CDexOffer) (error : String)
    (h : deldexofferFinds ctx st request db offer)
    (hk : ctx.FindKey offer = Except.error error) :
    deldexoffer ctx st request = RpcResult.throw st [RpcEffect.FindKey offer] error := by
  obtain ⟨hfx, hself, hhelp, s, hp, hs, hz, hl⟩ := h
  simp [deldexoffer, hfx, hself, hhelp, hp, hs, hz, hl, hk]

theorem deldexoffer_of_finds_no_sign (ctx : RpcCtx) (st : RpcState)
    (request : JSONRPCRequest) (db : DexDB) (offer : CDexOffer) (key : CKey)
    (error : String) (h : deldexofferFinds ctx st request db offer)
    (hk : ctx.FindKey offer = Except.ok key)
    (hsig : ctx.SignOffer key offer = Except.error error) :
    deldexoffer ctx st request
      = RpcResult.throw st [RpcEffect.FindKey offer, RpcEffect.SignOffer offer] error := by
  obtain ⟨hfx, hself, hhelp, s, hp, hs, hz, hl⟩ := h
  simp [deldexoffer, hfx, hself, hhelp, hp, hs, hz, hl, hk, hsig]

theorem sampleFindsDraft :
    deldexofferFinds sampleCtx sampleRpcState { fHelp := false, params := ["a1"] } sampleDb
      (CDexOffer.ofMyOfferInfo sampleDraft) :=
  ⟨rfl, rfl, rfl, "a1", rfl, by decide, by decide, by decide⟩

theorem sampleFindsActive :
    deldexofferFinds sampleCtx sampleRpcState { fHelp := false, params := ["a2"] } sampleDb
      (CDexOffer.ofMyOfferInfo sampleActive) :=
  ⟨rfl, rfl, rfl, "a2", rfl, by decide, by decide, by decide⟩

/-- C12, the claim as stated fails: the own offer with hash 0xa1 is a Draft, the owner key
is not found, `deldexoffer` throws the error of `FindKey`, and the row of the offer is still
in the table of own offers after the call. -/
theorem deldexoffer_draft_no_key_counterexample :
    deldexofferLookup sampleDb 161 = some (CDexOffer.ofMyOfferInfo sampleDraft) ∧
      (CDexOffer.ofMyOfferInfo sampleDraft).status = StatusOffer.Draft ∧
      (deldexoffer sampleCtxNoKey sampleRpcState { fHelp := false, params := ["a1"] }).ret
        = Except.error "key not found" ∧
      (deldexoffer sampleCtxNoKey sampleRpcState { fHelp := false, params := ["a1"] }).st.self
        = some sampleDb ∧
      sampleDb.isExistMyOfferByHash 161 = true := by
  refine ⟨by decide, by decide, rfl, by decide, by decide⟩

/-- C12 as amended. A request of `deldexoffer` that resolves to a Draft offer pushes no
message to any peer and leaves the buy and the sell partition as they were, whatever the node
vector.  When the owner key is found and the offer signed, the row of the offer is deleted
from the table of own offers, whatever the node vector and the count `sended`; when the key
is not found or the signing fails, the command throws that error and the state, the row of
the offer included, is left as it was. -/
theorem deldexoffer_draft_local_only (ctx : RpcCtx) (st : RpcState)
    (request : JSONRPCRequest) (db : DexDB) (offer : CDexOffer)
    (h : deldexofferFinds ctx st request db offer)
    (hd : offer.status = StatusOffer.Draft) :
    rpcPushes (deldexoffer ctx st request).effects = [] ∧
      (∃ db', (deldexoffer ctx st request).st.self = some db' ∧
        db'.offersBuy = db.offersBuy ∧ db'.offersSell = db.offersSell) ∧
      (∀ key vchSign, ctx.FindKey offer = Except.ok key →
        ctx.SignOffer key offer = Except.ok vchSign →
        (deldexoffer ctx st request).st.self = some (db.deleteMyOfferByHash offer.hash) ∧
          (db.deleteMyOfferByHash offer.hash).isExistMyOfferByHash offer.hash = false) ∧
      (∀ error, ctx.FindKey offer = Except.error error →
        (deldexoffer ctx st request).ret = Except.error error ∧
          (deldexoffer ctx st request).st = st) ∧
      (∀ key error, ctx.FindKey offer = Except.ok key →
        ctx.SignOffer key offer = Except.error error →
        (deldexoffer ctx st request).ret = Except.error error ∧
          (deldexoffer ctx st request).st = st) := by
  have hself : st.self = some db := h.2.1
  obtain ⟨_, _, _, s, _, _, _, hl⟩ := id h
  have hm : offer.isMyOffer = true :=
    deldexofferLookup_isMyOffer db _ offer hl (by rw [hd]; decide)
  have hdel : ∀ n, deldexofferDelete db offer n
      = (db.deleteMyOfferByHash offer.hash,
          [RpcEffect.DexDB "deleteMyOfferByHash" offer.hash]) :=
    fun n => deldexofferDelete_draft db offer n hd hm
  have hb : deldexofferBroadcast ctx offer = fun _ => (0, []) := by
    funext v; simp [deldexofferBroadcast, hd]
  have hgone : (db.deleteMyOfferByHash offer.hash).isExistMyOfferByHash offer.hash = false := by
    simp [DexDB.deleteMyOfferByHash, DexDB.isExistMyOfferByHash]
  have hnokey : ∀ error, ctx.FindKey offer = Except.error error →
      (deldexoffer ctx st request).ret = Except.error error ∧
        (deldexoffer ctx st request).st = st := by
    intro error hk
    rw [deldexoffer_of_finds_no_key ctx st request db offer error h hk]
    exact ⟨rfl, rfl⟩
  have hnosign : ∀ key error, ctx.FindKey offer = Except.ok key →
      ctx.SignOffer key offer = Except.error error →
      (deldexoffer ctx st request).ret = Except.error error ∧
        (deldexoffer ctx st request).st = st := by
    intro key error hk hsig
    rw [deldexoffer_of_finds_no_sign ctx st request db offer key error h hk hsig]
    exact ⟨rfl, rfl⟩
  have hlocal : rpcPushes (deldexoffer ctx st request).effects = [] ∧
      (∃ db', (deldexoffer ctx st request).st.self = some db' ∧
        db'.offersBuy = db.offersBuy ∧ db'.offersSell = db.offersSell) ∧
      (∀ key vchSign, ctx.FindKey offer = Except.ok key →
        ctx.SignOffer key offer = Except.ok vchSign →
        (deldexoffer ctx st request).st.self = some (db.deleteMyOfferByHash offer.hash) ∧
          (db.deleteMyOfferByHash offer.hash).isExistMyOfferByHash offer.hash = false) := by
    cases hk : ctx.FindKey offer with
    | error e =>
      rw [deldexoffer_of_finds_no_key ctx st request db offer e h hk]
      refine ⟨rfl, ⟨db, hself, rfl, rfl⟩, ?_⟩
      intro key vchSign h1; cases h1
    | ok key =>
      cases hsig : ctx.SignOffer key offer with
      | error e =>
        rw [deldexoffer_of_finds_no_sign ctx st request db offer key e h hk hsig]
        refine ⟨rfl, ⟨db, hself, rfl, rfl⟩, ?_⟩
        intro key2 vchSign h1 h2
        cases h1
        rw [hsig] at h2; cases h2
      | ok vchSign =>
        rw [deldexoffer_of_resolves ctx st request db offer vchSign
          (deldexofferResolves_of_finds ctx st request db offer vchSign key h hk hsig)]
        rw [hb, hdel]
        refine ⟨?_, ⟨db.deleteMyOfferByHash offer.hash, rfl, rfl, rfl⟩, ?_⟩
        · simp [RpcResult.throw, rpcPushes]
        · intro _ _ _ _
          exact ⟨rfl, hgone⟩
  exact ⟨hlocal.1, hlocal.2.1, hlocal.2.2, hnokey, hnosign⟩

/-- Witness of C12 as amended: the draft with hash 0xa1 is deleted with three peers
connected, and no message goes out. -/
theorem deldexoffer_draft_local_only_witness :
    rpcPushes (deldexoffer sampleCtx sampleRpcState
        { fHelp := false, params := ["a1"] }).effects = [] ∧
      (deldexoffer sampleCtx sampleRpcState { fHelp := false, params := ["a1"] }).st.self
        = some (sampleDb.deleteMyOfferByHash (CDexOffer.ofMyOfferInfo sampleDraft).hash) :=
  have h := deldexoffer_draft_local_only sampleCtx sampleRpcState
    { fHelp := false, params := ["a1"] } sampleDb (CDexOffer.ofMyOfferInfo sampleDraft)
    sampleFindsDraft rfl
  ⟨h.1, (h.2.2.1 5 [1, 2, 3] rfl rfl).1⟩

/-- C14, the claim as stated fails: a foreign buy offer, whose status is `Indefined` and so
not Draft, is deleted from the buy partition although no peer is connected and `sended`
is 0; and so is an own offer whose stored status is `Indefined`, from the table of own
offers. -/
theorem deldexoffer_indefined_counterexample :
    (deldexofferLookup sampleDb 1 = some (CDexOffer.ofOfferInfo sampleBuy TypeOffer.Buy) ∧
      (CDexOffer.ofOfferInfo sampleBuy TypeOffer.Buy).status ≠ StatusOffer.Draft ∧
      (deldexofferBroadcast sampleCtxAlone (CDexOffer.ofOfferInfo sampleBuy TypeOffer.Buy)
        [1, 2, 3]).1 = 0 ∧
      sampleRpcState.self.map (fun db => db.offersBuy) = some [sampleBuy] ∧
      (deldexoffer sampleCtxAlone sampleRpcState
        { fHelp := false, params := ["01"] }).st.self.map (fun db => db.offersBuy)
        = some []) ∧
    (sampleRpcStateIndef.self.map (fun db => db.myOffers.map (fun o => (o.hash, o.status)))
        = some [(163, StatusOffer.Indefined)] ∧
      (deldexoffer sampleCtxAlone sampleRpcStateIndef
        { fHelp := false, params := ["a3"] }).st.self.map (fun db => db.myOffers)
        = some []) := by
  refine ⟨⟨by decide, by decide, by decide, by decide, by decide⟩, by decide, by decide⟩

/-- C14 as amended. For a request of `deldexoffer` that resolves to an offer whose status is
neither Draft nor `Indefined`, when the count `sended` of the broadcast is 0 or 1 the state,
and with it the buy partition, the sell partition and the table of own offers, is left as it
was. -/
theorem deldexoffer_unsent_keeps_store (ctx : RpcCtx) (st : RpcState)
    (request : JSONRPCRequest) (db : DexDB) (offer : CDexOffer) (vchSign : List Nat)
    (h : deldexofferResolves ctx st request db offer vchSign)
    (hd : offer.status ≠ StatusOffer.Draft) (hi : offer.status ≠ StatusOffer.Indefined)
    (hsent : (deldexofferSend ctx offer vchSign ctx.vNodes).1 ≤ 1) :
    (deldexoffer ctx st request).st = st ∧
      (deldexoffer ctx st request).st.self = some db := by
  have hself : st.self = some db := h.2.1
  rw [deldexoffer_of_resolves ctx st request db offer vchSign h]
  have hb : (deldexofferBroadcast ctx offer vchSign).1
      = (deldexofferSend ctx offer vchSign ctx.vNodes).1 := by
    simp [deldexofferBroadcast, hd]
  rw [hb, deldexofferDelete_keep db offer _ hsent hd hi]
  refine ⟨?_, rfl⟩
  cases st
  simp only at hself
  simp [RpcResult.throw, hself]

/-- Witness of C14 as amended: the active own offer with hash 0xa2 stays in the store when
only one of the three peers takes the message. -/
theorem deldexoffer_unsent_keeps_store_witness :
    (deldexofferSend sampleCtx (CDexOffer.ofMyOfferInfo sampleActive) [1, 2, 3]
        sampleCtx.vNodes).1 = 1 ∧
      (deldexoffer sampleCtx sampleRpcState { fHelp := false, params := ["a2"] }).st
        = sampleRpcState :=
  ⟨by decide, (deldexoffer_unsent_keeps_store sampleCtx sampleRpcState
    { fHelp := false, params := ["a2"] } sampleDb (CDexOffer.ofMyOfferInfo sampleActive)
    [1, 2, 3]
    (deldexofferResolves_of_finds _ _ _ _ _ _ 5 sampleFindsActive rfl rfl)
    (by decide) (by decide) (by decide)).1⟩

/-- C15. Every request of `deldexoffer` ends in a thrown error, never in a returned value;
and when the hash is found, the owner key is found and signing succeeds, the message thrown
is exactly "\nsuccess\n", whatever was or was not deleted. -/
theorem deldexoffer_always_throws (ctx : RpcCtx) (st : RpcState) (request : JSONRPCRequest) :
    (∃ what, (deldexoffer ctx st request).ret = Except.error what) ∧
      (∀ db offer vchSign, deldexofferResolves ctx st request db offer vchSign →
        (deldexoffer ctx st request).ret = Except.error "\nsuccess\n") := by
  constructor
  · unfold deldexoffer
    (repeat' (first | split | dsimp only)) <;> exact ⟨_, rfl⟩
  · intro db offer vchSign h
    rw [deldexoffer_of_resolves ctx st request db offer vchSign h]
    rfl

/-- Witness of C15: the deletion of the active own offer throws the success message although
nothing was deleted. -/
theorem deldexoffer_always_throws_witness :
    (deldexoffer sampleCtx sampleRpcState { fHelp := false, params := ["a2"] }).ret
        = Except.error "\nsuccess\n" ∧
      (deldexoffer sampleCtx sampleRpcState { fHelp := false, params := ["a2"] }).st
        = sampleRpcState :=
  ⟨(deldexoffer_always_throws sampleCtx sampleRpcState
      { fHelp := false, params := ["a2"] }).2 sampleDb (CDexOffer.ofMyOfferInfo sampleActive)
      [1, 2, 3] (deldexofferResolves_of_finds _ _ _ _ _ _ 5 sampleFindsActive rfl rfl),
    by decide⟩

/-! ## Properties of `editdexoffer` -/

theorem editdexoffer_of_reads_active (ctx : RpcCtx) (st : RpcState)
    (request : JSONRPCRequest) (db : DexDB) (currentMyOffer offer : MyOfferInfo)
    (h : editdexofferReads ctx st request db currentMyOffer offer)
    (ha : currentMyOffer.status = StatusOffer.Active) :
    editdexoffer ctx st request = editdexofferActive ctx st db currentMyOffer offer := by
  obtain ⟨hfx, hself, hhelp, s, j, hp, hs, hz, hex, hget, hjson⟩ := h
  simp [editdexoffer, hfx, hself, hhelp, hp, hs, hz, hex, hget, hjson, ha]

theorem sampleReads (offer : MyOfferInfo) :
    editdexofferReads (sampleCtxJson offer) sampleRpcState
      { fHelp := false, params := ["a2", "json"] } sampleDb sampleActive offer :=
  ⟨rfl, rfl, rfl, "a2", "json", rfl, by decide,
    (by decide : (sampleCtx.uint256S "a2" == 0) = false),
    (by decide : sampleDb.isExistMyOfferByHash (sampleCtx.uint256S "a2") = true),
    (by decide : sampleDb.getMyOfferByHash (sampleCtx.uint256S "a2") = sampleActive), rfl⟩

/-- C16. For a stored own offer in the state Active, an edit whose data differs from the
stored offer in type, countryIso, currencyIso, paymentMethod, minAmount or in the shelf life
in days is answered with the error "unchanged data doesn't match"; no call is made, so
`prepareAndSendMyOffer` is not called, and the state is unchanged. -/
theorem editdexoffer_active_rejects_change (ctx : RpcCtx) (st : RpcState)
    (request : JSONRPCRequest) (db : DexDB) (currentMyOffer offer : MyOfferInfo)
    (h : editdexofferReads ctx st request db currentMyOffer offer)
    (ha : currentMyOffer.status = StatusOffer.Active)
    (hdiff : currentMyOffer.type ≠ offer.type ∨ currentMyOffer.countryIso ≠ offer.countryIso ∨
      currentMyOffer.currencyIso ≠ offer.currencyIso ∨
      currentMyOffer.paymentMethod ≠ offer.paymentMethod ∨
      currentMyOffer.minAmount ≠ offer.minAmount ∨
      shelfLifeDays offer.timeToExpiration offer.timeCreate
        ≠ shelfLifeDays currentMyOffer.timeToExpiration currentMyOffer.timeCreate) :
    (editdexoffer ctx st request).ret = Except.error "\nERROR: unchanged data doesn't match" ∧
      rpcPrepared (editdexoffer ctx st request).effects = [] ∧
      (editdexoffer ctx st request).effects = [] ∧
      (editdexoffer ctx st request).st = st := by
  rw [editdexoffer_of_reads_active ctx st request db currentMyOffer offer h ha]
  unfold editdexofferActive
  by_cases h1 : currentMyOffer.type = offer.type
  · by_cases h2 : currentMyOffer.countryIso = offer.countryIso
    · by_cases h3 : currentMyOffer.currencyIso = offer.currencyIso
      · by_cases h4 : currentMyOffer.paymentMethod = offer.paymentMethod
        · by_cases h5 : currentMyOffer.minAmount = offer.minAmount
          · have h6 : shelfLifeDays offer.timeToExpiration offer.timeCreate
                ≠ shelfLifeDays currentMyOffer.timeToExpiration currentMyOffer.timeCreate := by
              rcases hdiff with h | h | h | h | h | h
              · exact absurd h1 h
              · exact absurd h2 h
              · exact absurd h3 h
              · exact absurd h4 h
              · exact absurd h5 h
              · exact h
            simp [h1, h2, h3, h4, h5, h6, RpcResult.throw, rpcPrepared]
          · simp [h1, h2, h3, h4, h5, RpcResult.throw, rpcPrepared]
        · simp [h1, h2, h3, h4, RpcResult.throw, rpcPrepared]
      · simp [h1, h2, h3, RpcResult.throw, rpcPrepared]
    · simp [h1, h2, RpcResult.throw, rpcPrepared]
  · simp [h1, RpcResult.throw, rpcPrepared]

/-- Witness of C16: an edit of the active own offer that changes `minAmount`. -/
theorem editdexoffer_active_rejects_change_witness :
    (editdexoffer (sampleCtxJson sampleEditBad) sampleRpcState
        { fHelp := false, params := ["a2", "json"] }).ret
        = Except.error "\nERROR: unchanged data doesn't match" ∧
      rpcPrepared (editdexoffer (sampleCtxJson sampleEditBad) sampleRpcState
        { fHelp := false, params := ["a2", "json"] }).effects = [] :=
  have h := editdexoffer_active_rejects_change (sampleCtxJson sampleEditBad) sampleRpcState
    { fHelp := false, params := ["a2", "json"] } sampleDb sampleActive sampleEditBad
    (sampleReads sampleEditBad) rfl (Or.inr (Or.inr (Or.inr (Or.inr (Or.inl (by decide))))))
  ⟨h.1, h.2.1⟩

/-- C17. For a stored own offer in the state Active and an edit that agrees with it in type,
countryIso, currencyIso, paymentMethod, minAmount and shelf life in days, exactly one offer
is handed to `prepareAndSendMyOffer`: the stored offer with `price`, `shortInfo` and `details`
replaced by those of the new data, and so with the stored `timeCreate` and
`timeToExpiration` whatever the new data holds for them. -/
theorem editdexoffer_active_hands_stored_offer (ctx : RpcCtx) (st : RpcState)
    (request : JSONRPCRequest) (db : DexDB) (currentMyOffer offer : MyOfferInfo)
    (h : editdexofferReads ctx st request db currentMyOffer offer)
    (ha : currentMyOffer.status = StatusOffer.Active)
    (h1 : currentMyOffer.type = offer.type)
    (h2 : currentMyOffer.countryIso = offer.countryIso)
    (h3 : currentMyOffer.currencyIso = offer.currencyIso)
    (h4 : currentMyOffer.paymentMethod = offer.paymentMethod)
    (h5 : currentMyOffer.minAmount = offer.minAmount)
    (h6 : shelfLifeDays offer.timeToExpiration offer.timeCreate
      = shelfLifeDays currentMyOffer.timeToExpiration currentMyOffer.timeCreate) :
    rpcPrepared (editdexoffer ctx st request).effects
        = [{ currentMyOffer with
              price := offer.price, shortInfo := offer.shortInfo, details := offer.details }] ∧
      ∀ handed ∈ rpcPrepared (editdexoffer ctx st request).effects,
        handed.timeCreate = currentMyOffer.timeCreate ∧
          handed.timeToExpiration = currentMyOffer.timeToExpiration := by
  rw [editdexoffer_of_reads_active ctx st request db currentMyOffer offer h ha]
  have key : rpcPrepared (editdexofferActive ctx st db currentMyOffer offer).effects
      = [{ currentMyOffer with
            price := offer.price, shortInfo := offer.shortInfo, details := offer.details }] := by
    unfold editdexofferActive
    simp only [h1, h2, h3, h4, h5, h6, bne_self_eq_false, Bool.false_eq_true, if_false]
    split_ifs <;> rfl
  rw [key]
  refine ⟨rfl, ?_⟩
  intro handed hmem
  rw [List.mem_singleton] at hmem
  subst hmem
  exact ⟨rfl, rfl⟩

/-- Witness of C17: the new data moves `timeCreate` by one second inside the same day, and the
offer handed over keeps the stored creation time 1000. -/
theorem editdexoffer_active_hands_stored_offer_witness :
    sampleEdit.timeCreate ≠ sampleActive.timeCreate ∧
      rpcPrepared (editdexoffer (sampleCtxJson sampleEdit) sampleRpcState
        { fHelp := false, params := ["a2", "json"] }).effects
        = [{ sampleActive with price := 250, shortInfo := "new", details := "text" }] :=
  ⟨by decide, (editdexoffer_active_hands_stored_offer (sampleCtxJson sampleEdit) sampleRpcState
    { fHelp := false, params := ["a2", "json"] } sampleDb sampleActive sampleEdit
    (sampleReads sampleEdit) rfl rfl rfl rfl rfl rfl (by decide)).1⟩

/-! ## Properties of `dexoffers` -/

theorem dexoffersLoop_typefilter_of_pos (ctx : RpcCtx) (db : DexDB) :
    ∀ (n : Nat) (l : List String) (i : Nat) (v v' : DexoffersVars),
      l.length ≤ n → i ≠ 0 → dexoffersLoop ctx db i l v = Except.ok v' →
      v'.typefilter = v.typefilter := by
  intro n
  induction n with
  | zero =>
    intro l i v v' hl _ h
    have : l = [] := List.length_eq_zero.mp (Nat.le_zero.mp hl)
    subst this
    simp only [dexoffersLoop, Except.ok.injEq] at h
    rw [← h]
  | succ n ih =>
    intro l i v v' hl hi h
    cases l with
    | nil =>
      simp only [dexoffersLoop, Except.ok.injEq] at h
      rw [← h]
    | cons p rest =>
      have hrest : rest.length ≤ n := by simpa using hl
      have hi0 : (i == 0) = false := by simpa using hi
      rw [dexoffersLoop.eq_def] at h
      simp only [hi0, Bool.false_and, Bool.false_eq_true, if_false] at h
      split at h
      · split at h
        · cases h
        · rename_i maxStr rest2
          split at h
          · cases h
          · split at h
            · cases h; rfl
            · have hr2 : rest2.length ≤ n := by
                simp only [List.length_cons] at hrest; omega
              have := ih rest2 (i + 2) _ v' hr2 (by omega) h
              exact this
      · split at h
        · split at h
          · cases h
          · split at h
            · cases h
            · cases h; rfl
        · split at h
          · have := ih rest (i + 1) _ v' hrest (by omega) h
            exact this
          · split at h
            · have := ih rest (i + 1) _ v' hrest (by omega) h
              exact this
            · split at h
              · cases h
              · have := ih rest (i + 1) _ v' hrest (by omega) h
                exact this

theorem dexoffersLoop_typefilter_words (ctx : RpcCtx) (db : DexDB) (params : List String)
    (v' : DexoffersVars) (hne : params ≠ [])
    (h : dexoffersLoop ctx db 0 params {} = Except.ok v') :
    v'.typefilter = "buy" ∨ v'.typefilter = "sell" ∨ v'.typefilter = "all" := by
  cases params with
  | nil => exact absurd rfl hne
  | cons p rest =>
    have hpos := dexoffersLoop_typefilter_of_pos ctx db rest.length rest 1
    rw [dexoffersLoop.eq_def] at h
    have hE : "".isEmpty = true := by decide
    simp only [beq_self_eq_true, Bool.true_and, if_true, hE, Nat.zero_add] at h
    split at h
    · split at h <;> cases h
    · split at h
      · split at h <;> cases h
      · split at h
        · rename_i hw
          have := hpos _ v' (Nat.le_refl _) (by decide) h
          rw [this]
          simpa using hw
        · split at h
          · have := hpos _ v' (Nat.le_refl _) (by decide) h
            exact Or.inr (Or.inr this)
          · split at h
            · have := hpos _ v' (Nat.le_refl _) (by decide) h
              exact Or.inr (Or.inr this)
            · split at h
              · cases h
              · have := hpos _ v' (Nat.le_refl _) (by decide) h
                exact Or.inr (Or.inr this)

theorem dexoffersLoop_limit_last (ctx : RpcCtx) (db : DexDB) (nStr : String) (n : Int)
    (hn : ctx.stoi nStr = some n) :
    ∀ (pre : List String) (i : Nat) (v v' : DexoffersVars),
      (∀ p ∈ pre, p ≠ "limit") → v.limit = 0 → i + pre.length ≠ 0 →
      dexoffersLoop ctx db i (pre ++ ["limit", nStr]) v = Except.ok v' → v'.limit = n := by
  intro pre
  induction pre with
  | nil =>
    intro i v v' _ _ hi h
    have hi0 : (i == 0) = false := by simpa using hi
    rw [List.nil_append, dexoffersLoop.eq_def] at h
    simp only [beq_self_eq_true, if_true, hi0, Bool.false_eq_true, if_false, hn,
      List.isEmpty_nil, Except.ok.injEq] at h
    rw [← h]
  | cons p pre ih =>
    intro i v v' hpre hv _ h
    have hp : (p == "limit") = false := by
      simpa using hpre p (List.mem_cons_self _ _)
    have hpre' : ∀ q ∈ pre, q ≠ "limit" := fun q hq => hpre q (List.mem_cons_of_mem _ hq)
    have hoff : decide (v.limit > 0) = false := by simp [hv]
    rw [List.cons_append, dexoffersLoop.eq_def] at h
    simp only [hp, Bool.false_eq_true, if_false, hoff, Bool.and_false] at h
    have tail : ∀ w : DexoffersVars, w.limit = 0 →
        (if (decide (i < 2) && w.countryfilter.isEmpty && ctx.countryIsValid p) = true then
          dexoffersLoop ctx db (i + 1) (pre ++ ["limit", nStr]) { w with countryfilter := p }
        else if (decide (i < 3) && w.currencyfilter.isEmpty && ctx.currencyIsValid p) = true
        then
          dexoffersLoop ctx db (i + 1) (pre ++ ["limit", nStr]) { w with currencyfilter := p }
        else if (findPaymentMethod (ctx.getPaymentMethodsInfo db) p.toLower
            ("", w.methodfiltertype)).1.isEmpty = true then
          Except.error ("\nwrong parameter: " ++ p ++ "\n")
        else
          dexoffersLoop ctx db (i + 1) (pre ++ ["limit", nStr])
            { w with
              methodfilter := (findPaymentMethod (ctx.getPaymentMethodsInfo db) p.toLower
                ("", w.methodfiltertype)).1,
              methodfiltertype := (findPaymentMethod (ctx.getPaymentMethodsInfo db) p.toLower
                ("", w.methodfiltertype)).2 }) = Except.ok v' → v'.limit = n := by
      intro w hw h
      split at h
      · refine ih (i + 1) _ v' hpre' ?_ (by omega) h
        exact hw
      · split at h
        · refine ih (i + 1) _ v' hpre' ?_ (by omega) h
          exact hw
        · split at h
          · cases h
          · refine ih (i + 1) _ v' hpre' ?_ (by omega) h
            exact hw
    by_cases hw : (i == 0 && v.typefilter.isEmpty && ["buy", "sell", "all"].contains p) = true
    · simp only [hw, if_true] at h
      refine ih (i + 1) _ v' hpre' ?_ (by omega) h
      exact hv
    · by_cases hi0 : (i == 0 && v.typefilter.isEmpty) = true
      · have hc : (["buy", "sell", "all"].contains p) = false := by
          rw [hi0, Bool.true_and] at hw
          simpa using hw
        simp only [hi0, hc, Bool.true_and, Bool.false_eq_true, if_false, if_true] at h
        exact tail { v with typefilter := "all" } hv h
      · have hi1 : (i == 0 && v.typefilter.isEmpty) = false := by simpa using hi0
        simp only [hi1, Bool.false_and, Bool.false_eq_true, if_false] at h
        exact tail v hv h

theorem dexoffers_step_cond (limit : Int) (len : Nat) (hl : 0 < limit)
    (hle : len ≤ limit.toNat) :
    (!(decide (limit > 0) && ((len : Int) == limit))) = decide (len < limit.toNat) := by
  have hdec : decide (limit > 0) = true := by simpa using hl
  by_cases h : (len : Int) = limit
  · have h2 : ¬ (len < limit.toNat) := by omega
    simp [hdec, h, h2]
  · have h2 : len < limit.toNat := by omega
    simp [hdec, h, h2]

theorem dexoffersBuyLoop_of_pos (limit : Int) (hl : 0 < limit) :
    ∀ (offers : List OfferInfo) (step : Int), 0 ≤ step → step < limit →
      (dexoffersBuyLoop limit offers step).1
          = (offers.take (limit - step).toNat).map
              (fun i => JsonObj.offer (CDexOffer.ofOfferInfo i TypeOffer.Buy) []) ∧
        (dexoffersBuyLoop limit offers step).2
          = step + ((offers.take (limit - step).toNat).length : Nat) := by
  intro offers
  induction offers with
  | nil => intro step _ _; simp [dexoffersBuyLoop]
  | cons i offers ih =>
    intro step h0 h1
    have hdec : decide (limit > 0) = true := by simpa using hl
    by_cases hs : step + 1 = limit
    · have h1' : (limit - step).toNat = 1 := by omega
      simp [dexoffersBuyLoop, hl, hs, h1']
    · have hk : (limit - step).toNat = (limit - (step + 1)).toNat + 1 := by omega
      have := ih (step + 1) (by omega) (by omega)
      simp only [dexoffersBuyLoop, hl, if_true, hs, beq_iff_eq, if_false, this.1, this.2, hk,
        List.take_succ_cons, List.map_cons, List.length_cons, true_and]
      push_cast
      ring

/-- C18. When the parameter loop of `dexoffers` leaves a positive limit N, which is the N of
a request that ends in `limit N`, the store is initialised, the filters name enabled entries,
and the sell listing returns at most as many rows as the positive limit it is asked for,
`dexoffers` returns an array of at most N offers: the buy listing cut at N first, then, unless
N buy offers were emitted, the sell listing asked with N minus the number of buy offers
emitted. -/
theorem dexoffers_limit_bound (ctx : RpcCtx) (st : RpcState) (request : JSONRPCRequest)
    (db : DexDB) (v : DexoffersVars)
    (hfx : ctx.fTxIndex = true) (hself : st.self = some db) (hhelp : request.fHelp = false)
    (hlen1 : 1 ≤ request.params.length) (hlen8 : request.params.length ≤ 8)
    (hparse : dexoffersLoop ctx db 0 request.params {} = Except.ok v)
    (hN : 0 < v.limit)
    (hcountry : v.countryfilter ≠ "" → ctx.countryEnabled db v.countryfilter = true)
    (hcurrency : v.currencyfilter ≠ "" → ctx.currencyEnabled db v.currencyfilter = true)
    (hlisting : ∀ limit : Int, 0 < limit →
      ((ctx.getOffersSell db v.countryfilter v.currencyfilter v.methodfiltertype limit
        v.offset).length : Int) ≤ limit) :
    (dexoffers ctx st request).ret = Except.ok (UniValue.VARR (dexoffersLimited ctx db v)) ∧
      ((dexoffersLimited ctx db v).length : Int) ≤ v.limit ∧
      (∀ (pre : List String) (nStr : String) (N : Int),
        request.params = pre ++ ["limit", nStr] → (∀ p ∈ pre, p ≠ "limit") →
        ctx.stoi nStr = some N → v.limit = N) := by
  have hne : request.params ≠ [] := by
    intro h; rw [h] at hlen1; simp at hlen1
  have htype := dexoffersLoop_typefilter_words ctx db request.params v hne hparse
  have hte : v.typefilter.isEmpty = false := by
    rcases htype with h | h | h <;> rw [h] <;> decide
  have hl1 : ¬ (request.params.length < 1) := by omega
  have hl8 : ¬ (request.params.length > 8) := by omega
  have hc : (v.countryfilter != "" && !ctx.countryEnabled db v.countryfilter) = false := by
    by_cases h : v.countryfilter = ""
    · simp [h]
    · simp [hcountry h]
  have hcu : (v.currencyfilter != "" && !ctx.currencyEnabled db v.currencyfilter) = false := by
    by_cases h : v.currencyfilter = ""
    · simp [h]
    · simp [hcurrency h]
  have hlim0 : (v.limit == 0) = false := by
    simp only [beq_eq_false_iff_ne, ne_eq]; omega
  have hout : dexoffersOutput ctx st db v = dexoffersLimited ctx db v := by
    unfold dexoffersOutput dexoffersLimited
    simp only [hlim0, Bool.false_eq_true, if_false]
    generalize ctx.getOffersBuy db v.countryfilter v.currencyfilter v.methodfiltertype
      v.limit v.offset = B
    have hbl := dexoffersBuyLoop_of_pos v.limit hN B 0 (le_refl _) hN
    simp only [sub_zero, zero_add] at hbl
    by_cases hb : (v.typefilter == "buy" || v.typefilter == "all") = true
    · simp only [hb, if_true, hbl.1, hbl.2, List.length_map]
      have hle : (B.take v.limit.toNat).length ≤ v.limit.toNat := by
        simp [List.length_take]
      rw [dexoffers_step_cond v.limit _ hN hle]
    · have hb2 : (v.typefilter == "buy" || v.typefilter == "all") = false := by
        simpa using hb
      simp only [hb2, Bool.false_eq_true, if_false, List.length_nil]
      have := dexoffers_step_cond v.limit 0 hN (Nat.zero_le _)
      simp only [Nat.cast_zero] at this
      rw [this]
      rfl
  have hbound : ((dexoffersLimited ctx db v).length : Int) ≤ v.limit := by
    have key : ∀ buy : List JsonObj, buy.length ≤ v.limit.toNat →
        (((if ((v.typefilter == "sell" || v.typefilter == "all")
            && decide (buy.length < v.limit.toNat)) = true then
          buy ++ (ctx.getOffersSell db v.countryfilter v.currencyfilter v.methodfiltertype
            (v.limit - (buy.length : Int)) v.offset).map
              (fun i => JsonObj.offer (CDexOffer.ofOfferInfo i TypeOffer.Sell) [])
          else buy).length : Nat) : Int) ≤ v.limit := by
      intro buy hle
      split
      · rename_i hcond
        simp only [Bool.and_eq_true, decide_eq_true_eq] at hcond
        have hsell := hlisting (v.limit - (buy.length : Int)) (by omega)
        simp only [List.length_append, List.length_map, Nat.cast_add]
        omega
      · omega
    refine key _ ?_
    split
    · simp [List.length_take]
    · simp
  refine ⟨?_, hbound, ?_⟩
  · simp [dexoffers, hfx, hself, hhelp, hl1, hl8, hparse, hte, hc, hcu, hout,
      RpcResult.returns]
  · intro pre nStr N hreq hpre hstoi
    rw [hreq] at hparse
    cases pre with
    | nil =>
      rw [List.nil_append, dexoffersLoop.eq_def] at hparse
      simp at hparse
    | cons p pre =>
      exact dexoffersLoop_limit_last ctx db nStr N hstoi (p :: pre) 0 {} v hpre rfl
        (by simp) hparse

/-- Witness of C18: with `all limit 1` the single offer returned is the stored buy offer, and
the sell listing is not emitted. -/
theorem dexoffers_limit_bound_witness :
    (dexoffers sampleCtx sampleRpcState { fHelp := false, params := ["all", "limit", "1"] }).ret
        = Except.ok (UniValue.VARR (dexoffersLimited sampleCtx sampleDb
            { typefilter := "all", limit := 1 })) ∧
      dexoffersLimited sampleCtx sampleDb { typefilter := "all", limit := 1 }
        = [JsonObj.offer (CDexOffer.ofOfferInfo sampleBuy TypeOffer.Buy) []] :=
  ⟨(dexoffers_limit_bound sampleCtx sampleRpcState
      { fHelp := false, params := ["all", "limit", "1"] } sampleDb
      { typefilter := "all", limit := 1 } rfl rfl rfl (by decide) (by decide) rfl
      (by decide) (fun _ => rfl) (fun _ => rfl)
      (by
        intro limit hl
        have h2 := List.length_take_le limit.toNat (sampleDb.offersSell.drop (0 : Int).toNat)
        show (((if limit > 0 then (sampleDb.offersSell.drop (0 : Int).toNat).take limit.toNat
          else sampleDb.offersSell.drop (0 : Int).toNat).length : Nat) : Int) ≤ limit
        rw [if_pos hl]
        omega)).1,
    by decide⟩

/-! ## The claims about the other commands -/

/-- C13. With transaction indexing on and `DexDB::self()` null, each of the 13 registered
commands answers every request, help requests and any parameter list included, by throwing
"DexDB is not initialized." with the state untouched and without any call on the wallet, the
network, `dexman` or `dexsync`. -/
theorem commands_fail_closed (ctx : RpcCtx) (st : RpcState) (request : JSONRPCRequest)
    (hfx : ctx.fTxIndex = true) (hnull : st.self = none) :
    commands.map Prod.fst
        = ["dexoffers", "dexmyoffers", "dexofferscount", "dexmyofferscount", "deldexoffer",
            "adddexoffer", "editdexoffer", "senddexoffer", "dexsync", "dexsettings",
            "getdexinfo", "dexunconfirmed", "getdexoffer"] ∧
      ∀ c ∈ commands,
        c.2 ctx st request = RpcResult.throw st [] "DexDB is not initialized.\n" := by
  refine ⟨rfl, ?_⟩
  intro c hc
  simp only [commands, List.mem_cons, List.mem_singleton, List.not_mem_nil, or_false] at hc
  rcases hc with rfl | rfl | rfl | rfl | rfl | rfl | rfl | rfl | rfl | rfl | rfl | rfl | rfl
  · simp [dexoffers, hfx, hnull, errNotInitialized]
  · simp [dexmyoffers, hfx, hnull, errNotInitialized]
  · simp [dexofferscount, hfx, hnull, errNotInitialized]
  · simp [dexmyofferscount, hfx, hnull, errNotInitialized]
  · simp [deldexoffer, hfx, hnull, errNotInitialized]
  · simp [adddexoffer, hfx, hnull, errNotInitialized]
  · simp [editdexoffer, hfx, hnull, errNotInitialized]
  · simp [senddexoffer, hfx, hnull, errNotInitialized]
  · simp [dexsync, hfx, hnull, errNotInitialized]
  · simp [dexsettings, hfx, hnull, errNotInitialized]
  · simp [getdexinfo, hfx, hnull, errNotInitialized]
  · simp [dexunconfirmed, hfx, hnull, errNotInitialized]
  · simp [getdexoffer, hfx, hnull, errNotInitialized]

/-- Witness of C13: a help request to `dexsync` and to `getdexoffer` in a process whose store
is not initialised. -/
theorem commands_fail_closed_witness :
    (dexsync sampleCtx sampleRpcStateNull { fHelp := true, params := [] }).ret
        = Except.error "DexDB is not initialized.\n" ∧
      (getdexoffer sampleCtx sampleRpcStateNull { fHelp := true, params := [] }).ret
        = Except.error "DexDB is not initialized.\n" :=
  ⟨congrArg RpcResult.ret
      ((commands_fail_closed sampleCtx sampleRpcStateNull { fHelp := true, params := [] }
        rfl rfl).2 ("dexsync", dexsync) (by simp [commands])),
    congrArg RpcResult.ret
      ((commands_fail_closed sampleCtx sampleRpcStateNull { fHelp := true, params := [] }
        rfl rfl).2 ("getdexoffer", getdexoffer) (by simp [commands]))⟩

theorem find?_hash (l : List CDexOffer) (hash : Nat) (info : CDexOffer)
    (h : l.find? (fun o => o.hash == hash) = some info) : info.hash = hash := by
  have := List.find?_some h
  simpa using this

theorem any_hash_of_find? (l : List CDexOffer) (hash : Nat) :
    l.any (fun o => o.hash == hash) = (l.find? (fun o => o.hash == hash)).isSome := by
  induction l with
  | nil => rfl
  | cons a l ih =>
    by_cases ha : a.hash = hash
    · simp [List.find?_cons, ha]
    · have hb : (a.hash == hash) = false := by simpa using ha
      simp [List.find?_cons, hb, ih]

theorem getOfferByHash_isNull (tracker : List CDexOffer) (hash : Nat) (hz : hash ≠ 0) :
    (getOfferByHash tracker hash).IsNull
      = (tracker.find? (fun o => o.hash == hash)).isNone := by
  unfold getOfferByHash
  cases h : tracker.find? (fun o => o.hash == hash) with
  | none => rfl
  | some o =>
    have := find?_hash tracker hash o h
    simp [CDexOffer.IsNull, this, hz]

/-- C19. For a request of `getdexoffer` whose first parameter reads as a non-null hash, the
command returns without throwing and leaves the state as it was: the result is the offer
found first in the order sell partition, buy partition, tracker of broadcast unconfirmed
offers, tracker of own unconfirmed offers, and the empty object when the hash is in none of
the four. -/
theorem getdexoffer_first_found (ctx : RpcCtx) (st : RpcState) (request : JSONRPCRequest)
    (db : DexDB) (strOfferHash : String) (rest : List String)
    (hfx : ctx.fTxIndex = true) (hself : st.self = some db) (hhelp : request.fHelp = false)
    (hp : request.params = strOfferHash :: rest) (hs : strOfferHash.isEmpty = false)
    (hz : (ctx.uint256S strOfferHash == 0) = false) :
    (getdexoffer ctx st request).ret
        = Except.ok (match firstByHash db st (ctx.uint256S strOfferHash) with
            | none => UniValue.VOBJ (JsonObj.fields [])
            | some offer => UniValue.VOBJ (JsonObj.offer offer [])) ∧
      (getdexoffer ctx st request).st = st ∧
      ((∀ o ∈ db.offersSell ++ db.offersBuy ++ st.bcstUncOffers ++ st.uncOffers,
          o.hash ≠ ctx.uint256S strOfferHash) →
        (getdexoffer ctx st request).ret = Except.ok (UniValue.VOBJ (JsonObj.fields []))) := by
  have hz' : ctx.uint256S strOfferHash ≠ 0 := by simpa using hz
  have main : getdexoffer ctx st request
      = RpcResult.returns st [] (match firstByHash db st (ctx.uint256S strOfferHash) with
            | none => UniValue.VOBJ (JsonObj.fields [])
            | some offer => UniValue.VOBJ (JsonObj.offer offer [])) := by
    simp only [getdexoffer, hfx, hself, hhelp, hp, hs, hz, Bool.not_true, Bool.false_eq_true,
      if_false, firstByHash, DexDB.isExistOfferSellByHash, DexDB.isExistOfferBuyByHash,
      any_hash_of_find?, DexDB.getOfferSellByHash, DexDB.getOfferBuyByHash]
    cases h1 : db.offersSell.find? (fun o => o.hash == ctx.uint256S strOfferHash) with
    | some info =>
      have := find?_hash _ _ _ h1
      simp [CDexOffer.IsNull, CDexOffer.ofOfferInfo, this, hz']
    | none =>
      cases h2 : db.offersBuy.find? (fun o => o.hash == ctx.uint256S strOfferHash) with
      | some info =>
        have := find?_hash _ _ _ h2
        simp [CDexOffer.IsNull, CDexOffer.ofOfferInfo, this, hz']
      | none =>
        simp only [Option.isSome_none, Bool.false_eq_true, if_false,
          getOfferByHash_isNull _ _ hz']
        cases h3 : st.bcstUncOffers.find? (fun o => o.hash == ctx.uint256S strOfferHash) with
        | some o =>
          have := find?_hash _ _ _ h3
          simp [getOfferByHash, h3, CDexOffer.IsNull, this, hz']
        | none =>
          cases h4 : st.uncOffers.find? (fun o => o.hash == ctx.uint256S strOfferHash) with
          | some o =>
            have := find?_hash _ _ _ h4
            simp [getOfferByHash, h4, CDexOffer.IsNull, this, hz']
          | none => simp [getOfferByHash, h4, CDexOffer.IsNull, CDexOffer.null]
  rw [main]
  refine ⟨rfl, rfl, ?_⟩
  intro habs
  have hnone : ∀ l : List CDexOffer,
      (∀ o ∈ l, o.hash ≠ ctx.uint256S strOfferHash) →
      l.find? (fun o => o.hash == ctx.uint256S strOfferHash) = none := by
    intro l hl
    rw [List.find?_eq_none]
    intro o ho
    simpa using hl o ho
  have e1 := hnone db.offersSell (fun o ho => habs o (by simp [ho]))
  have e2 := hnone db.offersBuy (fun o ho => habs o (by simp [ho]))
  have e3 := hnone st.bcstUncOffers (fun o ho => habs o (by simp [ho]))
  have e4 := hnone st.uncOffers (fun o ho => habs o (by simp [ho]))
  simp [firstByHash, e1, e2, e3, e4, RpcResult.returns]

/-- Witness of C19: the hash 0xff is nowhere and gives the empty object; the hash 0xb1 is
only in the tracker of own unconfirmed offers and gives that offer. -/
theorem getdexoffer_first_found_witness :
    (getdexoffer sampleCtx sampleRpcStateUnc { fHelp := false, params := ["ff"] }).ret
        = Except.ok (UniValue.VOBJ (JsonObj.fields [])) ∧
      (getdexoffer sampleCtx sampleRpcStateUnc { fHelp := false, params := ["b1"] }).ret
        = Except.ok (UniValue.VOBJ (JsonObj.offer { sampleBuy with hash := 177 } [])) :=
  ⟨(getdexoffer_first_found sampleCtx sampleRpcStateUnc { fHelp := false, params := ["ff"] }
      sampleDb "ff" [] rfl rfl rfl rfl (by decide) (by decide)).2.2 (by decide),
    (getdexoffer_first_found sampleCtx sampleRpcStateUnc { fHelp := false, params := ["b1"] }
      sampleDb "b1" [] rfl rfl rfl rfl (by decide) (by decide)).1⟩

/-- C20. For a request of `dexsync` that passes the guards with the single parameter `key`:
the key reset never throws, returns the status "reset sunc" exactly when `reset()` returns
true and "reset is not available now" exactly when it returns false; the key status returns
the sync status; the key force-synced calls `forceSynced()`; every other key throws
"wrong parameter". -/
theorem dexsync_keys (ctx : RpcCtx) (st : RpcState) (request : JSONRPCRequest) (db : DexDB)
    (key : String) (hfx : ctx.fTxIndex = true) (hself : st.self = some db)
    (hhelp : request.fHelp = false) (hp : request.params = [key]) :
    (key = "reset" →
      (∃ value, (dexsync ctx st request).ret = Except.ok value) ∧
      ((dexsync ctx st request).ret
          = Except.ok (UniValue.VOBJ (JsonObj.fields [("status", JsonVal.str "reset sunc")]))
        ↔ (ctx.reset st).2 = true) ∧
      ((dexsync ctx st request).ret
          = Except.ok (UniValue.VOBJ
              (JsonObj.fields [("status", JsonVal.str "reset is not available now")]))
        ↔ (ctx.reset st).2 = false) ∧
      (dexsync ctx st request).st = (ctx.reset st).1 ∧
      (dexsync ctx st request).effects = [RpcEffect.dexsync "reset"]) ∧
    (key = "status" →
      (dexsync ctx st request).ret
          = Except.ok (UniValue.VOBJ (JsonObj.fields [("status", JsonVal.str st.syncStatus)])) ∧
      (dexsync ctx st request).st = st ∧ (dexsync ctx st request).effects = []) ∧
    (key = "force-synced" →
      (dexsync ctx st request).ret
          = Except.ok (UniValue.VOBJ (JsonObj.fields [("status", JsonVal.str "force synced")])) ∧
      (dexsync ctx st request).st = ctx.forceSynced st ∧
      (dexsync ctx st request).effects = [RpcEffect.dexsync "forceSynced"]) ∧
    (key ≠ "status" → key ≠ "reset" → key ≠ "force-synced" →
      (dexsync ctx st request).ret = Except.error ("\nwrong parameter " ++ key ++ "\n") ∧
      (dexsync ctx st request).st = st ∧ (dexsync ctx st request).effects = []) := by
  refine ⟨?_, ?_, ?_, ?_⟩
  · intro hk
    subst hk
    cases hr : (ctx.reset st).2
    · simp [dexsync, hfx, hself, hhelp, hp, hr, RpcResult.returns]
    · simp [dexsync, hfx, hself, hhelp, hp, hr, RpcResult.returns]
  · intro hk
    subst hk
    simp [dexsync, hfx, hself, hhelp, hp, RpcResult.returns]
  · intro hk
    subst hk
    simp [dexsync, hfx, hself, hhelp, hp, RpcResult.returns]
  · intro h1 h2 h3
    simp [dexsync, hfx, hself, hhelp, hp, h1, h2, h3, RpcResult.throw]

/-- Witness of C20: a refused reset comes back as a result, not as an error. -/
theorem dexsync_keys_witness :
    (dexsync sampleCtxBusy sampleRpcState { fHelp := false, params := ["reset"] }).ret
      = Except.ok (UniValue.VOBJ
          (JsonObj.fields [("status", JsonVal.str "reset is not available now")])) :=
  ((dexsync_keys sampleCtxBusy sampleRpcState { fHelp := false, params := ["reset"] }
    sampleDb "reset" rfl rfl rfl rfl).1 rfl).2.2.1.mpr rfl

/-! ## Further claims about `ProcessMessage` -/

theorem pushes_ProcessMessage_of_new (env : Env) (pfrom : CNode) (vRecv : CDataStream)
    (st : DexState) (hc : env.Check vRecv.offer = true)
    (ht : env.CheckOfferTx vRecv.offer = true)
    (hnew : st.db.isExistOffer vRecv.offer = false) :
    pushes (ProcessMessage env pfrom NetMsgType.DEXOFFBCST vRecv st).2
      = env.CopyNodeVector.map (fun pNode =>
          (pNode, CNetMsgMaker.Make pNode.nSendVersion NetMsgType.DEXOFFBCST vRecv.offer)) := by
  by_cases hb : vRecv.offer.isBuy = true
  · have hn : st.db.isExistOfferBuy vRecv.offer.idTransaction = false := by
      simpa [DexDB.isExistOffer, hb, vRecv.offer.isSell_eq_false_of_isBuy hb] using hnew
    rw [ProcessMessage_buy_new env pfrom vRecv st hc ht hb hn]
    simp [pushes_append, pushes, relayEffects, pushes_map_PushMessage]
  · have hb2 : vRecv.offer.isBuy = false := by simpa using hb
    by_cases hs : vRecv.offer.isSell = true
    · have hn : st.db.isExistOfferSell vRecv.offer.idTransaction = false := by
        simpa [DexDB.isExistOffer, hs, hb2] using hnew
      rw [ProcessMessage_sell_new env pfrom vRecv st hc ht hs hn]
      simp [pushes_append, pushes, relayEffects, pushes_map_PushMessage]
    · have hs2 : vRecv.offer.isSell = false := by simpa using hs
      rw [ProcessMessage_other env pfrom vRecv st hc ht hb2 hs2]
      simp [pushes_append, pushes, relayEffects, pushes_map_PushMessage]

/-- C23. For an offer that passes both checks at every delivery and is neither a buy nor a
sell offer, every delivery of the same DEXOFFBCST message, the first and each repeated one,
enters the relay block and pushes one message to each node of the node vector of that moment
that is fully connected, in the order of the vector and to no other node, each with the
command DEXOFFBCST, the send version of its node and the received offer unchanged; it makes
no insertion, and the state after all the deliveries is the state before them. -/
theorem deliverAll_untyped_relays_every_time (vRecv : CDataStream) (ds : List Delivery)
    (st : DexState)
    (hvalid : ∀ d ∈ ds, d.env.Check vRecv.offer = true ∧ d.env.CheckOfferTx vRecv.offer = true)
    (hb : vRecv.offer.isBuy = false) (hs : vRecv.offer.isSell = false) :
    (deliverAll NetMsgType.DEXOFFBCST vRecv ds st).1 = st ∧
      (deliverAll NetMsgType.DEXOFFBCST vRecv ds st).2.map relayFired
        = List.replicate ds.length true ∧
      (deliverAll NetMsgType.DEXOFFBCST vRecv ds st).2.map pushes
        = ds.map (fun d =>
            (d.env.vNodes.filter (fun pNode => pNode.fFullyConnected)).map (fun pNode =>
              (pNode, { command := NetMsgType.DEXOFFBCST, nVersion := pNode.nSendVersion,
                        data := { offer := vRecv.offer, vchSign := [] } }))) ∧
      (deliverAll NetMsgType.DEXOFFBCST vRecv ds st).2.map (List.filter Effect.isInsert)
        = List.replicate ds.length [] := by
  induction ds with
  | nil => simp [deliverAll]
  | cons d ds ih =>
    have hd := hvalid d (List.mem_cons_self _ _)
    have h1 := ProcessMessage_other d.env d.pfrom vRecv st hd.1 hd.2 hb hs
    have ih1 := ih (fun x hx => hvalid x (List.mem_cons_of_mem _ hx))
    have e1 : (ProcessMessage d.env d.pfrom NetMsgType.DEXOFFBCST vRecv st).1 = st := by
      rw [h1]
    have e2 : relayFired (ProcessMessage d.env d.pfrom NetMsgType.DEXOFFBCST vRecv st).2
        = true := by
      rw [h1]; exact relayFired_relayEffects d.env vRecv.offer _ _
    have e3 : pushes (ProcessMessage d.env d.pfrom NetMsgType.DEXOFFBCST vRecv st).2
        = (d.env.vNodes.filter (fun pNode => pNode.fFullyConnected)).map (fun pNode =>
            (pNode, { command := NetMsgType.DEXOFFBCST, nVersion := pNode.nSendVersion,
                      data := { offer := vRecv.offer, vchSign := [] } })) := by
      rw [h1]
      simp [pushes_append, pushes, relayEffects, pushes_map_PushMessage, Env.CopyNodeVector,
        CNetMsgMaker.Make]
    have e4 : (ProcessMessage d.env d.pfrom NetMsgType.DEXOFFBCST vRecv st).2.filter
        Effect.isInsert = [] := by
      rw [h1]
      simp [List.filter_append, filter_isInsert_relayEffects, Effect.isInsert]
    simp only [deliverAll, e1, ih1.1, List.map_cons, e2, ih1.2.1, e3, ih1.2.2.1, e4,
      ih1.2.2.2, List.length_cons, List.replicate_succ, and_self]

/-- Witness of C23: three deliveries of an offer of the type swap into an empty store, the
first two with the peers 1, 2, 3 of which 2 is not fully connected, the third with no peer.
The store stays empty, each delivery enters the relay block, and the first two push the offer
to the peers 1 and 3. -/
theorem deliverAll_untyped_relays_every_time_witness :
    (deliverAll NetMsgType.DEXOFFBCST { offer := sampleUntyped, vchSign := [] }
        sampleDeliveries sampleState).1 = sampleState ∧
      (deliverAll NetMsgType.DEXOFFBCST { offer := sampleUntyped, vchSign := [] }
        sampleDeliveries sampleState).2.map relayFired = [true, true, true] ∧
      (deliverAll NetMsgType.DEXOFFBCST { offer := sampleUntyped, vchSign := [] }
        sampleDeliveries sampleState).2.map pushes
        = [ [ ({ id := 1, fFullyConnected := true, nSendVersion := 70208 },
                { command := NetMsgType.DEXOFFBCST, nVersion := 70208,
                  data := { offer := sampleUntyped, vchSign := [] } }),
              ({ id := 3, fFullyConnected := true, nSendVersion := 70206 },
                { command := NetMsgType.DEXOFFBCST, nVersion := 70206,
                  data := { offer := sampleUntyped, vchSign := [] } }) ],
            [ ({ id := 1, fFullyConnected := true, nSendVersion := 70208 },
                { command := NetMsgType.DEXOFFBCST, nVersion := 70208,
                  data := { offer := sampleUntyped, vchSign := [] } }),
              ({ id := 3, fFullyConnected := true, nSendVersion := 70206 },
                { command := NetMsgType.DEXOFFBCST, nVersion := 70206,
                  data := { offer := sampleUntyped, vchSign := [] } }) ],
            [] ] ∧
      (deliverAll NetMsgType.DEXOFFBCST { offer := sampleUntyped, vchSign := [] }
        sampleDeliveries sampleState).2.map (List.filter Effect.isInsert) = [[], [], []] :=
  have h := deliverAll_untyped_relays_every_time { offer := sampleUntyped, vchSign := [] }
    sampleDeliveries sampleState
    (by
      intro d hd
      simp only [sampleDeliveries, List.mem_cons, List.mem_singleton, List.not_mem_nil,
        or_false] at hd
      rcases hd with rfl | rfl | rfl <;> exact ⟨rfl, rfl⟩)
    (by decide) (by decide)
  ⟨h.1, h.2.1, h.2.2.1, h.2.2.2⟩

/-- C24. Two calls of `ProcessMessage` that differ only in the sending peer give the same
state and the same calls, hence the same pushed (peer, message) pairs; and a valid novel offer
is pushed to the sender too when the sender is in the node vector and fully connected. -/
theorem ProcessMessage_independent_of_pfrom (env : Env) (pfrom1 pfrom2 : CNode)
    (strCommand : String) (vRecv : CDataStream) (st : DexState) :
    ProcessMessage env pfrom1 strCommand vRecv st
        = ProcessMessage env pfrom2 strCommand vRecv st ∧
      (env.Check vRecv.offer = true → env.CheckOfferTx vRecv.offer = true →
        st.db.isExistOffer vRecv.offer = false → pfrom1 ∈ env.vNodes →
        pfrom1.fFullyConnected = true →
        (pfrom1, CNetMsgMaker.Make pfrom1.nSendVersion NetMsgType.DEXOFFBCST vRecv.offer)
          ∈ pushes (ProcessMessage env pfrom1 NetMsgType.DEXOFFBCST vRecv st).2) := by
  refine ⟨rfl, ?_⟩
  intro hc ht hnew hmem hfull
  rw [pushes_ProcessMessage_of_new env pfrom1 vRecv st hc ht hnew]
  refine List.mem_map.mpr ⟨pfrom1, ?_, rfl⟩
  simp [Env.CopyNodeVector, hmem, hfull]

/-- Witness of C24: the first peer of the node vector sends a novel buy offer and is pushed
the same offer back. -/
theorem ProcessMessage_independent_of_pfrom_witness :
    ({ id := 1, fFullyConnected := true, nSendVersion := 70208 },
        CNetMsgMaker.Make 70208 NetMsgType.DEXOFFBCST sampleBuy)
      ∈ pushes (ProcessMessage sampleEnv
          { id := 1, fFullyConnected := true, nSendVersion := 70208 }
          NetMsgType.DEXOFFBCST { offer := sampleBuy, vchSign := [] } sampleState).2 :=
  (ProcessMessage_independent_of_pfrom sampleEnv
    { id := 1, fFullyConnected := true, nSendVersion := 70208 } samplePfrom
    NetMsgType.DEXOFFBCST { offer := sampleBuy, vchSign := [] } sampleState).2
    rfl rfl (by decide) (by decide) rfl

/-! ## Further claims about `editdexoffer` -/

theorem editdexoffer_of_reads_draft_eq (ctx : RpcCtx) (st : RpcState)
    (request : JSONRPCRequest) (db : DexDB) (currentMyOffer offer : MyOfferInfo)
    (h : editdexofferReads ctx st request db currentMyOffer offer)
    (hd : currentMyOffer.status = StatusOffer.Draft) :
    editdexoffer ctx st request
      = (if !(ctx.addOrEditDraftMyOffer db
            { offer with status := StatusOffer.Draft, editingVersion := 0 }).1.isExistMyOfferByHash
              (ctx.addOrEditDraftMyOffer db
                { offer with status := StatusOffer.Draft, editingVersion := 0 }).2.hash then
          RpcResult.throw
            { st with self := some (ctx.addOrEditDraftMyOffer db
                { offer with status := StatusOffer.Draft, editingVersion := 0 }).1 }
            [RpcEffect.addOrEditDraftMyOffer
              { offer with status := StatusOffer.Draft, editingVersion := 0 }]
            "\nERROR: the operation failed"
        else
          RpcResult.returns
            { st with self := some (ctx.addOrEditDraftMyOffer db
                { offer with status := StatusOffer.Draft, editingVersion := 0 }).1 }
            [RpcEffect.addOrEditDraftMyOffer
              { offer with status := StatusOffer.Draft, editingVersion := 0 }]
            (UniValue.VOBJ (JsonObj.fields [("new hash", JsonVal.hex
              (ctx.addOrEditDraftMyOffer db
                { offer with status := StatusOffer.Draft, editingVersion := 0 }).2.hash)]))) := by
  obtain ⟨hfx, hself, hhelp, s, j, hp, hs, hz, hex, hget, hjson⟩ := h
  simp [editdexoffer, hfx, hself, hhelp, hp, hs, hz, hex, hget, hjson, hd]

theorem editdexoffer_of_reads_draft (ctx : RpcCtx) (st : RpcState)
    (request : JSONRPCRequest) (db : DexDB) (currentMyOffer offer : MyOfferInfo)
    (h : editdexofferReads ctx st request db currentMyOffer offer)
    (hd : currentMyOffer.status = StatusOffer.Draft) :
    (editdexoffer ctx st request).effects
      = [RpcEffect.addOrEditDraftMyOffer
          { offer with status := StatusOffer.Draft, editingVersion := 0 }] := by
  rw [editdexoffer_of_reads_draft_eq ctx st request db currentMyOffer offer h hd]
  split <;> rfl

theorem editdexoffer_of_reads_other (ctx : RpcCtx) (st : RpcState)
    (request : JSONRPCRequest) (db : DexDB) (currentMyOffer offer : MyOfferInfo)
    (h : editdexofferReads ctx st request db currentMyOffer offer)
    (hd : currentMyOffer.status ≠ StatusOffer.Draft)
    (ha : currentMyOffer.status ≠ StatusOffer.Active) :
    editdexoffer ctx st request = RpcResult.returns st [] UniValue.NullUniValue := by
  obtain ⟨hfx, hself, hhelp, s, j, hp, hs, hz, hex, hget, hjson⟩ := h
  simp [editdexoffer, hfx, hself, hhelp, hp, hs, hz, hex, hget, hjson, hd, ha]

theorem rpcPrepared_editdexofferActive (ctx : RpcCtx) (st : RpcState) (db : DexDB)
    (currentMyOffer offer : MyOfferInfo) :
    ∀ handed ∈ rpcPrepared (editdexofferActive ctx st db currentMyOffer offer).effects,
      handed = { currentMyOffer with
        price := offer.price, shortInfo := offer.shortInfo, details := offer.details } := by
  intro handed hmem
  unfold editdexofferActive at hmem
  (repeat' (first | split at hmem | dsimp only at hmem)) <;>
    simp [RpcResult.throw, RpcResult.returns, rpcPrepared] at hmem <;> exact hmem

/-- C26. For a stored own offer whose status is Expired, Cancelled, Suspended, Unconfirmed or
`Indefined` and an edit whose JSON text reads without error, `editdexoffer` returns the null
value without throwing, leaves the state as it was and makes no call: nothing is written to
the store and nothing is sent. -/
theorem editdexoffer_other_status_noop (ctx : RpcCtx) (st : RpcState)
    (request : JSONRPCRequest) (db : DexDB) (currentMyOffer offer : MyOfferInfo)
    (h : editdexofferReads ctx st request db currentMyOffer offer)
    (hs : currentMyOffer.status = StatusOffer.Expired ∨
      currentMyOffer.status = StatusOffer.Cancelled ∨
      currentMyOffer.status = StatusOffer.Suspended ∨
      currentMyOffer.status = StatusOffer.Unconfirmed ∨
      currentMyOffer.status = StatusOffer.Indefined) :
    (editdexoffer ctx st request).ret = Except.ok UniValue.NullUniValue ∧
      (editdexoffer ctx st request).st = st ∧
      (editdexoffer ctx st request).effects = [] := by
  have hd : currentMyOffer.status ≠ StatusOffer.Draft := by
    rcases hs with h | h | h | h | h <;> rw [h] <;> decide
  have ha : currentMyOffer.status ≠ StatusOffer.Active := by
    rcases hs with h | h | h | h | h <;> rw [h] <;> decide
  rw [editdexoffer_of_reads_other ctx st request db currentMyOffer offer h hd ha]
  exact ⟨rfl, rfl, rfl⟩

theorem sampleReadsExpired :
    editdexofferReads (sampleCtxJson sampleEdit) sampleRpcStateExpired
      { fHelp := false, params := ["a6", "json"] }
      { offersBuy := [], offersSell := [], myOffers := [sampleExpired] } sampleExpired
      sampleEdit :=
  ⟨rfl, rfl, rfl, "a6", "json", rfl, by decide, by decide, by decide, by decide, rfl⟩

/-- Witness of C26: an edit of an expired own offer. -/
theorem editdexoffer_other_status_noop_witness :
    (editdexoffer (sampleCtxJson sampleEdit) sampleRpcStateExpired
        { fHelp := false, params := ["a6", "json"] }).ret
        = Except.ok UniValue.NullUniValue ∧
      (editdexoffer (sampleCtxJson sampleEdit) sampleRpcStateExpired
        { fHelp := false, params := ["a6", "json"] }).st = sampleRpcStateExpired :=
  have h := editdexoffer_other_status_noop (sampleCtxJson sampleEdit) sampleRpcStateExpired
    { fHelp := false, params := ["a6", "json"] }
    { offersBuy := [], offersSell := [], myOffers := [sampleExpired] } sampleExpired
    sampleEdit sampleReadsExpired (Or.inl rfl)
  ⟨h.1, h.2.1⟩

theorem sampleReadsDraft0 :
    editdexofferReads sampleCtxDraft sampleRpcStateDraft0
      { fHelp := false, params := ["a4", "json"] }
      { offersBuy := [], offersSell := [], myOffers := [sampleDraft0] } sampleDraft0
      sampleDraftEdit :=
  ⟨rfl, rfl, rfl, "a4", "json", rfl, by decide, by decide, by decide, by decide, rfl⟩

/-- What `editdexoffer` does with `editingVersion` before it calls the manager (rpc.cpp lines
855-900): for a stored draft the offer it hands to `addOrEditDraftMyOffer` is the new data
with the status Draft and the editing version set to 0; for a stored active offer every
offer it hands to `prepareAndSendMyOffer` carries the stored editing version; and for any
other stored status it makes no call.  The editing version stored afterwards is up to these
two methods of the manager, whose bodies are not among the sources. -/
theorem editdexoffer_version_not_raised (ctx : RpcCtx) (st : RpcState)
    (request : JSONRPCRequest) (db : DexDB) (currentMyOffer offer : MyOfferInfo)
    (h : editdexofferReads ctx st request db currentMyOffer offer) :
    (currentMyOffer.status = StatusOffer.Draft →
      (editdexoffer ctx st request).effects
        = [RpcEffect.addOrEditDraftMyOffer
            { offer with status := StatusOffer.Draft, editingVersion := 0 }]) ∧
    (currentMyOffer.status = StatusOffer.Active →
      ∀ handed ∈ rpcPrepared (editdexoffer ctx st request).effects,
        handed.editingVersion = currentMyOffer.editingVersion) ∧
    (currentMyOffer.status ≠ StatusOffer.Draft → currentMyOffer.status ≠ StatusOffer.Active →
      (editdexoffer ctx st request).effects = []) := by
  refine ⟨?_, ?_, ?_⟩
  · intro hd
    exact editdexoffer_of_reads_draft ctx st request db currentMyOffer offer h hd
  · intro ha handed hmem
    rw [editdexoffer_of_reads_active ctx st request db currentMyOffer offer h ha] at hmem
    rw [rpcPrepared_editdexofferActive ctx st db currentMyOffer offer handed hmem]
  · intro hd ha
    rw [editdexoffer_of_reads_other ctx st request db currentMyOffer offer h hd ha]
    rfl

/-- The edit of the draft with hash 0xa4 hands over the new data with the editing version
0. -/
theorem editdexoffer_version_not_raised_witness :
    (editdexoffer sampleCtxDraft sampleRpcStateDraft0
        { fHelp := false, params := ["a4", "json"] }).effects
      = [RpcEffect.addOrEditDraftMyOffer
          { sampleDraftEdit with status := StatusOffer.Draft, editingVersion := 0 }] :=
  (editdexoffer_version_not_raised sampleCtxDraft sampleRpcStateDraft0
    { fHelp := false, params := ["a4", "json"] }
    { offersBuy := [], offersSell := [], myOffers := [sampleDraft0] } sampleDraft0
    sampleDraftEdit sampleReadsDraft0).1 rfl

/-! ## The unconfirmed-offer trackers -/

theorem Tracker.add_of_fresh (capacity : Nat) (pre : List CDexOffer) (offer : CDexOffer)
    (hfresh : ∀ o ∈ pre, o.hash ≠ offer.hash) (hroom : pre.length < capacity) :
    Tracker.add { capacity := capacity, entries := pre } offer
      = ({ capacity := capacity, entries := pre ++ [offer] }, none) := by
  have hany : pre.any (fun o => o.hash == offer.hash) = false := by
    rw [Bool.eq_false_iff]
    intro h
    rw [List.any_eq_true] at h
    obtain ⟨o, ho, heq⟩ := h
    exact hfresh o ho (by simpa using heq)
  have hnot : ¬ capacity ≤ pre.length := by omega
  simp only [Tracker.add, hany, Bool.false_eq_true, if_false, hnot]

theorem Tracker.add_of_full (capacity : Nat) (pre : List CDexOffer) (offer : CDexOffer)
    (hfresh : ∀ o ∈ pre, o.hash ≠ offer.hash) (hfull : capacity ≤ pre.length) :
    Tracker.add { capacity := capacity, entries := pre } offer
      = ({ capacity := capacity, entries := pre }, some TrackerError.CapacityExceeded) := by
  have hany : pre.any (fun o => o.hash == offer.hash) = false := by
    rw [Bool.eq_false_iff]
    intro h
    rw [List.any_eq_true] at h
    obtain ⟨o, ho, heq⟩ := h
    exact hfresh o ho (by simpa using heq)
  simp only [Tracker.add, hany, Bool.false_eq_true, if_false, hfull, if_true]

theorem Tracker.addAll_of_room (capacity : Nat) :
    ∀ (l pre : List CDexOffer),
      (pre ++ l).Pairwise (fun a b => a.hash ≠ b.hash) → (pre ++ l).length ≤ capacity →
      Tracker.addAll { capacity := capacity, entries := pre } l
        = { capacity := capacity, entries := pre ++ l } := by
  intro l
  induction l with
  | nil =>
    intro pre _ _
    simp only [Tracker.addAll, List.append_nil]
  | cons o l ih =>
    intro pre hd hlen
    have hfresh : ∀ a ∈ pre, a.hash ≠ o.hash := by
      intro a ha
      rw [List.pairwise_append] at hd
      exact hd.2.2 a ha o (List.mem_cons_self o l)
    have hroom : pre.length < capacity := by
      simp only [List.length_append, List.length_cons] at hlen
      omega
    have hassoc : pre ++ o :: l = (pre ++ [o]) ++ l := by simp
    simp only [Tracker.addAll]
    rw [Tracker.add_of_fresh capacity pre o hfresh hroom, hassoc]
    apply ih
    · rw [← hassoc]; exact hd
    · rw [← hassoc]; exact hlen

theorem Tracker.add_size_le (t : Tracker) (offer : CDexOffer) (h : t.size ≤ t.capacity) :
    (t.add offer).1.size ≤ (t.add offer).1.capacity ∧ (t.add offer).1.capacity = t.capacity := by
  unfold Tracker.size at h
  unfold Tracker.add Tracker.size
  split
  · simpa using h
  · split
    · exact ⟨h, rfl⟩
    · rename_i hfull
      refine ⟨?_, rfl⟩
      show (t.entries ++ [offer]).length ≤ t.capacity
      simp only [List.length_append, List.length_singleton]
      omega

theorem Tracker.addAll_size_le :
    ∀ (offers : List CDexOffer) (t : Tracker), t.size ≤ t.capacity →
      (t.addAll offers).size ≤ t.capacity := by
  intro offers
  induction offers with
  | nil => intro t h; exact h
  | cons o l ih =>
    intro t h
    have h1 := Tracker.add_size_le t o h
    have h2 := ih (t.add o).1 h1.1
    rw [h1.2] at h2
    exact h2

/-- C22. A tracker filled to its capacity with offers of distinct hashes, added in the order
`first :: rest`, holds exactly these offers; adding an offer with a new hash then fails with
`CapacityExceeded` and leaves the tracker as it was; `evictOldest` removes `first`, the offer
added first, and after it the insertion succeeds and puts the new offer last.  Whatever the
offers added, the tracker never holds more entries than its capacity. -/
theorem Tracker_bounded (capacity : Nat) (first : CDexOffer) (rest : List CDexOffer)
    (new : CDexOffer) (t : Tracker)
    (hbuilt : t = (Tracker.empty capacity).addAll (first :: rest))
    (hfull : (first :: rest).length = capacity)
    (hdistinct : (first :: rest).Pairwise (fun a b => a.hash ≠ b.hash))
    (hnew : ∀ o ∈ first :: rest, o.hash ≠ new.hash) :
    t.entries = first :: rest ∧ t.size = capacity ∧
      t.add new = (t, some TrackerError.CapacityExceeded) ∧
      t.evictOldest = ({ capacity := capacity, entries := rest }, some first) ∧
      t.evictOldest.1.add new = ({ capacity := capacity, entries := rest ++ [new] }, none) ∧
      (t.evictOldest.1.add new).1.size = capacity ∧
      ∀ offers : List CDexOffer, ((Tracker.empty capacity).addAll offers).size ≤ capacity := by
  have ht : t = { capacity := capacity, entries := first :: rest } := by
    rw [hbuilt]
    exact Tracker.addAll_of_room capacity (first :: rest) [] hdistinct (by simp [← hfull])
  have hev : t.evictOldest = ({ capacity := capacity, entries := rest }, some first) := by
    rw [ht]; rfl
  have hrestlen : rest.length < capacity := by
    simp only [List.length_cons] at hfull; omega
  have hadd : t.evictOldest.1.add new
      = ({ capacity := capacity, entries := rest ++ [new] }, none) := by
    rw [hev]
    exact Tracker.add_of_fresh capacity rest new
      (fun o ho => hnew o (List.mem_cons_of_mem first ho)) hrestlen
  refine ⟨by rw [ht], by rw [ht]; exact hfull, ?_, hev, hadd, ?_, ?_⟩
  · rw [ht]
    exact Tracker.add_of_full capacity (first :: rest) new hnew (by rw [hfull])
  · rw [hadd]
    simp only [Tracker.size, List.length_append, List.length_singleton]
    simp only [List.length_cons] at hfull
    exact hfull
  · intro offers
    exact Tracker.addAll_size_le offers (Tracker.empty capacity) (Nat.zero_le _)

/-- Witness of C22: a tracker of capacity 2 filled with `sampleBuy` then `sampleSell` refuses
`sampleUntyped`, evicts `sampleBuy`, and then accepts `sampleUntyped`. -/
theorem Tracker_bounded_witness :
    ((Tracker.empty 2).addAll [sampleBuy, sampleSell]).add sampleUntyped
        = ((Tracker.empty 2).addAll [sampleBuy, sampleSell],
            some TrackerError.CapacityExceeded) ∧
      ((Tracker.empty 2).addAll [sampleBuy, sampleSell]).evictOldest
        = ({ capacity := 2, entries := [sampleSell] }, some sampleBuy) ∧
      ((Tracker.empty 2).addAll [sampleBuy, sampleSell]).evictOldest.1.add sampleUntyped
        = ({ capacity := 2, entries := [sampleSell, sampleUntyped] }, none) :=
  have h := Tracker_bounded 2 sampleBuy [sampleSell] sampleUntyped
    ((Tracker.empty 2).addAll [sampleBuy, sampleSell]) rfl rfl (by decide) (by decide)
  ⟨h.2.2.1, h.2.2.2.1, h.2.2.2.2.1⟩

/-! ## The type filter after the parameter loops -/

theorem wrong_parameter_ne (p : String) :
    "\nwrong parameter: " ++ p ++ "\n" ≠ "\nwrong parameters\n" := by
  intro h
  have h2 := congrArg String.data h
  simp only [String.data_append] at h2
  have h3 := congrArg (fun l => l.get? 16) h2
  simp at h3

theorem dexoffersLoop_error_ne (ctx : RpcCtx) (db : DexDB) :
    ∀ (n : Nat) (l : List String) (i : Nat) (v : DexoffersVars) (e : String),
      l.length ≤ n → dexoffersLoop ctx db i l v = Except.error e →
      e ≠ "\nwrong parameters\n" := by
  intro n
  induction n with
  | zero =>
    intro l i v e hl h
    have : l = [] := List.length_eq_zero.mp (Nat.le_zero.mp hl)
    subst this
    simp only [dexoffersLoop] at h
    cases h
  | succ n ih =>
    intro l i v e hl h
    cases l with
    | nil =>
      simp only [dexoffersLoop] at h
      cases h
    | cons p rest =>
      have hrest : rest.length ≤ n := by simpa using hl
      rw [dexoffersLoop.eq_def] at h
      simp only at h
      repeat' (first
        | (cases h <;> first | decide | exact wrong_parameter_ne p)
        | (have hstep := ih _ (i + 1) _ e hrest h; exact hstep)
        | (have hstep := ih _ (i + 2) _ e
            (by simp only [List.length_cons] at hrest; omega) h; exact hstep)
        | split at h)

theorem dexofferscountLoop_error_ne (ctx : RpcCtx) (db : DexDB) :
    ∀ (l : List String) (i : Nat) (v : DexoffersVars) (e : String),
      dexofferscountLoop ctx db i l v = Except.error e → e ≠ "\nwrong parameters\n" := by
  intro l
  induction l with
  | nil =>
    intro i v e h
    simp only [dexofferscountLoop] at h
    cases h
  | cons p rest ih =>
    intro i v e h
    rw [dexofferscountLoop.eq_def] at h
    simp only at h
    repeat' (first
      | (cases h <;> first | decide | exact wrong_parameter_ne p)
      | (have hstep := ih (i + 1) _ e h; exact hstep)
      | split at h)

theorem dexofferscountLoop_typefilter_of_pos (ctx : RpcCtx) (db : DexDB) :
    ∀ (l : List String) (i : Nat) (v v' : DexoffersVars),
      i ≠ 0 → dexofferscountLoop ctx db i l v = Except.ok v' →
      v'.typefilter = v.typefilter := by
  intro l
  induction l with
  | nil =>
    intro i v v' _ h
    simp only [dexofferscountLoop, Except.ok.injEq] at h
    rw [← h]
  | cons p rest ih =>
    intro i v v' hi h
    have hi0 : (i == 0) = false := by simpa using hi
    rw [dexofferscountLoop.eq_def] at h
    simp only [hi0, Bool.false_and, Bool.false_eq_true, if_false] at h
    repeat' (first
      | cases h
      | (have hstep := ih (i + 1) _ v' (by omega) h; exact hstep)
      | split at h)

theorem dexoffersLoop_typefilter_first (ctx : RpcCtx) (db : DexDB) (p : String)
    (rest : List String) (v' : DexoffersVars)
    (h : dexoffersLoop ctx db 0 (p :: rest) {} = Except.ok v') :
    v'.typefilter = if ["buy", "sell", "all"].contains p then p else "all" := by
  have hpos := dexoffersLoop_typefilter_of_pos ctx db rest.length rest 1
  rw [dexoffersLoop.eq_def] at h
  have hE : "".isEmpty = true := by decide
  simp only [beq_self_eq_true, Bool.true_and, if_true, hE, Nat.zero_add] at h
  by_cases hw : ["buy", "sell", "all"].contains p = true
  · rw [if_pos hw]
    simp only [hw, if_true] at h
    repeat' (first
      | cases h
      | (have hstep := hpos _ v' (Nat.le_refl _) (by decide) h; exact hstep)
      | split at h)
  · rw [if_neg hw]
    have hw' := Bool.eq_false_iff.mpr hw
    simp only [hw', Bool.false_eq_true, if_false] at h
    repeat' (first
      | cases h
      | (have hstep := hpos _ v' (Nat.le_refl _) (by decide) h; exact hstep)
      | split at h)

theorem dexofferscountLoop_typefilter_first (ctx : RpcCtx) (db : DexDB) (p : String)
    (rest : List String) (v' : DexoffersVars)
    (h : dexofferscountLoop ctx db 0 (p :: rest) {} = Except.ok v') :
    v'.typefilter = if ["buy", "sell", "all"].contains p then p else "all" := by
  have hpos := dexofferscountLoop_typefilter_of_pos ctx db rest 1
  rw [dexofferscountLoop.eq_def] at h
  have hE : "".isEmpty = true := by decide
  simp only [beq_self_eq_true, Bool.true_and, if_true, hE, Nat.zero_add] at h
  by_cases hw : ["buy", "sell", "all"].contains p = true
  · rw [if_pos hw]
    simp only [hw, if_true] at h
    exact hpos _ v' (by decide) h
  · rw [if_neg hw]
    have hw' := Bool.eq_false_iff.mpr hw
    simp only [hw', Bool.false_eq_true, if_false] at h
    repeat' (first
      | cases h
      | (have hstep := hpos _ v' (by decide) h; exact hstep)
      | split at h)

theorem typefilter_words_of_first (p t : String)
    (h : t = if ["buy", "sell", "all"].contains p then p else "all") :
    (t = "buy" ∨ t = "sell" ∨ t = "all") ∧ t.isEmpty = false := by
  have hwords : t = "buy" ∨ t = "sell" ∨ t = "all" := by
    by_cases hw : ["buy", "sell", "all"].contains p = true
    · rw [if_pos hw] at h
      rw [h]
      simpa using hw
    · rw [if_neg hw] at h
      exact Or.inr (Or.inr h)
  refine ⟨hwords, ?_⟩
  rcases hwords with h1 | h1 | h1 <;> rw [h1] <;> decide

theorem dexoffers_not_wrong_parameters (ctx : RpcCtx) (st : RpcState)
    (request : JSONRPCRequest) :
    (dexoffers ctx st request).ret ≠ Except.error "\nwrong parameters\n" := by
  unfold dexoffers
  split
  · simp only [RpcResult.throw, ne_eq, Except.error.injEq]; decide
  · split
    · simp only [RpcResult.throw, ne_eq, Except.error.injEq]; decide
    · split
      · simp only [RpcResult.throw, ne_eq, Except.error.injEq]; decide
      · rename_i db _ hguard
        split
        · rename_i what hloop
          simp only [RpcResult.throw, ne_eq, Except.error.injEq]
          exact dexoffersLoop_error_ne ctx db request.params.length request.params 0 {} what
            (Nat.le_refl _) hloop
        · rename_i v hloop
          have hempty : v.typefilter.isEmpty = false := by
            cases hp : request.params with
            | nil => rw [hp] at hguard; simp at hguard
            | cons p rest =>
              rw [hp] at hloop
              exact (typefilter_words_of_first p v.typefilter
                (dexoffersLoop_typefilter_first ctx db p rest v hloop)).2
          simp only [hempty, Bool.false_eq_true, if_false]
          split
          · simp only [RpcResult.throw, ne_eq, Except.error.injEq]; decide
          · split
            · simp only [RpcResult.throw, ne_eq, Except.error.injEq]; decide
            · simp only [RpcResult.returns, ne_eq]
              intro h; cases h

theorem dexofferscount_not_wrong_parameters (ctx : RpcCtx) (st : RpcState)
    (request : JSONRPCRequest) :
    (dexofferscount ctx st request).ret ≠ Except.error "\nwrong parameters\n" := by
  unfold dexofferscount
  split
  · simp only [RpcResult.throw, ne_eq, Except.error.injEq]; decide
  · split
    · simp only [RpcResult.throw, ne_eq, Except.error.injEq]; decide
    · split
      · simp only [RpcResult.throw, ne_eq, Except.error.injEq]; decide
      · rename_i db _ hguard
        split
        · rename_i what hloop
          simp only [RpcResult.throw, ne_eq, Except.error.injEq]
          exact dexofferscountLoop_error_ne ctx db request.params 0 {} what hloop
        · rename_i v hloop
          have hempty : v.typefilter.isEmpty = false := by
            cases hp : request.params with
            | nil => rw [hp] at hguard; simp at hguard
            | cons p rest =>
              rw [hp] at hloop
              exact (typefilter_words_of_first p v.typefilter
                (dexofferscountLoop_typefilter_first ctx db p rest v hloop)).2
          simp only [hempty, Bool.false_eq_true, if_false]
          split
          · simp only [RpcResult.throw, ne_eq, Except.error.injEq]; decide
          · split
            · simp only [RpcResult.throw, ne_eq, Except.error.injEq]; decide
            · simp only [RpcResult.returns, ne_eq]
              intro h; cases h

/-- C25. The `wrong parameters` error of `dexoffers` and of `dexofferscount` is unreachable.
For every non-empty parameter list `p :: rest` (those of 1 to 8 strings among them), when
the parameter loop of either command finishes without throwing, `typefilter` is the first
parameter if that is one of `buy`, `sell`, `all` and is `all` otherwise, so it is one of the
three words and not empty; a first parameter `limit` makes the loop of `dexoffers` throw
`not enough parameters`; and neither command, on any request and in any state, throws
`wrong parameters`. -/
theorem wrong_parameters_unreachable (ctx : RpcCtx) (st : RpcState)
    (request : JSONRPCRequest) (db : DexDB) (p : String) (rest : List String) :
    (∀ v, dexoffersLoop ctx db 0 (p :: rest) {} = Except.ok v →
        v.typefilter = (if ["buy", "sell", "all"].contains p then p else "all") ∧
        (v.typefilter = "buy" ∨ v.typefilter = "sell" ∨ v.typefilter = "all") ∧
        v.typefilter.isEmpty = false) ∧
      (∀ v, dexofferscountLoop ctx db 0 (p :: rest) {} = Except.ok v →
        v.typefilter = (if ["buy", "sell", "all"].contains p then p else "all") ∧
        (v.typefilter = "buy" ∨ v.typefilter = "sell" ∨ v.typefilter = "all") ∧
        v.typefilter.isEmpty = false) ∧
      dexoffersLoop ctx db 0 ("limit" :: rest) {} = Except.error "\nnot enough parameters\n" ∧
      (dexoffers ctx st request).ret ≠ Except.error "\nwrong parameters\n" ∧
      (dexofferscount ctx st request).ret ≠ Except.error "\nwrong parameters\n" := by
  refine ⟨?_, ?_, ?_, dexoffers_not_wrong_parameters ctx st request,
    dexofferscount_not_wrong_parameters ctx st request⟩
  · intro v h
    have h1 := dexoffersLoop_typefilter_first ctx db p rest v h
    exact ⟨h1, typefilter_words_of_first p v.typefilter h1⟩
  · intro v h
    have h1 := dexofferscountLoop_typefilter_first ctx db p rest v h
    exact ⟨h1, typefilter_words_of_first p v.typefilter h1⟩
  · cases rest <;> rfl

/-- Witness of C25: on the single parameter `RU`, which is a country and none of the three
words, the loop of `dexoffers` finishes with `typefilter` set to `all`; on `sell` the loop of
`dexofferscount` finishes with `sell`; on `limit` the loop of `dexoffers` throws. -/
theorem wrong_parameters_unreachable_witness :
    dexoffersLoop sampleCtx sampleDb 0 ["RU"] {}
        = Except.ok { typefilter := "all", countryfilter := "RU" } ∧
      ({ typefilter := "all", countryfilter := "RU" } : DexoffersVars).typefilter = "all" ∧
      dexofferscountLoop sampleCtx sampleDb 0 ["sell"] {}
        = Except.ok { typefilter := "sell" } ∧
      ({ typefilter := "sell" } : DexoffersVars).typefilter = "sell" ∧
      dexoffersLoop sampleCtx sampleDb 0 ["limit"] {}
        = Except.error "\nnot enough parameters\n" :=
  have h := wrong_parameters_unreachable sampleCtx sampleRpcState
    { fHelp := false, params := ["RU"] } sampleDb "RU" []
  have h2 := wrong_parameters_unreachable sampleCtx sampleRpcState
    { fHelp := false, params := ["sell"] } sampleDb "sell" []
  ⟨rfl, (h.1 _ rfl).1, rfl, (h2.2.1 _ rfl).1, h.2.2.1⟩

end dex
